import Mathlib

/-!
# MindSpore Lite CPU kernels: element-wise self arithmetic and Winograd convolution

A shallow embedding of

* `mindspore/lite/src/runtime/kernel/arm/fp32/arithmetic_self.cc`
* `mindspore/lite/src/runtime/kernel/arm/fp32/convolution_winograd.cc`
* `mindspore/lite/src/ops/greater.cc`
* the calls and literal vectors of
  `mindspore/lite/test/ut/src/runtime/kernel/arm/int8/deconv_int8_tests.cc`

Conventions of the embedding.

* C++ `int` fields that hold counts, sizes and loop bounds are `Nat`; a value that the
  source lets go negative (the slice size of `DoArithmeticSelf`, status codes) is `Int`.
  No index or size computation of the modelled functions leaves the `int` range for
  buffers that fit in memory, so no wrap-around is modelled there; the `int` difference
  of `RestoreMulWeight` and the conversion to `int8_t` are taken modulo `2^32` and `2^8`.
* An integer division whose divisor can be zero makes the embedded function return `none`.
* Flat buffers reached through a pointer are functions `Nat → R` (index to element) or
  lists; a store through the pointer is `Function.update`.
* Outcomes of collaborators that are not part of the two files (`Prepare`, `malloc`,
  the base class, the lookup of transform functions) are explicit arguments. The thread
  pool is `ParallelLaunch` below where the tasks are modelled, and its status otherwise.
* The build without `ENABLE_ARM` is the one embedded.
-/

set_option linter.unusedVariables false

namespace MindSpore

/-! ## Status codes and macros -/

/-- Modelled from the spec: `include/errorcode.h` is not among the sources; the spec only
needs the success code to differ from the error codes. The values are the usual ones. -/
def RET_OK : Int := 0

/-- Modelled from the spec: generic error code of `include/errorcode.h`. -/
def RET_ERROR : Int := -1

/-- Modelled from the spec: allocation-failure code of `include/errorcode.h`. -/
def RET_MEMORY_FAILED : Int := -6

/-- Modelled from the spec: macro `MSMIN(x, y)` of `nnacl/op_base.h` (not among the
sources), the smaller of two values: `((x) < (y) ? (x) : (y))`. -/
def MSMIN {α : Type} [LT α] [DecidableRel (fun a b : α => a < b)] (x y : α) : α :=
  if x < y then x else y

/-- Modelled from the spec: macro `UP_DIV(x, y)` of `nnacl/op_base.h` (not among the
sources), the ceiling division `(((x) + (y) - (1)) / (y))`. In C++ it is undefined for
`y = 0`; callers below either guard `y ≠ 0` or report the undefined case. -/
def UP_DIV (x y : Nat) : Nat := (x + y - 1) / y

/-- A C `for (int i = 0; i < n; ++i) s = body(i, s)` loop. -/
def forLoop {σ : Type} (body : Nat → σ → σ) : Nat → σ → σ
  | 0, s => s
  | n + 1, s => body n (forLoop body n s)

/-- Modelled from the spec: `ParallelLaunch(pool, fn, cdata, task_num)` of the external
thread pool (`src/runtime/runtime_api.h`, not among the sources). Every task
`0 .. task_num - 1` runs to completion (a failing task does not abort its siblings), here
in index order, and the call reports the first non-OK status, or `RET_OK`. -/
def ParallelLaunch {σ : Type} (fn : σ → Nat → Int × σ) (cdata : σ) (task_num : Nat) : Int × σ :=
  forLoop (fun task_id acc =>
      let r := fn acc.2 task_id
      (if acc.1 ≠ RET_OK then acc.1 else r.1, r.2))
    task_num (RET_OK, cdata)

/-! ## Tensors -/

/-- Modelled from the spec: element type tags (`TypeId`, declared outside the sources);
the modelled code only tells `kNumberTypeUInt8` apart. -/
inductive TypeId where
  | kNumberTypeUInt8
  | kNumberTypeInt8
  | kNumberTypeInt32
  | kNumberTypeFloat32
  | kNumberTypeBool
  deriving DecidableEq, Repr

/-- Modelled from the spec: enumeration `schema::QuantType` (generated schema header, not
among the sources); the modelled code only tells `QuantType_WeightQuant` apart. -/
inductive QuantType where
  | QuantType_QUANT_NONE
  | QuantType_AwareTraining
  | QuantType_WeightQuant
  | QuantType_PostTraining
  deriving DecidableEq, Repr

/-- Modelled from the spec: one quantization parameter `(scale, zero_point)` of a tensor
(declared outside the sources); `R` is the type of the real scale. -/
structure QuantArg (R : Type) where
  scale : R
  zeroPoint : Int
  deriving DecidableEq

/-- Modelled from the spec: the buffer a tensor's data pointer refers to: nothing, bytes,
or reals. -/
inductive TensorData (R : Type) where
  | null
  | uint8 (q : List Nat)
  | float32 (d : List R)
  deriving DecidableEq

/-- Modelled from the spec: the part of `lite::tensor::Tensor` (declared outside the
sources) that the kernels read: element type, quantization parameters, data, and the
values of the accessors `Batch()` and `DataSize()` (the element count). -/
structure Tensor (R : Type) where
  data_type_ : TypeId
  quant_params_ : List (QuantArg R)
  data_ : TensorData R
  Batch : Nat
  DataSize : Nat
  deriving DecidableEq

namespace Tensor

variable {R : Type}

/-- Modelled from the spec: member `Tensor::SetData`, which replaces the data pointer. -/
def SetData (t : Tensor R) (d : TensorData R) : Tensor R := { t with data_ := d }

/-- Modelled from the spec: member `Tensor::FreeData`, which releases the buffer and
clears the data pointer. -/
def FreeData (t : Tensor R) : Tensor R := { t with data_ := TensorData.null }

/-- The byte `static_cast<const uint8_t*>(Data())[j]`. -/
def quantAt (t : Tensor R) (j : Nat) : Nat :=
  match t.data_ with
  | TensorData.uint8 q => q.getD j 0
  | _ => 0

/-- The buffer `reinterpret_cast<float *>(Data())`. -/
def floatData (t : Tensor R) : List R :=
  match t.data_ with
  | TensorData.float32 d => d
  | _ => []

end Tensor

/-- Modelled from the spec: constant `kPerTensor` (declared outside the sources): a
per-tensor quantized tensor carries one quantization parameter. -/
def kPerTensor : Nat := 1

/-- The value of an `int` expression: the mathematical value modulo `2^32` in
`-2^31 .. 2^31 - 1` (two's complement). -/
def toInt32 (value : Int) : Int := (value + 2147483648) % 4294967296 - 2147483648

/-- Function `RestoreMulWeight` (lines 72-117). `malloc_ok` is the outcome of the `malloc`,
`fresh` the indeterminate contents of the new block. The difference
`quant_data[j] - zero_point` is an `int` (`toInt32`); the product with the real scale and
the conversion to `float` are exact. -/
def RestoreMulWeight {R : Type} [Ring R] (input_tensor : Tensor R)
    (malloc_ok : Bool) (fresh : Nat → R) : Int × Tensor R :=
  if input_tensor.data_type_ ≠ TypeId.kNumberTypeUInt8 then (RET_ERROR, input_tensor)
  else if input_tensor.quant_params_.isEmpty then (RET_ERROR, input_tensor)
  else if !malloc_ok then (RET_ERROR, input_tensor)
  else if input_tensor.quant_params_.length ≠ kPerTensor then
    let channels := input_tensor.Batch
    if input_tensor.quant_params_.length ≠ channels then (RET_ERROR, input_tensor)
    else
      let per_channel_size := input_tensor.DataSize / channels
      let quant_param := input_tensor.quant_params_
      let dequant_data : Nat → R :=
        forLoop (fun i buf =>
            match quant_param.get? i with
            | none => buf
            | some param =>
              forLoop (fun j b =>
                  Function.update b (per_channel_size * i + j)
                    (((toInt32 ((input_tensor.quantAt (per_channel_size * i + j) : Int) - param.zeroPoint) : Int) : R)
                      * param.scale))
                per_channel_size buf)
          channels fresh
      (RET_OK, input_tensor.SetData
        (TensorData.float32 ((List.range input_tensor.DataSize).map dequant_data)))
  else
    match input_tensor.quant_params_.head? with
    | none => (RET_ERROR, input_tensor)
    | some param =>
      let dequant_data : Nat → R :=
        forLoop (fun j b =>
            Function.update b j
              (((toInt32 ((input_tensor.quantAt j : Int) - param.zeroPoint) : Int) : R) * param.scale))
          input_tensor.DataSize fresh
      (RET_OK, input_tensor.SetData
        (TensorData.float32 ((List.range input_tensor.DataSize).map dequant_data)))

/-! ## `ArithmeticSelfCPUKernel` -/

/-- The members of `ArithmeticSelfCPUKernel` that `arithmetic_self.cc` reads and writes
(the class declaration is not among the sources). `R` is the element type (`float`). The
element-wise function receives the input slice and returns its status with the contents
it leaves in the output slice. `in_ptr_` and `out_ptr_` are the buffers behind the two
pointers. `run_calls` is a ghost log of the `(offset, size)` windows handed to the
element-wise function: the windows of `in_ptr_` it reads and of `out_ptr_` it writes. -/
structure ArithmeticSelfCPUKernel (R : Type) where
  thread_count_ : Nat
  thread_sz_count_ : Nat
  thread_sz_stride_ : Nat
  data_size_ : Nat
  arithmeticSelf_run_ : Option (List R → Int × List R)
  in_ptr_ : List R
  out_ptr_ : List R
  run_calls : List (Nat × Nat)
  quant_type : QuantType
  in_tensors_ : List (Tensor R)
  out_tensors_ : List (Tensor R)

namespace ArithmeticSelfCPUKernel

variable {R : Type}

/-- Method `ArithmeticSelfCPUKernel::ReSize` (lines 37-42); `ElementsNum` is
`in_tensors_[0]->ElementsNum()`. The result is `none` when `UP_DIV` divides by
`thread_sz_count_ = 0`. -/
def ReSize (k : ArithmeticSelfCPUKernel R) (ElementsNum : Nat) :
    Option (Int × ArithmeticSelfCPUKernel R) :=
  let data_size_ := ElementsNum
  let thread_sz_count_ := MSMIN k.thread_count_ data_size_
  if thread_sz_count_ = 0 then none
  else
    let thread_sz_stride_ := UP_DIV data_size_ thread_sz_count_
    some (RET_OK, { k with data_size_ := data_size_
                           thread_sz_count_ := thread_sz_count_
                           thread_sz_stride_ := thread_sz_stride_ })

/-- Line 55: `MSMIN(thread_sz_stride_, static_cast<int>(data_size_ - task_id * thread_sz_stride_))`. -/
def sliceSize (k : ArithmeticSelfCPUKernel R) (task_id : Nat) : Int :=
  MSMIN (k.thread_sz_stride_ : Int)
    ((k.data_size_ : Int) - ((task_id * k.thread_sz_stride_ : Nat) : Int))

/-- Line 59: `task_id * thread_sz_stride_`. -/
def sliceOffset (k : ArithmeticSelfCPUKernel R) (task_id : Nat) : Nat :=
  task_id * k.thread_sz_stride_

/-- A store of `res` through `out_ptr_ + offset`. -/
def writeSlice (out : List R) (offset : Nat) (res : List R) : List R :=
  out.take offset ++ res ++ out.drop (offset + res.length)

/-- Method `ArithmeticSelfCPUKernel::DoArithmeticSelf` (lines 54-71). -/
def DoArithmeticSelf (k : ArithmeticSelfCPUKernel R) (task_id : Nat) :
    Int × ArithmeticSelfCPUKernel R :=
  let size := k.sliceSize task_id
  if size ≤ 0 then (RET_OK, k)
  else
    let offset := k.sliceOffset task_id
    match k.arithmeticSelf_run_ with
    | some run =>
      let r := run ((k.in_ptr_.drop offset).take size.toNat)
      let k1 := { k with out_ptr_ := writeSlice k.out_ptr_ offset r.2
                         run_calls := k.run_calls ++ [(offset, size.toNat)] }
      if r.1 ≠ RET_OK then (r.1, k1) else (RET_OK, k1)
    | none => (RET_ERROR, k)

/-- The index window `[offset, offset + size)` that `DoArithmeticSelf task_id` hands to the
element-wise function: index `x` is processed by task `task_id`. -/
def processes (k : ArithmeticSelfCPUKernel R) (task_id x : Nat) : Prop :=
  0 < k.sliceSize task_id ∧ k.sliceOffset task_id ≤ x ∧
    (x : Int) < (k.sliceOffset task_id : Int) + k.sliceSize task_id

instance (k : ArithmeticSelfCPUKernel R) (t x : Nat) : Decidable (k.processes t x) := by
  unfold processes; infer_instance

/-- Function `ArithmeticSelfRuns` (lines 44-52), the per-task wrapper given to the thread pool. -/
def ArithmeticSelfRuns (k : ArithmeticSelfCPUKernel R) (task_id : Nat) :
    Int × ArithmeticSelfCPUKernel R :=
  let r := k.DoArithmeticSelf task_id
  if r.1 ≠ RET_OK then (r.1, r.2) else (RET_OK, r.2)

/-- Lines 119-123 of `Run`: remember the weight data and dequantize the weight; the
status of `RestoreMulWeight` is not looked at. `none`: `in_tensors_[1]` does not exist. -/
def restoreWeight [Ring R] (k : ArithmeticSelfCPUKernel R) (malloc_ok : Bool)
    (fresh : Nat → R) : Option (TensorData R × ArithmeticSelfCPUKernel R) :=
  if k.quant_type = QuantType.QuantType_WeightQuant then
    match k.in_tensors_.get? 1 with
    | none => none
    | some w =>
      some (w.data_, { k with in_tensors_ := k.in_tensors_.set 1 (RestoreMulWeight w malloc_ok fresh).2 })
  else some (TensorData.null, k)

/-- Method `ArithmeticSelfCPUKernel::Run` (lines 118-143). `prepare_ret` is the status of
`Prepare()`; `malloc_ok` and `fresh` belong to the `malloc` of `RestoreMulWeight`. The
result is `none` when a tensor the code indexes does not exist. -/
def Run [Ring R] (k : ArithmeticSelfCPUKernel R) (prepare_ret : Int)
    (malloc_ok : Bool) (fresh : Nat → R) : Option (Int × ArithmeticSelfCPUKernel R) :=
  match k.restoreWeight malloc_ok fresh with
  | none => none
  | some (restore_data, k1) =>
    let ret := prepare_ret
    if ret ≠ RET_OK then some (ret, k1)
    else
      match k1.in_tensors_.get? 0, k1.out_tensors_.get? 0 with
      | some input_tensor, some out_tensor =>
        let k2 := { k1 with in_ptr_ := input_tensor.floatData, out_ptr_ := out_tensor.floatData }
        let r := ParallelLaunch ArithmeticSelfRuns k2 k2.thread_sz_count_
        let k3 := { r.2 with
          out_tensors_ := r.2.out_tensors_.set 0 (out_tensor.SetData (TensorData.float32 r.2.out_ptr_)) }
        if r.1 ≠ RET_OK then some (r.1, k3)
        else if k3.quant_type = QuantType.QuantType_WeightQuant then
          match k3.in_tensors_.get? 1 with
          | none => none
          | some w =>
            some (RET_OK, { k3 with in_tensors_ := k3.in_tensors_.set 1 (w.FreeData.SetData restore_data) })
        else some (RET_OK, k3)
      | _, _ => none

end ArithmeticSelfCPUKernel

/-! ## Winograd filter transform -/

section Winograd

variable {R : Type}

/-- Modelled from the spec: `MatrixMultiplyWinograd(matrix_a, matrix_b, matrix_c, m, k, n,
in_channel, c4_channel)` of nnacl (`nnacl/fp32/conv.h`, not among the sources), read as the
per-channel matrix product. `matrix_a` is `m × k × in_channel`, `matrix_b` is `k × n`, and
the `m × n × in_channel` result is stored element after element:
`matrix_c[(i * n + j) * in_channel + y] = Σ z < k, matrix_a[(i * k + z) * in_channel + y] *
matrix_b[z * n + j]`. The rest of `matrix_c` is not written. -/
def MatrixMultiplyWinograd [Semiring R] (matrix_a matrix_b matrix_c : Nat → R)
    (m k n in_channel c4_channel : Nat) : Nat → R :=
  fun idx =>
    if idx < m * n * in_channel then
      ∑ z ∈ Finset.range k,
        matrix_a ((idx / in_channel / n * k + z) * in_channel + idx % in_channel) *
          matrix_b (z * n + idx / in_channel % n)
    else matrix_c idx

/-- Modelled from the spec: `PackHWCToWHC(src, dst, height, width, channel)` of nnacl
(`nnacl/pack.h`, not among the sources), read as the per-channel transpose:
`dst[(j * height + i) * channel + c] = src[(i * width + j) * channel + c]` for `i < height`,
`j < width`, `c < channel`. The rest of `dst` is not written. -/
def PackHWCToWHC (src dst : Nat → R) (height width channel : Nat) : Nat → R :=
  fun idx =>
    if idx < width * height * channel then
      src ((idx / channel % height * width + idx / channel / height) * channel + idx % channel)
    else dst idx

/-- The scratch buffers of `WinogradFilterTransform` (build without `ENABLE_ARM`). -/
structure WinogradScratch (R : Type) where
  tmp_data : Nat → R
  trans_out_data : Nat → R
  tmp_data1 : Nat → R
  trans_out_data1 : Nat → R

/-- Lines 84-94: the two multiply-then-transpose steps for output channel `i`. -/
def filterTransformStep [Semiring R] (channel_in input_unit_ kernel_unit_ : Nat)
    (weight_data matrix_gt : Nat → R) (i : Nat) (s : WinogradScratch R) : WinogradScratch R :=
  let input_oz_offset := kernel_unit_ * kernel_unit_ * channel_in
  -- tmp_data = g * GT
  let tmp_data := MatrixMultiplyWinograd (fun n => weight_data (i * input_oz_offset + n)) matrix_gt
    s.tmp_data kernel_unit_ kernel_unit_ input_unit_ channel_in (channel_in * 4)
  -- tmp_data1 = (tmp_data)T
  let tmp_data1 := PackHWCToWHC tmp_data s.tmp_data1 kernel_unit_ input_unit_ channel_in
  -- trans_out_data1 = tmp * GT
  let trans_out_data1 := MatrixMultiplyWinograd tmp_data1 matrix_gt s.trans_out_data1
    input_unit_ kernel_unit_ input_unit_ channel_in (channel_in * 4)
  -- trans_out_data = (trans_out_data1)T
  let trans_out_data := PackHWCToWHC trans_out_data1 s.trans_out_data input_unit_ input_unit_ channel_in
  { tmp_data := tmp_data, trans_out_data := trans_out_data
    tmp_data1 := tmp_data1, trans_out_data1 := trans_out_data1 }

/-- The state of the scatter loops of lines 104-113. -/
structure ScatterState (R : Type) where
  trans_weight_ : Nat → R
  in_offset : Nat
  output_oz_offset : Nat

/-- Lines 107-111: the body of the `k` loop. -/
def scatterCell (channel_in oc_block block_num_stride : Nat) (trans_out_data : Nat → R)
    (st : ScatterState R) : ScatterState R :=
  { trans_weight_ := forLoop (fun c tw =>
        Function.update tw (st.output_oz_offset + c * oc_block) (trans_out_data (st.in_offset + c)))
      channel_in st.trans_weight_
    in_offset := st.in_offset + channel_in
    output_oz_offset := st.output_oz_offset + block_num_stride }

/-- Lines 104-113: the `j` and `k` loops that scatter `trans_out_data` into `trans_weight_`. -/
def scatter (channel_in input_unit_ oc_block block_num_stride : Nat) (trans_out_data : Nat → R)
    (trans_weight_ : Nat → R) (output_oz_offset : Nat) : Nat → R :=
  (forLoop (fun _ st =>
      forLoop (fun _ st1 => scatterCell channel_in oc_block block_num_stride trans_out_data st1)
        input_unit_ st)
    input_unit_
    { trans_weight_ := trans_weight_, in_offset := 0, output_oz_offset := output_oz_offset }).trans_weight_

/-- Lines 79-114: the body of the loop over the output channels. -/
def filterTransformChannel [Semiring R] (channel_in channel_out input_unit_ kernel_unit_ : Nat)
    (weight_data matrix_gt : Nat → R) (oc_block : Nat) (i : Nat)
    (st : (Nat → R) × WinogradScratch R) : (Nat → R) × WinogradScratch R :=
  let oc_block_num := UP_DIV channel_out oc_block
  let block_stride := channel_in * oc_block
  let block_num_stride := block_stride * oc_block_num
  let out_c_block := i / oc_block
  let out_c_res := i % oc_block
  let output_oz_offset := out_c_block * block_stride + out_c_res
  let s := filterTransformStep channel_in input_unit_ kernel_unit_ weight_data matrix_gt i st.2
  (scatter channel_in input_unit_ oc_block block_num_stride s.trans_out_data st.1 output_oz_offset, s)

/-- Method `ConvolutionWinogradCPUKernel::WinogradFilterTransform` (lines 33-122), build without
`ENABLE_ARM`. `channel_in`, `channel_out` are `conv_param_->input_channel_` and
`conv_param_->output_channel_`; `input_unit_`, `kernel_unit_` and `trans_weight_` are the
members of the kernel. Each of the four `malloc`s is given by its result: `none` for a
null pointer, `some b` for a block of indeterminate contents `b`. The result is the status
and the contents of `trans_weight_` on return. `matrix_g` is not read by the source. -/
def WinogradFilterTransform [Semiring R] (channel_in channel_out input_unit_ kernel_unit_ : Nat)
    (trans_weight_ : Nat → R) (weight_data matrix_g matrix_gt : Nat → R) (oc_block : Nat)
    (tmp_data trans_out_data tmp_data1 trans_out_data1 : Option (Nat → R)) : Int × (Nat → R) :=
  if oc_block = 0 then (RET_ERROR, trans_weight_)
  else
    match tmp_data with
    | none => (RET_MEMORY_FAILED, trans_weight_)
    | some tmp_data =>
      match trans_out_data with
      | none => (RET_MEMORY_FAILED, trans_weight_)
      | some trans_out_data =>
        match tmp_data1 with
        | none => (RET_MEMORY_FAILED, trans_weight_)
        | some tmp_data1 =>
          match trans_out_data1 with
          | none => (RET_MEMORY_FAILED, trans_weight_)
          | some trans_out_data1 =>
            (RET_OK,
              (forLoop
                (filterTransformChannel channel_in channel_out input_unit_ kernel_unit_
                  weight_data matrix_gt oc_block)
                channel_out
                (trans_weight_,
                  { tmp_data := tmp_data, trans_out_data := trans_out_data
                    tmp_data1 := tmp_data1, trans_out_data1 := trans_out_data1 })).1)

/-- The scatter state after `n` executions of the body of the `k` loop (lines 107-111). -/
def cells (channel_in oc_block block_num_stride : Nat) (trans_out_data : Nat → R) (n : Nat)
    (st : ScatterState R) : ScatterState R :=
  forLoop (fun _ st1 => scatterCell channel_in oc_block block_num_stride trans_out_data st1) n st

/-- The row-major offset of element `[p][i / oc_block][c][i % oc_block]` of a buffer of
shape `[input_unit², oc_block_num, channel_in, oc_block]`, where
`oc_block_num = UP_DIV(channel_out, oc_block)`. -/
def transWeightOffset (channel_in channel_out oc_block : Nat) (p c i : Nat) : Nat :=
  ((p * UP_DIV channel_out oc_block + i / oc_block) * channel_in + c) * oc_block + i % oc_block

/-- The offset the specification gives: the row-major offset of element
`[p][c][i / oc_block][i % oc_block]` of a buffer of shape
`[input_unit², channel_in, oc_block_count, oc_block]`. -/
def specTransWeightOffset (channel_in channel_out oc_block : Nat) (p c i : Nat) : Nat :=
  ((p * channel_in + c) * UP_DIV channel_out oc_block + i / oc_block) * oc_block + i % oc_block

/-- The matrix `Gᵀ` held row-major in `matrix_gt` (`kernel_unit × input_unit`). -/
def matrixGt (matrix_gt : Nat → R) (kernel_unit_ input_unit_ : Nat) :
    Matrix (Fin kernel_unit_) (Fin input_unit_) R :=
  Matrix.of fun a b => matrix_gt (a.val * input_unit_ + b.val)

/-- The `kernel_unit × kernel_unit` weights of output channel `i` and input channel `c`
in the `ohwi` weight buffer. -/
def weightSlice (weight_data : Nat → R) (channel_in kernel_unit_ i c : Nat) :
    Matrix (Fin kernel_unit_) (Fin kernel_unit_) R :=
  Matrix.of fun a b =>
    weight_data (i * (kernel_unit_ * kernel_unit_ * channel_in) +
      ((a.val * kernel_unit_ + b.val) * channel_in + c))

/-- The `input_unit × input_unit` matrix of input channel `c` in `trans_out_data`. -/
def transOutSlice (trans_out_data : Nat → R) (channel_in input_unit_ c : Nat) :
    Matrix (Fin input_unit_) (Fin input_unit_) R :=
  Matrix.of fun e b => trans_out_data ((e.val * input_unit_ + b.val) * channel_in + c)

/-- The specification of the filter transform: `trans = G · w · Gᵀ`, with `G` the
transpose of the given `Gᵀ`. -/
def specFilterTransform [CommSemiring R] {kernel_unit_ input_unit_ : Nat}
    (Gt : Matrix (Fin kernel_unit_) (Fin input_unit_) R)
    (w : Matrix (Fin kernel_unit_) (Fin kernel_unit_) R) :
    Matrix (Fin input_unit_) (Fin input_unit_) R :=
  Gt.transpose * w * Gt

end Winograd

/-! ## `ConvolutionWinogradCPUKernel`: scratch buffers and lifecycle -/

/-- Modelled from the spec: the per-run allocator `ctx_->allocator` (declared outside the
sources) as the set of its live blocks; `next` is the address the next successful `Malloc`
returns. -/
structure Allocator where
  live : Finset Nat
  next : Nat
  deriving DecidableEq

namespace Allocator

/-- Modelled from the spec: `allocator->Malloc(size)` yields a new live block or fails;
`ok` tells whether the allocation succeeds. -/
def Malloc (a : Allocator) (ok : Bool) : Option Nat × Allocator :=
  if ok then (some a.next, { live := insert a.next a.live, next := a.next + 1 })
  else (none, a)

/-- Modelled from the spec: `allocator->Free(ptr)` ends the life of the block. -/
def Free (a : Allocator) (ptr : Nat) : Allocator := { a with live := a.live.erase ptr }

end Allocator

/-- The fields of `ConvParameter` (declared outside the sources) that the modelled
functions use. -/
structure ConvParameter where
  kernel_h_ : Int
  input_unit_ : Int
  output_unit_ : Int
  act_type_ : Nat
  input_channel_ : Nat
  output_channel_ : Nat
  deriving DecidableEq

/-- The members of `ConvolutionWinogradCPUKernel` that `ReSize`, `ConfigInputOutput`,
`InitTmpBuffer` and `Run` use (the class declaration is not among the sources). `F` names the transform functions a function pointer can
point to; a null pointer is `none`. A scratch pointer is the address of its block. -/
structure ConvolutionWinogradCPUKernel (F : Type) where
  conv_param_ : ConvParameter
  kernel_unit_ : Int
  input_unit_ : Int
  output_unit_ : Int
  in_func_ : Option F
  out_func_ : Option F
  thread_count_ : Nat
  trans_input_ : Option Nat
  gemm_out_ : Option Nat
  tmp_data_ : Option Nat
  col_buffer_ : Option Nat
  tmp_buffer_address_list_ : List (Option Nat)
  allocator : Allocator
  deriving DecidableEq

namespace ConvolutionWinogradCPUKernel

variable {F : Type}

/-- The state that `ReSize` manages: `kernel_unit_`, `input_unit_`,
`conv_param_->input_unit_`, `conv_param_->output_unit_`, `in_func_` and `out_func_`. -/
def resizeState (k : ConvolutionWinogradCPUKernel F) :
    Int × Int × Int × Int × Option F × Option F :=
  (k.kernel_unit_, k.input_unit_, k.conv_param_.input_unit_, k.conv_param_.output_unit_,
    k.in_func_, k.out_func_)

/-- Method `ConvolutionWinogradCPUKernel::InitTmpBuffer` (lines 184-228). `ok1 .. ok4` are the
outcomes of the four `Malloc` calls, in program order. -/
def InitTmpBuffer (k : ConvolutionWinogradCPUKernel F) (ok1 ok2 ok3 ok4 : Bool) :
    Int × ConvolutionWinogradCPUKernel F :=
  let m1 := k.allocator.Malloc ok1
  let k1 := { k with trans_input_ := m1.1, allocator := m1.2 }
  if k1.trans_input_.isNone then (RET_MEMORY_FAILED, k1)
  else
    let m2 := k1.allocator.Malloc ok2
    let k2 := { k1 with gemm_out_ := m2.1, allocator := m2.2 }
    if k2.gemm_out_.isNone then (RET_ERROR, k2)
    else
      let m3 := k2.allocator.Malloc ok3
      let k3 := { k2 with tmp_data_ := m3.1, allocator := m3.2 }
      if k3.tmp_data_.isNone then (RET_MEMORY_FAILED, k3)
      else
        let m4 := k3.allocator.Malloc ok4
        let k4 := { k3 with col_buffer_ := m4.1, allocator := m4.2 }
        if k4.col_buffer_.isNone then (RET_ERROR, k4)
        else
          (RET_OK, { k4 with tmp_buffer_address_list_ :=
            [k4.trans_input_, k4.gemm_out_, k4.tmp_data_, k4.col_buffer_] })

/-- Modelled from the spec: `FreeTmpBuffer()` is defined in `convolution_winograd.h`, which
is not among the sources. It releases the scratch of a run: every scratch pointer that is
not null is given back to the allocator and set to null. -/
def FreeTmpBuffer (k : ConvolutionWinogradCPUKernel F) : ConvolutionWinogradCPUKernel F :=
  let free := fun (a : Allocator) (p : Option Nat) =>
    match p with
    | some b => a.Free b
    | none => a
  { k with
    allocator := free (free (free (free k.allocator k.trans_input_) k.tmp_data_) k.gemm_out_) k.col_buffer_
    trans_input_ := none, tmp_data_ := none, gemm_out_ := none, col_buffer_ := none }

/-- Method `ConvolutionWinogradCPUKernel::Run` (lines 305-327). `prepare_ret` is the status of
`Prepare()`, `ok1 .. ok4` the outcomes of the scratch allocations and `error_code` the
status of `ParallelLaunch`, whose tasks (`RunImpl`) neither allocate nor free. -/
def Run (k : ConvolutionWinogradCPUKernel F) (prepare_ret : Int) (ok1 ok2 ok3 ok4 : Bool)
    (error_code : Int) : Int × ConvolutionWinogradCPUKernel F :=
  if prepare_ret ≠ RET_OK then (prepare_ret, k)
  else
    let r := k.InitTmpBuffer ok1 ok2 ok3 ok4
    if r.1 ≠ RET_OK then (RET_ERROR, r.2)
    else if error_code ≠ RET_OK then (RET_ERROR, r.2.FreeTmpBuffer)
    else (RET_OK, r.2.FreeTmpBuffer)

/-- Method `ConvolutionWinogradCPUKernel::ConfigInputOutput` (lines 230-242). The lookup
functions `GetInputTransFunc` and `GetOutputTransFunc` of nnacl are not among the sources
and are arguments. -/
def ConfigInputOutput (k : ConvolutionWinogradCPUKernel F)
    (GetInputTransFunc : Int → Option F) (GetOutputTransFunc : Int → Int → Nat → Option F) :
    Int × ConvolutionWinogradCPUKernel F :=
  let k1 := { k with in_func_ := GetInputTransFunc k.input_unit_ }
  if k1.in_func_.isNone then (RET_ERROR, k1)
  else
    let k2 := { k1 with
      out_func_ := GetOutputTransFunc k1.input_unit_ k1.output_unit_ k1.conv_param_.act_type_ }
    if k2.out_func_.isNone then (RET_ERROR, k2)
    else (RET_OK, k2)

/-- Method `ConvolutionWinogradCPUKernel::ReSize` (lines 260-284). `check_ret` and `base_ret` are
the statuses of `ConvolutionBaseCPUKernel::CheckResizeValid()` and
`ConvolutionBaseCPUKernel::Init()` (base class, not among the sources; they leave the
fields modelled here alone). -/
def ReSize (k : ConvolutionWinogradCPUKernel F) (check_ret base_ret : Int)
    (GetInputTransFunc : Int → Option F) (GetOutputTransFunc : Int → Int → Nat → Option F) :
    Int × ConvolutionWinogradCPUKernel F :=
  if check_ret ≠ RET_OK then (check_ret, k)
  else if base_ret ≠ RET_OK then (RET_ERROR, k)
  else
    let k1 := { k with kernel_unit_ := k.conv_param_.kernel_h_ }
    let k2 := { k1 with input_unit_ := k1.output_unit_ + k1.kernel_unit_ - 1 }
    let k3 := { k2 with conv_param_ := { k2.conv_param_ with input_unit_ := k2.input_unit_ } }
    let k4 := { k3 with conv_param_ := { k3.conv_param_ with output_unit_ := k3.output_unit_ } }
    let r := k4.ConfigInputOutput GetInputTransFunc GetOutputTransFunc
    if r.1 ≠ RET_OK then (RET_ERROR, r.2)
    else (RET_OK, r.2)

end ConvolutionWinogradCPUKernel

/-! ## Concrete inputs -/

/-- A kernel with four threads, not yet resized, whose element-wise function is `abs`. -/
def exampleSelfKernel : ArithmeticSelfCPUKernel Int :=
  { thread_count_ := 4, thread_sz_count_ := 0, thread_sz_stride_ := 0, data_size_ := 0
    arithmeticSelf_run_ := some (fun input => (RET_OK, input.map (fun x => |x|)))
    in_ptr_ := [-1, 2, -3, 4, -5], out_ptr_ := [0, 0, 0, 0, 0], run_calls := []
    quant_type := QuantType.QuantType_QUANT_NONE
    in_tensors_ := [], out_tensors_ := [] }

/-- The kernel `exampleSelfKernel` after `ReSize` for five elements: four tasks of stride two. -/
def exampleSelfKernelResized : ArithmeticSelfCPUKernel Int :=
  { exampleSelfKernel with data_size_ := 5, thread_sz_count_ := 4, thread_sz_stride_ := 2 }

/-- A weight tensor of two bytes with one quantization parameter (scale 2, zero point 1). -/
def exampleWeight : Tensor Int :=
  { data_type_ := TypeId.kNumberTypeUInt8, quant_params_ := [{ scale := 2, zeroPoint := 1 }]
    data_ := TensorData.uint8 [3, 5], Batch := 1, DataSize := 2 }

/-- An input tensor of two reals. -/
def exampleInput : Tensor Int :=
  { data_type_ := TypeId.kNumberTypeFloat32, quant_params_ := []
    data_ := TensorData.float32 [-7, 9], Batch := 1, DataSize := 2 }

/-- An output tensor of two reals. -/
def exampleOutput : Tensor Int :=
  { data_type_ := TypeId.kNumberTypeFloat32, quant_params_ := []
    data_ := TensorData.float32 [0, 0], Batch := 1, DataSize := 2 }

/-- A resized weight-quantized kernel over `exampleInput`, `exampleWeight`, `exampleOutput`. -/
def exampleQuantKernel : ArithmeticSelfCPUKernel Int :=
  { thread_count_ := 1, thread_sz_count_ := 1, thread_sz_stride_ := 2, data_size_ := 2
    arithmeticSelf_run_ := some (fun input => (RET_OK, input.map (fun x => |x|)))
    in_ptr_ := [], out_ptr_ := [], run_calls := []
    quant_type := QuantType.QuantType_WeightQuant
    in_tensors_ := [exampleInput, exampleWeight], out_tensors_ := [exampleOutput] }

/-- Weights in `ohwi` order for `channel_in = 2`, `kernel_unit = 3`: output channel 0 is
all ones, every other output channel is zero. -/
def exampleWeightData : Nat → Int := fun n => if n < 18 then 1 else 0

/-- A `3 × 4` matrix `Gᵀ` of ones. -/
def exampleMatrixGt : Nat → Int := fun _ => 1

/-- A zero-filled block. -/
def exampleBlock : Nat → Int := fun _ => 0

/-- Scratch buffers for the filter transform, zero-filled. -/
def exampleScratch : WinogradScratch Int :=
  { tmp_data := exampleBlock, trans_out_data := exampleBlock
    tmp_data1 := exampleBlock, trans_out_data1 := exampleBlock }

/-- An example lookup of input transforms: tiles of 4, 6 and 8 are supported. -/
def exampleGetInputTransFunc (input_unit : Int) : Option Nat :=
  if input_unit = 4 then some 4 else if input_unit = 6 then some 6
  else if input_unit = 8 then some 8 else none

/-- An example lookup of output transforms: tile 4 with 2 or 3 outputs and an activation
kind below 3 is supported. -/
def exampleGetOutputTransFunc (input_unit output_unit : Int) (act_type : Nat) : Option Nat :=
  if input_unit = 4 ∧ 2 ≤ output_unit ∧ output_unit < 4 ∧ act_type < 3 then some 42 else none

/-- A Winograd kernel as `Init` leaves it for a `3 × 3` convolution with output tile 2,
before its first `ReSize`: no transform function chosen, no scratch allocated. The
activation kind 7 has no output transform in `exampleGetOutputTransFunc`. -/
def exampleWinogradKernel : ConvolutionWinogradCPUKernel Nat :=
  { conv_param_ := { kernel_h_ := 3, input_unit_ := 4, output_unit_ := 2, act_type_ := 7
                     input_channel_ := 2, output_channel_ := 9 }
    kernel_unit_ := 3, input_unit_ := 4, output_unit_ := 2
    in_func_ := none, out_func_ := none, thread_count_ := 2
    trans_input_ := none, gemm_out_ := none, tmp_data_ := none, col_buffer_ := none
    tmp_buffer_address_list_ := [none, none, none, none]
    allocator := { live := ∅, next := 0 } }

/-! ## Stores into a buffer -/

/-- The buffer transformer `T` stores exactly what `V` lists: it puts `x` at every address
`a` with `V a x` and leaves every address alone that `V` does not mention. -/
def Writes {α : Type} (T : (Nat → α) → (Nat → α)) (V : Nat → α → Prop) : Prop :=
  ∀ b a, (∀ x, V a x → T b a = x) ∧ ((∀ x, ¬ V a x) → T b a = b a)

/-! ## `ConvolutionWinogradCPUKernel`: weights, bias and `Init` -/

/-- Modelled from the spec: block size `C4NUM` of `nnacl/op_base.h` (not among the
sources). -/
def C4NUM : Nat := 4

/-- Modelled from the spec: block size `C8NUM` of `nnacl/op_base.h` (not among the
sources). -/
def C8NUM : Nat := 8

/-- Modelled from the spec: block size `C16NUM` of `nnacl/op_base.h` (not among the
sources). -/
def C16NUM : Nat := 16

/-- Modelled from the spec: constant `kInputSize2` (declared outside the sources): a
convolution with a bias has three input tensors. -/
def kInputSize2 : Nat := 3

/-- The members `trans_weight_` and `bias_data_` of `ConvolutionWinogradCPUKernel`: a null
pointer is `none`, otherwise the contents behind the pointer. -/
structure WinogradWeights (R : Type) where
  trans_weight_ : Option (Nat → R)
  bias_data_ : Option (Nat → R)

/-- What `InitWeightBias` takes from outside the kernel: `filter_Channel` and
`filter_Batch` are `Channel()` and `Batch()` of the weight tensor `in_tensors_.at(1)`,
`weight_data` its data, `in_tensors_size` is `in_tensors_.size()`, `ori_bias_addr` the data
of the bias tensor. `trans_weight_malloc` and `bias_malloc` are the results of the two
`malloc` calls of `InitWeightBias` (`none` for a null pointer, else the indeterminate
contents of the block), the four scratch fields those of `WinogradFilterTransform`.
`CookToomFilter` (nnacl, not among the sources) maps `coef`, `output_unit_` and
`kernel_unit_` to its status and the matrices `matrix_g` and `matrix_gt`. -/
structure WinogradInitEnv (R : Type) where
  filter_Channel : Nat
  filter_Batch : Nat
  weight_data : Nat → R
  in_tensors_size : Nat
  ori_bias_addr : Nat → R
  trans_weight_malloc : Option (Nat → R)
  bias_malloc : Option (Nat → R)
  CookToomFilter : ℚ → Int → Int → Int × (Nat → R) × (Nat → R)
  tmp_data : Option (Nat → R)
  trans_out_data : Option (Nat → R)
  tmp_data1 : Option (Nat → R)
  trans_out_data1 : Option (Nat → R)

/-- A call `memset(ptr, 0, size)` on a block of `size` elements. -/
def memsetZero {R : Type} [Zero R] (block : Nat → R) (size : Nat) : Nat → R :=
  fun idx => if idx < size then 0 else block idx

/-- A call `memcpy(dst, src, size)` of `size` elements. -/
def memcpy {R : Type} (dst src : Nat → R) (size : Nat) : Nat → R :=
  fun idx => if idx < size then src idx else dst idx

namespace ConvolutionWinogradCPUKernel

variable {F R : Type}

/-- The number of elements of the block that `InitWeightBias` allocates for
`trans_weight_` (line 136, without the factor `sizeof(float)`). -/
def transMatrixDataSize (input_unit_ : Int) (in_channel out_channel : Nat) : Nat :=
  input_unit_.toNat * input_unit_.toNat * in_channel * UP_DIV out_channel C8NUM * C8NUM

/-- Method `ConvolutionWinogradCPUKernel::InitWeightBias` (lines 124-182). The result is the
status, the kernel and its two buffers. -/
def InitWeightBias [Semiring R] (k : ConvolutionWinogradCPUKernel F) (w : WinogradWeights R)
    (env : WinogradInitEnv R) : Int × ConvolutionWinogradCPUKernel F × WinogradWeights R :=
  let in_channel := env.filter_Channel
  let out_channel := env.filter_Batch
  let k1 := { k with conv_param_ := { k.conv_param_ with input_channel_ := in_channel } }
  let k2 := { k1 with conv_param_ := { k1.conv_param_ with output_channel_ := out_channel } }
  let oc4 := UP_DIV out_channel C4NUM
  let oc_block := C8NUM
  -- set data
  let trans_matrix_data_size := transMatrixDataSize k2.input_unit_ in_channel out_channel
  match env.trans_weight_malloc with
  | none => (RET_MEMORY_FAILED, k2, { w with trans_weight_ := none })
  | some block =>
    let trans_weight_ := memsetZero block trans_matrix_data_size
    let coef : ℚ := if k2.input_unit_ = 8 then 1 / 2 else 1
    let cook := env.CookToomFilter coef k2.output_unit_ k2.kernel_unit_
    if cook.1 ≠ RET_OK then (cook.1, k2, { w with trans_weight_ := some trans_weight_ })
    else
      let r := WinogradFilterTransform k2.conv_param_.input_channel_ k2.conv_param_.output_channel_
        k2.input_unit_.toNat k2.kernel_unit_.toNat trans_weight_ env.weight_data cook.2.1 cook.2.2
        oc_block env.tmp_data env.trans_out_data env.tmp_data1 env.trans_out_data1
      if r.1 ≠ RET_OK then (r.1, k2, { w with trans_weight_ := some r.2 })
      else
        -- init bias
        let new_bias_size := oc4 * C4NUM
        match env.bias_malloc with
        | none => (RET_MEMORY_FAILED, k2, { trans_weight_ := some r.2, bias_data_ := none })
        | some bias_block =>
          let bias_data_ := memsetZero bias_block new_bias_size
          if env.in_tensors_size = kInputSize2 then
            (RET_OK, k2, { trans_weight_ := some r.2
                           bias_data_ := some (memcpy bias_data_ env.ori_bias_addr out_channel) })
          else (RET_OK, k2, { trans_weight_ := some r.2, bias_data_ := some bias_data_ })

/-- Lines 245-248 of `Init`: the tile sizes derived from the kernel height. -/
def initUnits (k : ConvolutionWinogradCPUKernel F) : ConvolutionWinogradCPUKernel F :=
  let k1 := { k with kernel_unit_ := k.conv_param_.kernel_h_ }
  let k2 := { k1 with input_unit_ := k1.output_unit_ + k1.kernel_unit_ - 1 }
  let k3 := { k2 with conv_param_ := { k2.conv_param_ with input_unit_ := k2.input_unit_ } }
  { k3 with conv_param_ := { k3.conv_param_ with output_unit_ := k3.output_unit_ } }

/-- Method `ConvolutionWinogradCPUKernel::Init` (lines 244-258). `infer_shape_done` is the
value of `InferShapeDone()`; the remaining arguments are those of `InitWeightBias` and
`ReSize`. -/
def Init [Semiring R] (k : ConvolutionWinogradCPUKernel F) (w : WinogradWeights R)
    (env : WinogradInitEnv R) (infer_shape_done : Bool) (check_ret base_ret : Int)
    (GetInputTransFunc : Int → Option F) (GetOutputTransFunc : Int → Int → Nat → Option F) :
    Int × ConvolutionWinogradCPUKernel F × WinogradWeights R :=
  let ret := InitWeightBias k.initUnits w env
  if ret.1 ≠ RET_OK then (RET_ERROR, ret.2.1, ret.2.2)
  else if !infer_shape_done then (RET_OK, ret.2.1, ret.2.2)
  else
    let r := ret.2.1.ReSize check_ret base_ret GetInputTransFunc GetOutputTransFunc
    (r.1, r.2, ret.2.2)

end ConvolutionWinogradCPUKernel

namespace ArithmeticSelfCPUKernel

variable {R : Type}

/-- Method `ArithmeticSelfCPUKernel::Init` (lines 29-35). `infer_shape_done` is the value
of `InferShapeDone()`, `ElementsNum` that of `in_tensors_[0]->ElementsNum()`. -/
def Init (k : ArithmeticSelfCPUKernel R) (infer_shape_done : Bool) (ElementsNum : Nat) :
    Option (Int × ArithmeticSelfCPUKernel R) :=
  if !infer_shape_done then some (RET_OK, k)
  else k.ReSize ElementsNum

end ArithmeticSelfCPUKernel

/-! ## Concrete inputs for `InitWeightBias` and `Init` -/

/-- A block with the indeterminate contents `7`. -/
def exampleDirtyBlock : Nat → Int := fun _ => 7

/-- An all-zero weight tensor with two input and nine output channels, a bias tensor, an
example `CookToomFilter` that succeeds with matrices of ones, and successful
allocations. -/
def exampleZeroEnv : WinogradInitEnv Int :=
  { filter_Channel := 2, filter_Batch := 9, weight_data := fun _ => 0
    in_tensors_size := 3, ori_bias_addr := fun n => (n : Int) + 1
    trans_weight_malloc := some exampleDirtyBlock, bias_malloc := some exampleDirtyBlock
    CookToomFilter := fun _ _ _ => (RET_OK, exampleMatrixGt, exampleMatrixGt)
    tmp_data := some exampleDirtyBlock, trans_out_data := some exampleDirtyBlock
    tmp_data1 := some exampleDirtyBlock, trans_out_data1 := some exampleDirtyBlock }

/-- The environment `exampleZeroEnv` with a failing allocation of `trans_weight_`. -/
def exampleFailingEnv : WinogradInitEnv Int :=
  { exampleZeroEnv with trans_weight_malloc := none }

/-- No weight buffers yet. -/
def exampleNoWeights : WinogradWeights Int := { trans_weight_ := none, bias_data_ := none }

/-- The contents of `trans_weight_` after `InitWeightBias` on `exampleZeroEnv`. -/
def exampleZeroTransWeight : Nat → Int :=
  (WinogradFilterTransform 2 9 4 3 (memsetZero exampleDirtyBlock 512) (fun _ => 0)
    exampleMatrixGt exampleMatrixGt 8 (some exampleDirtyBlock) (some exampleDirtyBlock)
    (some exampleDirtyBlock) (some exampleDirtyBlock)).2

/-- A weight tensor of four bytes in two channels, each with its own quantization
parameter: (scale 2, zero point 1) and (scale 3, zero point 5). -/
def examplePerChannelWeight : Tensor Int :=
  { data_type_ := TypeId.kNumberTypeUInt8
    quant_params_ := [{ scale := 2, zeroPoint := 1 }, { scale := 3, zeroPoint := 5 }]
    data_ := TensorData.uint8 [3, 5, 7, 9], Batch := 2, DataSize := 4 }

/-- A uint8 weight of one byte `1` whose quantization parameter has the zero point
`INT32_MIN`. -/
def exampleExtremeWeight : Tensor Int :=
  { data_type_ := TypeId.kNumberTypeUInt8
    quant_params_ := [{ scale := 1, zeroPoint := -2147483648 }]
    data_ := TensorData.uint8 [1], Batch := 1, DataSize := 1 }

/-- A uint8 weight of two channels of one byte `1` each; the quantization parameter of
channel 0 has the zero point `INT32_MIN`. -/
def exampleExtremePerChannelWeight : Tensor Int :=
  { data_type_ := TypeId.kNumberTypeUInt8
    quant_params_ := [{ scale := 1, zeroPoint := -2147483648 }, { scale := 1, zeroPoint := 0 }]
    data_ := TensorData.uint8 [1, 1], Batch := 2, DataSize := 2 }

/-! ## The int8 deconvolution routines called by `deconv_int8_tests.cc`

The routines of `nnacl/pack.h`, `nnacl/int8/deconv.h` and the fixed-point helpers are
declared outside the sources; only their calls and the literal vectors of
`deconv_int8_tests.cc` are present. `int8_t` and `int32_t` cells hold integers; the
`int32_t` arithmetic is read without overflow, the conversion to `int8_t` is explicit. -/

/-- Modelled from the spec: macro `UP_ROUND(x, y)` of `nnacl/op_base.h` (not among the
sources), `x` rounded up to a multiple of `y`. -/
def UP_ROUND (x y : Nat) : Nat := (x + y - 1) / y * y

/-- Modelled from the spec: macro `MSMAX(x, y)` of `nnacl/op_base.h` (not among the
sources), `((x) > (y) ? (x) : (y))`. -/
def MSMAX {α : Type} [LT α] [DecidableRel (fun a b : α => a < b)] (x y : α) : α :=
  if y < x then x else y

/-- The conversion `(int8_t)value` of an `int32_t`: the value modulo `2^8` in
`-128 .. 127`. -/
def toInt8 (value : Int) : Int := (value + 128) % 256 - 128

/-- Modelled from the spec: `PackNHWCToC8HWN8Int8(src, dst, batch, plane, channel)` of
`nnacl/pack.h` (not among the sources; called at lines 49 and 106 of the test): every
source element `(n, hw, c)` of the NHWC tensor is stored once, at the position of
`(c / 8, hw, n, c % 8)` in the layout blocked by eight channels. -/
def PackNHWCToC8HWN8Int8 (src dst : Nat → Int) (batch plane channel : Nat) : Nat → Int :=
  forLoop (fun n d =>
    forLoop (fun hw d1 =>
      forLoop (fun c d2 =>
        let c8div := c / C8NUM
        let c8mod := c % C8NUM
        let src_index := n * plane * channel + hw * channel + c
        let dst_index := c8div * batch * plane * C8NUM + hw * batch * C8NUM + n * C8NUM + c8mod
        Function.update d2 dst_index (src src_index)) channel d1) plane d) batch dst

/-- Modelled from the spec: `RowMajor2Row16x4MajorInt8(src, dst, row, col)` of nnacl (not
among the sources; called at line 196 of the test): the row-major `row x col` matrix is
stored in tiles of 4 rows by 16 columns, the rows of a tile contiguous. -/
def RowMajor2Row16x4MajorInt8 (src dst : Nat → Int) (row col : Nat) : Nat → Int :=
  let col16 := UP_ROUND col C16NUM
  forLoop (fun r d =>
    let rd4 := r / C4NUM
    let rm4 := r % C4NUM
    forLoop (fun c d1 =>
      let cd16 := c / C16NUM
      let cm16 := c % C16NUM
      let dst_index := rd4 * col16 * C4NUM + cd16 * C4NUM * C16NUM + rm4 * C16NUM + cm16
      let src_index := r * col + c
      Function.update d1 dst_index (src src_index)) col d) row dst

/-- Modelled from the spec: `DeConvWeightTransInt8(src, dst, input_channel, output_channel,
plane, support_optimize)` of `nnacl/int8/deconv.h` (not among the sources; called at line
223 of the test): for every kernel position `hw` the `input_channel x output_channel`
matrix of the weights is stored in tiles of 4 output channels by 16 input channels. -/
def DeConvWeightTransInt8 (src dst : Nat → Int) (input_channel output_channel plane : Nat) :
    Nat → Int :=
  let ic16 := UP_ROUND input_channel C16NUM
  let oc4 := UP_ROUND output_channel C4NUM
  forLoop (fun ic d =>
    let ic16div := ic / C16NUM
    let ic16mod := ic % C16NUM
    forLoop (fun oc d1 =>
      let oc4div := oc / C4NUM
      let oc4mod := oc % C4NUM
      forLoop (fun hw d2 =>
        let src_index := ic * output_channel * plane + hw * output_channel + oc
        let dst_index := hw * ic16 * oc4 + oc4div * ic16 * C4NUM + ic16div * C16NUM * C4NUM +
          oc4mod * C16NUM + ic16mod
        Function.update d2 dst_index (src src_index)) plane d1) output_channel d) input_channel dst

/-- The offset of row `r` and column `c` in a buffer of tiles of 4 rows by 16 columns with
`col16` columns. -/
def row16x4Index (col16 r c : Nat) : Nat :=
  r / C4NUM * C4NUM * col16 + c / C16NUM * C16NUM * C4NUM + r % C4NUM * C16NUM + c % C16NUM

/-- Modelled from the spec: `DeConvPackInputSum(src, dst, filter_zp, row4, col16,
support_optimize)` of `nnacl/int8/deconv.h` (not among the sources; called at line 231 of
the test): `dst[r]` is `filter_zp` times the sum of row `r` of the packed activations. -/
def DeConvPackInputSum (src : Nat → Int) (dst : Nat → Int) (filter_zp : Int)
    (row4 col16 : Nat) : Nat → Int :=
  forLoop (fun r d =>
    let tmp_value := forLoop (fun c t => t + src (row16x4Index col16 r c)) col16 0
    Function.update d r (tmp_value * filter_zp)) row4 dst

/-- Modelled from the spec: `DeConvPackWeightSum(weight, weight_sum, input_zp, filter_zp,
deep16, col4, support_optimize)` of `nnacl/int8/deconv.h` (not among the sources; called at
line 245 of the test): the correction of column `c` for the input zero point and for the
constant term. -/
def DeConvPackWeightSum (weight : Nat → Int) (weight_sum : Nat → Int)
    (input_zp filter_zp : Int) (deep16 col4 : Nat) : Nat → Int :=
  forLoop (fun c d =>
    let value := forLoop (fun r t => t + weight (row16x4Index deep16 c r)) deep16 0
    Function.update d c (filter_zp * input_zp * (deep16 : Int) - value * input_zp)) col4 weight_sum

/-- Modelled from the spec: `MatMulOptR4Int8(dst, a, b, bias, input_sum, row_4, col_4,
deep_16)` of nnacl (not among the sources; called at line 273 of the test): the product of
the packed matrices, less `input_sum[r]`, plus `bias[c]`, stored in blocks of four
columns. -/
def MatMulOptR4Int8 (dst : Nat → Int) (a b : Nat → Int) (bias input_sum : Nat → Int)
    (row_4 col_4 deep_16 : Nat) : Nat → Int :=
  forLoop (fun r d =>
    forLoop (fun c d1 =>
      let c4div := c / C4NUM
      let c4mod := c % C4NUM
      let ci := c4div * row_4 * C4NUM + r * C4NUM + c4mod
      let value := forLoop (fun dd v =>
        v + a (row16x4Index deep_16 r dd) * b (row16x4Index deep_16 c dd)) deep_16 0
      let value1 := value - input_sum r
      let value2 := value1 + bias c
      Function.update d1 ci value2) col_4 d) row_4 dst

/-- The calls of test `MatMulOptTest1` (lines 184-273) on a `row x deep` matrix `a_src_ptr`
and weights `b_src_ptr` of `deep` input channels, `oc` output channels and `plane` kernel
positions: both packed buffers are filled with the zero point before packing, and
`weight_sum` is passed as the bias of the product. -/
def MatMulOptPipeline (a_src_ptr b_src_ptr : Nat → Int) (input_zp filter_zp : Int)
    (row deep oc plane : Nat) (input_sum0 weight_sum0 tmp_output0 : Nat → Int) : Nat → Int :=
  let row4 := UP_ROUND row C4NUM
  let deep16 := UP_ROUND deep C16NUM
  let col4 := plane * UP_ROUND oc C4NUM
  let packed_a := RowMajor2Row16x4MajorInt8 a_src_ptr (fun _ => input_zp) row deep
  let packed_b := DeConvWeightTransInt8 b_src_ptr (fun _ => filter_zp) deep oc plane
  let input_sum := DeConvPackInputSum packed_a input_sum0 filter_zp row4 deep16
  let weight_sum := DeConvPackWeightSum packed_b weight_sum0 input_zp filter_zp deep16 col4
  MatMulOptR4Int8 tmp_output0 packed_a packed_b weight_sum input_sum row4 col4 deep16

/-- Modelled from the spec: `SaturatingRoundingDoublingHighMul(a, b)` of the fixed-point
helpers (not among the sources): the high 32 bits of `2 * a * b`, rounded to nearest,
saturated for `a = b = INT32_MIN`. -/
def SaturatingRoundingDoublingHighMul (a b : Int) : Int :=
  if a = -2147483648 ∧ b = -2147483648 then 2147483647
  else
    let ab := a * b
    let nudge : Int := if ab ≥ 0 then 1073741824 else 1 - 1073741824
    Int.tdiv (ab + nudge) 2147483648

/-- Modelled from the spec: `RoundingDivideByPOT(x, exponent)` of the fixed-point helpers
(not among the sources): `x / 2^exponent` rounded to nearest, a tie away from zero. -/
def RoundingDivideByPOT (x : Int) (exponent : Nat) : Int :=
  let mask : Int := 2 ^ exponent - 1
  let remainder := x % 2 ^ exponent
  let threshold := mask / 2 + (if x < 0 then 1 else 0)
  x / 2 ^ exponent + (if remainder > threshold then 1 else 0)

/-- Modelled from the spec: `MultiplyByQuantizedMultiplier(value, multiplier, left_shift,
right_shift)` of the fixed-point helpers (not among the sources): left shift,
multiply-high by `multiplier`, rounding right shift by `right_shift` positions. -/
def MultiplyByQuantizedMultiplier (value multiplier : Int) (left_shift right_shift : Nat) : Int :=
  RoundingDivideByPOT (SaturatingRoundingDoublingHighMul (value * 2 ^ left_shift) multiplier)
    right_shift

/-- Modelled from the spec: `PostFuncInt8C8(in, bias, out, oc, plane, multiplier,
left_shift, right_shift, zp, mini, maxi)` of nnacl (not among the sources; called at lines
298-308 of the test): the accumulators, stored in blocks of eight channels, get the bias,
are scaled, shifted by the output zero point, clamped and converted to `int8_t`, row-major.
`left_shift` and `right_shift` are the numbers of positions. -/
def PostFuncInt8C8 (input bias : Nat → Int) (out : Nat → Int) (oc plane : Nat)
    (multiplier : Int) (left_shift right_shift : Nat) (zp mini maxi : Int) : Nat → Int :=
  let in_plane_stride := UP_ROUND plane C8NUM * C8NUM
  forLoop (fun r d =>
    forLoop (fun c d1 =>
      let c8div := c / C8NUM
      let c8mod := c % C8NUM
      let src_index := c8div * in_plane_stride + r * C8NUM + c8mod
      let dst_index := r * oc + c
      let value := input src_index + bias c
      let value1 := MultiplyByQuantizedMultiplier value multiplier left_shift right_shift + zp
      let value2 := MSMIN maxi value1
      let value3 := MSMAX mini value2
      Function.update d1 dst_index (toInt8 value3)) oc d) plane out

/-! ## The literal vectors of `deconv_int8_tests.cc` -/

/-- An array literal as a buffer; cells past the end read `0`. -/
def ofArray (xs : List Int) : Nat → Int := fun idx => xs.getD idx 0

/-- The first `n` cells of a buffer. -/
def firstCells (n : Nat) (b : Nat → Int) : List Int := (List.range n).map b

/-- Array `in` of test `PackWeight1` (lines 40-42). -/
def PackWeight1_in : List Int :=
  List.flatten
   [[-8, 11, 99, -80, 8, -12, 37, -45, 31, -69, -66, 26, 112, 124, -109, 85, -24, 28, -46, 100],
    [72, -36, -82, 64, -110, 37, -72, 65, -124, 91, -43, 99, 3, 100, 19, 51, -14, -81, 67, 90],
    [4, -106, 105, 28, -61, -79, 55, -54, 47, -38, 114, 125, -65, 100, 6, -72, -33, 60, 109, -68]]

/-- Array `co` of test `PackWeight1` (lines 43-46). -/
def PackWeight1_co : List Int :=
  List.flatten
   [[-8, 11, 99, -80, 8, -12, 0, 0, 112, 124, -109, 85, -24, 28, 0, 0, -110, 37, -72, 65],
    [-124, 91, 0, 0, -14, -81, 67, 90, 4, -106, 0, 0, 47, -38, 114, 125, -65, 100, 0, 0],
    [37, -45, 31, -69, -66, 26, 0, 0, -46, 100, 72, -36, -82, 64, 0, 0, -43, 99, 3, 100],
    [19, 51, 0, 0, 105, 28, -61, -79, 55, -54, 0, 0, 6, -72, -33, 60, 109, -68, 0, 0]]

/-- Array `a_src_ptr` of test `MatMulOptTest1`, a `10 x 12` matrix. -/
def MatMulOptTest1_a_src_ptr : List Int :=
  List.flatten
   [[-6, 76, 32, 80, -73, 8, -85, -3, 114, 80, 30, 42, -41, 117, 62, -76, -77, -111, 88, 105],
    [68, 105, -74, 13, 51, 94, 31, -52, -92, -4, -35, -71, 101, -93, 46, -65, 57, -41, -51, 77],
    [1, 9, 73, -19, -36, 57, 81, -24, 40, 103, 112, 109, -41, -68, 57, 61, 55, -20, 3, 2],
    [17, -16, -31, 58, -4, 67, -4, -95, -5, -72, 81, 15, -7, -16, -47, 112, 114, -26, -98, 53],
    [15, -49, 26, 19, 19, 8, -57, -35, -79, 118, 29, 21, 37, -48, 83, 7, 124, 113, -5, 15],
    [-8, 107, -65, -88, 50, -47, -80, -84, 3, -45, 92, 42, -20, -101, 106, -10, 89, 67, 55, 10]]

/-- Array `b_src_ptr` of test `MatMulOptTest1`: 12 input channels, 3 kernel positions, 6
output channels. -/
def MatMulOptTest1_b_src_ptr : List Int :=
  List.flatten
   [[92, 27, 22, 52, -112, -20, -57, -2, 89, 32, 93, -66, -25, -54, 94, -97, -119, -98, 101, -99],
    [77, -83, 76, 95, 59, 97, 8, 40, -109, -20, 67, -107, 37, -6, -54, -20, -30, 36, -106, -103],
    [-3, -86, -82, 59, 4, -75, -50, -106, 55, 104, -117, -71, -20, -85, -77, 16, -25, -58, 4, 80],
    [-75, 94, 32, -68, 2, 40, 56, -103, 11, -98, -70, -69, 0, 57, -6, 82, 66, -112, -61, 33],
    [-77, -53, 95, -38, 87, -46, -3, 81, -47, 43, 21, 26, -45, -57, 50, -24, -82, -114, 61, 46],
    [-53, 78, -24, 31, -7, 37, 29, 38, 45, 106, 52, -42, 31, -6, -61, -87, 2, 79, -5, -42],
    [43, -106, -104, 7, 91, -63, 58, 97, -15, 74, -96, 15, -23, -3, -47, -97, 100, -54, 26, -46],
    [35, 26, 100, -80, 34, -25, 96, -67, -80, -27, 66, 41, 41, -43, -43, -38, -4, -64, 31, 7],
    [-8, 6, -2, 39, -119, 53, 75, -91, -44, 77, -62, 22, -44, 78, -67, -48, -115, -4, 43, 81],
    [40, -20, -5, -89, 60, -62, -4, -48, 66, -64, -69, 62, 17, -89, 1, 87, 81, 32, -29, 51],
    [40, 27, 66, 67, 11, -69, 85, -79, -106, 55, 22, -23, 62, 69, -74, 49]]

/-- Array `correct_packed_a` of test `MatMulOptTest1`. -/
def MatMulOptTest1_correct_packed_a : List Int :=
  List.flatten
   [[-6, 76, 32, 80, -73, 8, -85, -3, 114, 80, 30, 42, 15, 15, 15, 15, -41, 117, 62, -76],
    [-77, -111, 88, 105, 68, 105, -74, 13, 15, 15, 15, 15, 51, 94, 31, -52, -92, -4, -35, -71],
    [101, -93, 46, -65, 15, 15, 15, 15, 57, -41, -51, 77, 1, 9, 73, -19, -36, 57, 81, -24],
    [15, 15, 15, 15, 40, 103, 112, 109, -41, -68, 57, 61, 55, -20, 3, 2, 15, 15, 15, 15],
    [17, -16, -31, 58, -4, 67, -4, -95, -5, -72, 81, 15, 15, 15, 15, 15, -7, -16, -47, 112],
    [114, -26, -98, 53, 15, -49, 26, 19, 15, 15, 15, 15, 19, 8, -57, -35, -79, 118, 29, 21],
    [37, -48, 83, 7, 15, 15, 15, 15, 124, 113, -5, 15, -8, 107, -65, -88, 50, -47, -80, -84],
    [15, 15, 15, 15, 3, -45, 92, 42, -20, -101, 106, -10, 89, 67, 55, 10, 15, 15, 15, 15],
    [15, 15, 15, 15, 15, 15, 15, 15, 15, 15, 15, 15, 15, 15, 15, 15, 15, 15, 15, 15],
    [15, 15, 15, 15, 15, 15, 15, 15, 15, 15, 15, 15]]

/-- Array `correct_packed_b` of test `MatMulOptTest1`. -/
def MatMulOptTest1_correct_packed_b : List Int :=
  List.flatten
   [[92, 101, -30, -77, 0, 21, 45, 58, 34, -2, 40, -29, -20, -20, -20, -20, 27, -99, 36, 16],
    [57, 26, 106, 97, -25, 39, -20, 51, -20, -20, -20, -20, 22, 77, -106, -25, -6, -45, 52, -15],
    [96, -119, -5, 40, -20, -20, -20, -20, 52, -83, -103, -58, 82, -57, -42, 74, -67, 53, -89, 27],
    [-20, -20, -20, -20, -112, 76, -3, 4, 66, 50, 31, -96, -80, 75, 60, 66, -20, -20, -20, -20],
    [-20, 95, -86, 80, -112, -24, -6, 15, -27, -91, -62, 67, -20, -20, -20, -20, -20, -20, -20, -20],
    [-20, -20, -20, -20, -20, -20, -20, -20, -20, -20, -20, -20, -20, -20, -20, -20, -20, -20, -20, -20],
    [-20, -20, -20, -20, -20, -20, -20, -20, -57, 59, -82, -75, -61, -82, -61, -23, 66, -44, -4, 11],
    [-20, -20, -20, -20, -2, 97, 59, 94, 33, -114, -87, -3, 41, 77, -48, -69, -20, -20, -20, -20],
    [89, 8, 4, 32, -77, 61, 2, -47, 41, -62, 66, 85, -20, -20, -20, -20, 32, 40, -75, -68],
    [-53, 46, 79, -97, -43, 22, -64, -79, -20, -20, -20, -20, 93, -109, -50, 2, 95, -53, -5, 100],
    [-43, -44, -69, -106, -20, -20, -20, -20, -66, -20, -106, 40, -38, 78, -42, -54, -38, 78, 62, 55],
    [-20, -20, -20, -20, -20, -20, -20, -20, -20, -20, -20, -20, -20, -20, -20, -20, -20, -20, -20, -20],
    [-20, -20, -20, -20, -20, -20, -20, -20, -20, -20, -20, -20, -20, -20, -20, -20, -25, 67, 55, 56],
    [87, -24, 43, 26, -4, -67, 17, 22, -20, -20, -20, -20, -54, -107, 104, -103, -46, 31, -106, -46],
    [-64, -48, -89, -23, -20, -20, -20, -20, 94, 37, -117, 11, -3, -7, -104, 35, 31, -115, 1, 62],
    [-20, -20, -20, -20, -97, -6, -71, -98, 81, 37, 7, 26, 7, -4, 87, 69, -20, -20, -20, -20],
    [-119, -54, -20, -70, -47, 29, 91, 100, -8, 43, 81, -74, -20, -20, -20, -20, -98, -20, -85, -69],
    [43, 38, -63, -80, 6, 81, 32, 49, -20, -20, -20, -20, -20, -20, -20, -20, -20, -20, -20, -20],
    [-20, -20, -20, -20, -20, -20, -20, -20, -20, -20, -20, -20, -20, -20, -20, -20, -20, -20, -20, -20],
    [-20, -20, -20, -20]]

/-- Array `correct_input_sum` of test `MatMulOptTest1`. -/
def MatMulOptTest1_correct_input_sum : List Int :=
  [-7100, -4780, 580, -4880, -9460, -1420, -3120, -3260, -1840, -6960, -4800, -4800]

/-- Array `correct_weight_sum` of test `MatMulOptTest1`. -/
def MatMulOptTest1_correct_weight_sum : List Int :=
  [-7395, -8265, -3090, -435, -5655, -1035, 0, 0, 1695, -4770, -6630, 300, -765, -2835, 0, 0,
   -7395, 4665, -2475, -4170, -2880, -1110, 0, 0]

/-- Array `correct_tmp_output` of test `MatMulOptTest1`. -/
def MatMulOptTest1_correct_tmp_output : List Int :=
  List.flatten
   [[-1624, -19061, 1795, -17119, 14706, 417, 7306, 1357, 9653, -44022, 19414, -36187, -2041, 6874, -5766, 3072, 9842, 2395, 12464, -18826],
    [-12267, -17853, 4617, -19468, -15734, -6112, 2122, 14259, 11098, -9520, 12407, -15239, 10309, -34271, 9740, -14607, -5027, 12313, -508, -10808],
    [0, 0, 0, 0, 0, 0, 0, 0, 1604, 14898, 0, 0, -8212, 9471, 0, 0, -23430, 6343, 0, 0],
    [4020, -3740, 0, 0, -9730, 22378, 0, 0, 4702, 4740, 0, 0, -7541, 5461, 0, 0, -6633, 8356, 0, 0],
    [-16854, 9147, 0, 0, -4018, -11524, 0, 0, 0, 0, 0, 0, 0, 0, 0, 0, 17194, 28501, 13376, -9359],
    [21454, 22425, -21049, 6603, 23479, -658, 12866, 9739, -12173, -7558, 3862, 10238, 4110, 31945, 10069, -7376, -1948, -20322, 16439, 3260],
    [1712, 12743, -8132, -27744, 7633, -33916, 18755, 11300, 3686, 9222, 10103, 26102, 17, 13135, 785, -6305, 0, 0, 0, 0],
    [0, 0, 0, 0, -27325, 14957, 0, 0, -12191, -21866, 0, 0, -21690, -18554, 0, 0, 8737, 14529, 0, 0],
    [-1774, -19575, 0, 0, -12761, 13286, 0, 0, 20523, 2488, 0, 0, -12782, 12688, 0, 0, -1194, -10523, 0, 0],
    [-4044, -9671, 0, 0, 0, 0, 0, 0, 0, 0, 0, 0, -4671, -4173, 8675, -8560, -1597, -4946, -20214, -6752],
    [-11439, 5138, 11119, -17661, -6690, -17301, -5541, -4356, 22347, -11778, 2389, -22030, -5176, -242, 8786, -994, 9104, -7208, 24117, 3724],
    [-13648, -1840, 12265, 10347, -10325, 7184, 19374, -29001, 3979, -6704, -23278, -8124, 0, 0, 0, 0, 0, 0, 0, 0],
    [-9132, 8560, 0, 0, 19264, -10169, 0, 0, -15133, -13678, 0, 0, 7894, -51, 0, 0, -4775, -29785, 0, 0],
    [-12597, 4088, 0, 0, -17420, 1815, 0, 0, 15796, 3101, 0, 0, -37969, -10818, 0, 0, 12714, -7827, 0, 0],
    [0, 0, 0, 0, 0, 0, 0, 0]]

/-- Array `in` of test `PostAddTest1`: the accumulators of 10 channels in two blocks of 8
rows by 8 channels. -/
def PostAddTest1_in : List Int :=
  List.flatten
   [[-4956, -3923, 868, -8880, -4089, -5179, -4526, -4527, -10464, 99, -5826, -2995, -4519, -4519, -10509, -2505, -11272, 434, -4522, -4523],
    [-5287, -8936, -878, 373, -4528, -4529, -1960, -6589, 1688, 2287, -8059, 926, -2506, -6972, -2834, -8281, -8118, -3110, -4526, -4527],
    [-4528, -4529, -4519, -4519, -4519, -4519, -4519, -4519, -4520, -4521, -4522, -4523, -4524, -4525, -4526, -4527, -4528, -4529, -4519, -4519],
    [-4519, -4519, -4519, -4519, 1578, 2231, -4522, -4523, -4524, -4525, -4526, -4527, -8449, -990, -4519, -4519, -4519, -4519, -4519, -4519],
    [-4303, -10293, -4522, -4523, -4524, -4525, -4526, -4527, -4528, -4529, -4519, -4519, -4519, -4519, -4519, -4519, -7025, 924, -4522, -4523],
    [-4524, -4525, -4526, -4527, -4528, -4529, -4519, -4519, -4519, -4519, -4519, -4519, -4520, -4521, -4522, -4523, -4524, -4525, -4526, -4527],
    [-4528, -4529, -4519, -4519, -4519, -4519, -4519, -4519]]

/-- Array `bias` of test `PostAddTest1`. -/
def PostAddTest1_bias : List Int :=
  [1, 2, 3, 4, 5, 6, 7, 8, 9, 10]

/-- Array `co` of test `PostAddTest1`, the expected output for the bounds `[-128, 127]`. -/
def PostAddTest1_co : List Int :=
  List.flatten
   [[-8, 11, 99, -80, 8, -12, 0, 0, 112, 124, -109, 85, -24, 28, 0, 0, -110, 37, -72, 65],
    [-124, 91, 0, 0, -14, -81, 67, 90, 4, -106, 0, 0, 47, -38, 114, 125, -65, 100, 0, 0],
    [37, -45, 31, -69, -66, 26, 0, 0, -46, 100]]

/-- Array `co_relu` of test `PostAddTest1`, the expected output for the bounds `[0, 127]`.
-/
def PostAddTest1_co_relu : List Int :=
  List.flatten
   [[0, 11, 99, 0, 8, 0, 0, 0, 112, 124, 0, 85, 0, 28, 0, 0, 0, 37, 0, 65],
    [0, 91, 0, 0, 0, 0, 67, 90, 4, 0, 0, 0, 47, 0, 114, 125, 0, 100, 0, 0],
    [37, 0, 31, 0, 0, 26, 0, 0, 0, 100]]

/-- Array `co_relu6` of test `PostAddTest1`, the expected output for the bounds `[0, 6]`. -/
def PostAddTest1_co_relu6 : List Int :=
  List.flatten
   [[0, 6, 6, 0, 6, 0, 0, 0, 6, 6, 0, 6, 0, 6, 0, 0, 0, 6, 0, 6],
    [0, 6, 0, 0, 0, 0, 6, 6, 4, 0, 0, 0, 6, 0, 6, 6, 0, 6, 0, 0],
    [6, 0, 6, 0, 0, 6, 0, 0, 0, 6]]

/-- Modelled from the spec: the multiplier that `QuantizeRoundParameter` (not among the
sources) derives from `0.0183649725490196 = 1262031304 / 2^31 * 2^(-5)`; the left shift is
`0` and the right shift is by `5` positions. -/
def PostAddTest1_quant_multiplier : Int := 1262031304

/-- Array `in` of test `PackWeight2` (lines 54-76): 22 batches of 20 channels. -/
def PackWeight2_in : List Int :=
  List.flatten
   [[40, 24, 94, 122, 67, 34, -89, 31, -43, 121, 48, -54, 44, -91, 35, 89, -37, 114, -8, 103],
    [-22, 32, 26, 112, -92, -23, 43, 9, 81, 118, -73, -54, 65, -99, 51, -90, 121, -62, 119, -93],
    [21, -92, -1, -82, -71, -54, 63, -93, 92, -93, 99, 122, -104, -16, -8, -32, 90, -126, 51, 91],
    [4, 70, -7, 116, 99, 81, -79, 124, -14, 28, 97, 9, -97, 99, 88, -15, 54, 26, 77, -25],
    [113, 119, 119, -75, -17, 7, 7, 1, 69, 66, 40, -13, 80, -115, -98, -8, -17, 31, 88, 65],
    [-1, -15, -98, 77, 56, 119, -20, -32, -54, -58, -16, 52, 121, 126, -33, 43, 92, -34, -17, -52],
    [104, -52, -91, 76, 79, 105, 102, -65, 43, 32, 13, 15, -38, 95, -18, -82, -7, 118, -79, -85],
    [120, -15, 2, 32, -94, 111, 115, 102, -18, 121, -106, 54, 63, 111, -16, 92, 82, -23, 111, 53],
    [1, -48, 45, 19, -4, -15, -72, 41, 80, -51, 116, 31, 94, 101, -10, 18, 0, -49, 108, 28],
    [-36, 47, -14, -2, -10, 31, -92, -84, 74, -114, -107, 66, 99, -121, -107, 31, -38, 56, -30, 109],
    [-7, 28, -22, -17, -3, -2, 27, -3, 108, -84, -23, -71, -54, 20, -45, 109, -42, 78, -79, 98],
    [-10, 57, 52, 1, 25, 73, 21, -78, 46, 121, 66, 92, 24, 55, 4, -110, -37, 112, -18, 10],
    [-42, 16, -9, 31, 39, -70, 108, -3, -90, -60, -121, 11, 50, -88, -104, -29, -89, 94, 64, -91],
    [-101, -7, 23, -57, 93, 16, 17, 35, -48, -25, 13, -121, 73, -68, -54, -122, -20, 12, 64, 20],
    [-11, -6, -71, -52, -97, 109, 116, -107, 117, -124, 56, 80, -108, 30, 123, 56, -80, 39, -18, -97],
    [-103, 122, 114, -10, -31, 97, -92, 105, -61, -25, 10, -119, -106, 41, 77, -117, 55, -83, -29, 14],
    [27, -106, -86, 41, 43, 23, 11, -76, -34, 121, 94, 18, 69, 73, 100, 54, 43, 32, 13, 15],
    [-38, 95, -18, -82, -7, 118, -79, -85, 120, -15, 2, 32, -94, 111, 115, 102, -18, 121, -106, 54],
    [63, 111, -16, 92, 82, -23, 111, 53, 1, -48, 45, 19, -4, -15, -72, 41, 80, -51, 116, 31],
    [94, 101, -10, 18, 0, -49, 108, 28, -36, 47, -14, -2, -10, 31, -92, -84, 74, -114, -107, 66],
    [99, -121, -107, 31, -38, 56, -30, 109, -7, 28, -22, -17, -3, -2, 27, -3, 108, -84, -23, -71],
    [-54, 20, -45, 109, -42, 78, -79, 98, -10, 57, 52, 1, 25, 73, 21, -78, 46, 121, 66, 92]]

/-- Array `co` of test `PackWeight2` (lines 77-104). -/
def PackWeight2_co : List Int :=
  List.flatten
   [[40, 24, 94, 122, 67, 34, -89, 31, -22, 32, 26, 112, -92, -23, 43, 9, 21, -92, -1, -82],
    [-71, -54, 63, -93, 4, 70, -7, 116, 99, 81, -79, 124, 113, 119, 119, -75, -17, 7, 7, 1],
    [-1, -15, -98, 77, 56, 119, -20, -32, 104, -52, -91, 76, 79, 105, 102, -65, 120, -15, 2, 32],
    [-94, 111, 115, 102, 1, -48, 45, 19, -4, -15, -72, 41, -36, 47, -14, -2, -10, 31, -92, -84],
    [-7, 28, -22, -17, -3, -2, 27, -3, -10, 57, 52, 1, 25, 73, 21, -78, -42, 16, -9, 31],
    [39, -70, 108, -3, -101, -7, 23, -57, 93, 16, 17, 35, -11, -6, -71, -52, -97, 109, 116, -107],
    [-103, 122, 114, -10, -31, 97, -92, 105, 27, -106, -86, 41, 43, 23, 11, -76, -38, 95, -18, -82],
    [-7, 118, -79, -85, 63, 111, -16, 92, 82, -23, 111, 53, 94, 101, -10, 18, 0, -49, 108, 28],
    [99, -121, -107, 31, -38, 56, -30, 109, -54, 20, -45, 109, -42, 78, -79, 98, -43, 121, 48, -54],
    [44, -91, 35, 89, 81, 118, -73, -54, 65, -99, 51, -90, 92, -93, 99, 122, -104, -16, -8, -32],
    [-14, 28, 97, 9, -97, 99, 88, -15, 69, 66, 40, -13, 80, -115, -98, -8, -54, -58, -16, 52],
    [121, 126, -33, 43, 43, 32, 13, 15, -38, 95, -18, -82, -18, 121, -106, 54, 63, 111, -16, 92],
    [80, -51, 116, 31, 94, 101, -10, 18, 74, -114, -107, 66, 99, -121, -107, 31, 108, -84, -23, -71],
    [-54, 20, -45, 109, 46, 121, 66, 92, 24, 55, 4, -110, -90, -60, -121, 11, 50, -88, -104, -29],
    [-48, -25, 13, -121, 73, -68, -54, -122, 117, -124, 56, 80, -108, 30, 123, 56, -61, -25, 10, -119],
    [-106, 41, 77, -117, -34, 121, 94, 18, 69, 73, 100, 54, 120, -15, 2, 32, -94, 111, 115, 102],
    [1, -48, 45, 19, -4, -15, -72, 41, -36, 47, -14, -2, -10, 31, -92, -84, -7, 28, -22, -17],
    [-3, -2, 27, -3, -10, 57, 52, 1, 25, 73, 21, -78, -37, 114, -8, 103, 0, 0, 0, 0],
    [121, -62, 119, -93, 0, 0, 0, 0, 90, -126, 51, 91, 0, 0, 0, 0, 54, 26, 77, -25],
    [0, 0, 0, 0, -17, 31, 88, 65, 0, 0, 0, 0, 92, -34, -17, -52, 0, 0, 0, 0],
    [-7, 118, -79, -85, 0, 0, 0, 0, 82, -23, 111, 53, 0, 0, 0, 0, 0, -49, 108, 28],
    [0, 0, 0, 0, -38, 56, -30, 109, 0, 0, 0, 0, -42, 78, -79, 98, 0, 0, 0, 0],
    [-37, 112, -18, 10, 0, 0, 0, 0, -89, 94, 64, -91, 0, 0, 0, 0, -20, 12, 64, 20],
    [0, 0, 0, 0, -80, 39, -18, -97, 0, 0, 0, 0, 55, -83, -29, 14, 0, 0, 0, 0],
    [43, 32, 13, 15, 0, 0, 0, 0, -18, 121, -106, 54, 0, 0, 0, 0, 80, -51, 116, 31],
    [0, 0, 0, 0, 74, -114, -107, 66, 0, 0, 0, 0, 108, -84, -23, -71, 0, 0, 0, 0],
    [46, 121, 66, 92, 0, 0, 0, 0]]

/-! ## `Greater::InferShape` -/

namespace lite

/-- Modelled from the spec: enumeration `schema::Format` (generated schema header, not
among the sources), the layout tag of a tensor; the modelled code only copies it. -/
inductive Format where
  | Format_NCHW
  | Format_NHWC
  | Format_NC4HW4
  | Format_NUM_OF_FORMAT
  deriving DecidableEq, Repr

/-- Modelled from the spec: the part of `lite::Tensor` (declared outside the sources)
that `InferShape` reads and writes: the shape, the element type and the format. `data_`
stands for the rest of the object, which the three setters leave alone. -/
structure Tensor where
  shape_ : List Int
  data_type_ : TypeId
  format_ : Format
  data_ : List Int
  deriving DecidableEq

namespace Tensor

/-- Modelled from the spec: member `Tensor::set_shape`. -/
def set_shape (t : Tensor) (shape : List Int) : Tensor := { t with shape_ := shape }

/-- Modelled from the spec: member `Tensor::set_data_type`. -/
def set_data_type (t : Tensor) (data_type : TypeId) : Tensor := { t with data_type_ := data_type }

/-- Modelled from the spec: member `Tensor::SetFormat`. -/
def SetFormat (t : Tensor) (format : Format) : Tensor := { t with format_ := format }

end Tensor

/-- The tensor objects behind the `Tensor *` pointers: the object at an address, `none`
for a null or dangling pointer. -/
abbrev TensorHeap := Nat → Option Tensor

/-- A store through the pointer `ptr`. -/
def TensorHeap.store (heap : TensorHeap) (ptr : Nat) (t : Tensor) : TensorHeap :=
  Function.update heap ptr (some t)

namespace Greater

/-- Method `Greater::InferShape` (lines 37-46). `inputs_` and `outputs_` hold the pointers;
the result is the status and the heap after the three stores through `output`. The result
is `none` when `front()` is taken of an empty vector or a pointer without object is
dereferenced (the two `MS_ASSERT`s check nothing in a release build). -/
def InferShape (heap : TensorHeap) (inputs_ outputs_ : List Nat) : Option (Int × TensorHeap) :=
  match inputs_.head?, outputs_.head? with
  | some input, some output => do
    -- output->set_shape(input->shape())
    let in0 ← heap input
    let out0 ← heap output
    let heap1 := heap.store output (out0.set_shape in0.shape_)
    -- output->set_data_type(TypeId::kNumberTypeBool)
    let out1 ← heap1 output
    let heap2 := heap1.store output (out1.set_data_type TypeId.kNumberTypeBool)
    -- output->SetFormat(input->GetFormat())
    let in2 ← heap2 input
    let out2 ← heap2 output
    let heap3 := heap2.store output (out2.SetFormat in2.format_)
    some (RET_OK, heap3)
  | _, _ => none

end Greater

end lite

/-! ## `ConvolutionWinogradCPUKernel`: the tasks of a run -/

/-- What `RunImpl` takes from outside the kernel: `ori_input_data` is the data of
`in_tensors_.at(kInputIndex)`, and `ConvWinogardFp32` (nnacl, not among the sources, a
`void` function) maps its arguments, in the order of the call of lines 290-291, to the
contents it leaves in `output_data`. The kernel has its input and output tensors. -/
structure WinogradRunEnv (F R : Type) where
  ori_input_data : Nat → R
  ConvWinogardFp32 : (Nat → R) → Option (Nat → R) → Option (Nat → R) → (Nat → R) →
    List (Option Nat) → Nat → ConvParameter → Option F → Option F → (Nat → R)

namespace ConvolutionWinogradCPUKernel

variable {F R : Type}

/-- Method `ConvolutionWinogradCPUKernel::RunImpl` (lines 286-293): the status and the
contents of the output tensor after the task. -/
def RunImpl (k : ConvolutionWinogradCPUKernel F) (w : WinogradWeights R)
    (env : WinogradRunEnv F R) (output_data : Nat → R) (task_id : Nat) : Int × (Nat → R) :=
  (RET_OK, env.ConvWinogardFp32 env.ori_input_data w.trans_weight_ w.bias_data_ output_data
    k.tmp_buffer_address_list_ task_id k.conv_param_ k.in_func_ k.out_func_)

/-- Lines 298-302 of `ConvolutionWinogradImpl`: the status the wrapper returns for the
status `error_code` that its task body `RunImpl` has returned. -/
def ConvolutionWinogradImplStatus (error_code : Int) : Int :=
  if error_code ≠ RET_OK then RET_ERROR else RET_OK

/-- Function `ConvolutionWinogradImpl` (lines 295-303), the per-task wrapper given to the
thread pool. -/
def ConvolutionWinogradImpl (k : ConvolutionWinogradCPUKernel F) (w : WinogradWeights R)
    (env : WinogradRunEnv F R) (output_data : Nat → R) (task_id : Nat) : Int × (Nat → R) :=
  let r := k.RunImpl w env output_data task_id
  let error_code := r.1
  (ConvolutionWinogradImplStatus error_code, r.2)

/-- The number of elements of the block that `InitWeightBias` allocates for `bias_data_`
(line 168, without the factor `sizeof(float)`). -/
def biasDataSize (out_channel : Nat) : Nat := UP_DIV out_channel C4NUM * C4NUM

end ConvolutionWinogradCPUKernel

/-- Lines 72-95 of `RestoreMulWeight`, the path to the division `DataSize() / channels` of
line 95: `some channels` when the call executes the division, `none` when it returns
before or takes the per-tensor branch. -/
def RestoreMulWeight_divisor {R : Type} (input_tensor : Tensor R) (malloc_ok : Bool) :
    Option Nat :=
  if input_tensor.data_type_ ≠ TypeId.kNumberTypeUInt8 then none
  else if input_tensor.quant_params_.isEmpty then none
  else if !malloc_ok then none
  else if input_tensor.quant_params_.length ≠ kPerTensor then
    let channels := input_tensor.Batch
    if input_tensor.quant_params_.length ≠ channels then none
    else some channels
  else none

/-! ## Concrete inputs for `InferShape` and the tasks -/

/-- Two input tensors at the addresses 1 and 2 and two output tensors at 3 and 4. -/
def exampleHeap : lite.TensorHeap := fun ptr =>
  if ptr = 1 then
    some { shape_ := [1, 2, 3], data_type_ := TypeId.kNumberTypeFloat32
           format_ := lite.Format.Format_NHWC, data_ := [1, 2, 3, 4, 5, 6] }
  else if ptr = 2 then
    some { shape_ := [3], data_type_ := TypeId.kNumberTypeFloat32
           format_ := lite.Format.Format_NCHW, data_ := [7, 8, 9] }
  else if ptr = 3 then
    some { shape_ := [], data_type_ := TypeId.kNumberTypeFloat32
           format_ := lite.Format.Format_NCHW, data_ := [] }
  else if ptr = 4 then
    some { shape_ := [5], data_type_ := TypeId.kNumberTypeInt32
           format_ := lite.Format.Format_NC4HW4, data_ := [0] }
  else none

/-- The environment `exampleZeroEnv` with the weights `exampleWeightData`. -/
def exampleOnesEnv : WinogradInitEnv Int :=
  { exampleZeroEnv with weight_data := exampleWeightData }

/-- The contents of `trans_weight_` after `InitWeightBias` on `exampleOnesEnv`. -/
def exampleOnesTransWeight : Nat → Int :=
  (WinogradFilterTransform 2 9 4 3 (memsetZero exampleDirtyBlock 512) exampleWeightData
    exampleMatrixGt exampleMatrixGt 8 (some exampleDirtyBlock) (some exampleDirtyBlock)
    (some exampleDirtyBlock) (some exampleDirtyBlock)).2

/-! ## Arithmetic of the macros and index computations -/

theorem MSMIN_eq_min {α : Type} [LinearOrder α] (x y : α) : MSMIN x y = min x y := by
  unfold MSMIN
  split_ifs with h
  · exact (min_eq_left h.le).symm
  · exact (min_eq_right (not_lt.mp h)).symm

theorem UP_DIV_mul_ge (x y : Nat) (hy : 0 < y) : x ≤ UP_DIV x y * y := by
  unfold UP_DIV
  have h := @Nat.lt_div_mul_add (x + y - 1) y hy
  omega

theorem UP_DIV_mul_lt (x y : Nat) (hy : 0 < y) : UP_DIV x y * y < x + y := by
  unfold UP_DIV
  have h := Nat.div_mul_le_self (x + y - 1) y
  omega

theorem UP_DIV_pos (x y : Nat) (hx : 0 < x) (hy : 0 < y) : 0 < UP_DIV x y := by
  unfold UP_DIV
  exact Nat.div_pos (by omega) hy

/-- For a positive divisor `UP_DIV` is the ceiling of the exact quotient. -/
theorem UP_DIV_eq_ceil (x y : Nat) (hy : 0 < y) : UP_DIV x y = ⌈(x : ℚ) / (y : ℚ)⌉₊ := by
  symm
  have hyq : (0 : ℚ) < y := by exact_mod_cast hy
  rcases Nat.eq_zero_or_pos x with hx | hx
  · subst hx
    simp only [UP_DIV, Nat.zero_add, Nat.cast_zero, zero_div, Nat.ceil_zero]
    exact (Nat.div_eq_of_lt (by omega)).symm
  · have hpos := UP_DIV_pos x y hx hy
    rw [Nat.ceil_eq_iff (by omega)]
    constructor
    · rw [lt_div_iff₀ hyq]
      have h := UP_DIV_mul_lt x y hy
      have h2 : ((UP_DIV x y - 1 : Nat) : ℚ) = (UP_DIV x y : ℚ) - 1 := by
        rw [Nat.cast_sub hpos]; simp
      rw [h2]
      have h3 : ((UP_DIV x y * y : Nat) : ℚ) < ((x + y : Nat) : ℚ) := by exact_mod_cast h
      push_cast at h3
      linarith
    · rw [div_le_iff₀ hyq]
      have h := UP_DIV_mul_ge x y hy
      exact_mod_cast h

theorem div_eq_iff_window (x s t : Nat) (hs : 0 < s) :
    x / s = t ↔ t * s ≤ x ∧ x < t * s + s := by
  constructor
  · rintro rfl
    exact ⟨Nat.div_mul_le_self x s, Nat.lt_div_mul_add hs⟩
  · rintro ⟨h1, h2⟩
    exact Nat.div_eq_of_lt_le h1 (by rw [Nat.succ_mul]; exact h2)

theorem flat_div (a y c : Nat) (hy : y < c) : (a * c + y) / c = a := by
  have hc : 0 < c := by omega
  rw [Nat.add_comm, Nat.add_mul_div_right _ _ hc, Nat.div_eq_of_lt hy, Nat.zero_add]

theorem flat_mod (a y c : Nat) (hy : y < c) : (a * c + y) % c = y := by
  rw [Nat.add_comm, Nat.add_mul_mod_self_right, Nat.mod_eq_of_lt hy]

theorem flat_lt (a y m c : Nat) (ha : a < m) (hy : y < c) : a * c + y < m * c := by
  have : (a + 1) * c ≤ m * c := Nat.mul_le_mul_right c ha
  rw [Nat.add_mul, Nat.one_mul] at this
  omega

theorem forLoop_succ {σ : Type} (body : Nat → σ → σ) (n : Nat) (s : σ) :
    forLoop body (n + 1) s = body n (forLoop body n s) := rfl

/-! ## `ArithmeticSelfCPUKernel`: the partition of the elements into slices -/

namespace ArithmeticSelfCPUKernel

variable {R : Type}

theorem sliceSize_eq (k : ArithmeticSelfCPUKernel R) (t : Nat) :
    k.sliceSize t = min (k.thread_sz_stride_ : Int)
      ((k.data_size_ : Int) - (t : Int) * (k.thread_sz_stride_ : Int)) := by
  unfold sliceSize
  rw [MSMIN_eq_min]
  push_cast
  rfl

/-- With a positive stride, task `t` processes index `x` exactly when `x` is an element
index and `t = x / stride`. -/
theorem processes_iff (k : ArithmeticSelfCPUKernel R) (hs : 0 < k.thread_sz_stride_) (t x : Nat) :
    k.processes t x ↔ x / k.thread_sz_stride_ = t ∧ x < k.data_size_ := by
  unfold processes sliceOffset
  rw [sliceSize_eq, div_eq_iff_window x _ t hs]
  have e : (((t * k.thread_sz_stride_ : Nat)) : Int) = (t : Int) * (k.thread_sz_stride_ : Int) := by
    push_cast; rfl
  generalize k.thread_sz_stride_ = s at *
  generalize k.data_size_ = d at *
  constructor
  · rintro ⟨_, h2, h3⟩
    rw [e] at h3
    have h4 := min_le_left (s : Int) ((d : Int) - (t : Int) * (s : Int))
    have h5 := min_le_right (s : Int) ((d : Int) - (t : Int) * (s : Int))
    have h6 : ((t * s : Nat) : Int) ≤ (x : Int) := by exact_mod_cast h2
    rw [e] at h6
    refine ⟨⟨h2, ?_⟩, ?_⟩
    · zify; omega
    · zify; omega
  · rintro ⟨⟨h2, h3⟩, h4⟩
    have h6 : ((t * s : Nat) : Int) ≤ (x : Int) := by exact_mod_cast h2
    rw [e] at h6
    have h7 : (x : Int) < ((t * s + s : Nat) : Int) := by exact_mod_cast h3
    rw [Nat.cast_add, e] at h7
    have h9 : (x : Int) < d := by exact_mod_cast h4
    have h10 : (0 : Int) < s := by exact_mod_cast hs
    refine ⟨?_, h2, ?_⟩
    · rw [lt_min_iff]; constructor <;> omega
    · rw [e]
      rcases min_choice (s : Int) ((d : Int) - (t : Int) * (s : Int)) with h | h <;> rw [h] <;> omega

/-- When the function pointer is set and the slice is not empty, `DoArithmeticSelf` hands
exactly the window `[offset, offset + size)` to the element-wise function. -/
theorem DoArithmeticSelf_window (k : ArithmeticSelfCPUKernel R) (task_id : Nat)
    (run : List R → Int × List R) (hrun : k.arithmeticSelf_run_ = some run)
    (h : 0 < k.sliceSize task_id) :
    (k.DoArithmeticSelf task_id).2.run_calls =
      k.run_calls ++ [(k.sliceOffset task_id, (k.sliceSize task_id).toNat)] := by
  unfold DoArithmeticSelf
  simp only [not_le.mpr h, if_false, hrun]
  split_ifs <;> rfl

/-- For a non-empty tensor and at least one thread `ReSize` succeeds with
`thread_sz_count_ = min(thread_count_, data_size_)` and the ceiling stride. -/
theorem ReSize_eq (k : ArithmeticSelfCPUKernel R) (d : Nat) (hd : 1 ≤ d)
    (htc : 1 ≤ k.thread_count_) :
    k.ReSize d = some (RET_OK, { k with data_size_ := d
                                        thread_sz_count_ := min k.thread_count_ d
                                        thread_sz_stride_ := UP_DIV d (min k.thread_count_ d) }) := by
  unfold ReSize
  simp only [MSMIN_eq_min]
  rw [if_neg]
  have : 1 ≤ min k.thread_count_ d := le_min htc hd
  omega

theorem stride_eq_ceil (d tc : Nat) (hd : 1 ≤ d) (htc : 1 ≤ tc) :
    UP_DIV d (min tc d) = ⌈(d : ℚ) / (tc : ℚ)⌉₊ := by
  rcases le_total tc d with h | h
  · rw [min_eq_left h]
    exact UP_DIV_eq_ceil d tc htc
  · rw [min_eq_right h]
    have h1 : UP_DIV d d = 1 := by
      unfold UP_DIV
      exact Nat.div_eq_of_lt_le (by omega) (by omega)
    rw [h1]
    symm
    rw [Nat.ceil_eq_iff (by omega)]
    have hq : (0 : ℚ) < tc := by exact_mod_cast htc
    have hdq : (0 : ℚ) < d := by exact_mod_cast hd
    constructor
    · simp only [Nat.sub_self, Nat.cast_zero]
      exact div_pos hdq hq
    · rw [div_le_iff₀ hq]
      have : (d : ℚ) ≤ tc := by exact_mod_cast h
      simpa using this

/-- For `data_size ≥ 1` and `thread_count ≥ 1` the windows that the tasks
`0 .. thread_sz_count_ - 1` process are pairwise disjoint and cover exactly
`[0, data_size)`: every element index is processed by exactly one task, no task processes
an index outside the range, and there are at most `thread_count` tasks. -/
theorem slices_partition (k : ArithmeticSelfCPUKernel R) (d : Nat) (hd : 1 ≤ d)
    (htc : 1 ≤ k.thread_count_) :
    ∃ k1, k.ReSize d = some (RET_OK, k1) ∧ k1.thread_sz_count_ ≤ k.thread_count_ ∧
      (∀ x, x < d → ∃! t, t < k1.thread_sz_count_ ∧ k1.processes t x) ∧
      (∀ t x, k1.processes t x → x < d) := by
  have hc : 0 < min k.thread_count_ d := lt_min htc hd
  have hs : 0 < UP_DIV d (min k.thread_count_ d) := UP_DIV_pos _ _ hd hc
  refine ⟨_, ReSize_eq k d hd htc, ?_, ?_, ?_⟩
  · exact min_le_left _ _
  · intro x hx
    refine ⟨x / UP_DIV d (min k.thread_count_ d), ⟨?_, ?_⟩, ?_⟩
    · show x / UP_DIV d (min k.thread_count_ d) < min k.thread_count_ d
      rw [Nat.div_lt_iff_lt_mul hs]
      have := UP_DIV_mul_ge d _ hc
      rw [Nat.mul_comm]
      omega
    · rw [processes_iff _ hs]
      exact ⟨rfl, hx⟩
    · rintro t ⟨_, ht⟩
      rw [processes_iff _ hs] at ht
      exact ht.1.symm
  · intro t x h
    rw [processes_iff _ hs] at h
    exact h.2

end ArithmeticSelfCPUKernel

/-- Claim C1, evaluated at the failing input `data_size = 0`: for a tensor without
elements `ReSize` sets `thread_sz_count_ = MSMIN(thread_count_, 0) = 0` and then divides by
it in `UP_DIV(data_size_, thread_sz_count_)`, so it computes no count and no stride,
whatever the thread count. -/
theorem ReSize_zero_elements_undefined {R : Type} (k : ArithmeticSelfCPUKernel R) :
    k.ReSize 0 = none := by
  unfold ArithmeticSelfCPUKernel.ReSize MSMIN
  simp

/-- Claim C2 as stated fails: for `data_size = 5` and `thread_count = 4` there are four
tasks, and task 2, which is not the final task 3, gets a slice of size `1`, not
`ceil(5 / 4) = 2`. -/
theorem slice_before_final_task_smaller :
    ∃ k1, exampleSelfKernel.ReSize 5 = some (RET_OK, k1) ∧ 2 + 1 < k1.thread_sz_count_ ∧
      k1.sliceSize 2 = 1 ∧ k1.sliceSize 2 ≠ ((⌈(5 : ℚ) / (4 : ℚ)⌉₊ : Nat) : Int) := by
  refine ⟨exampleSelfKernelResized, rfl, by decide, by decide, ?_⟩
  have h : ⌈(5 : ℚ) / (4 : ℚ)⌉₊ = 2 := by
    rw [Nat.ceil_eq_iff (by decide)]
    constructor <;> norm_num
  rw [h]
  decide

/-- Claim C2, amended: for `data_size ≥ 1` and `thread_count ≥ 1`, `ReSize` succeeds with
stride `ceil(data_size / thread_count)`; no slice is larger than the stride, and every
task that is followed by a task with a non-empty slice has a slice of exactly the stride.
So only the last non-empty slice may be smaller, and the tasks after it get empty slices. -/
theorem slice_sizes (R : Type) (k : ArithmeticSelfCPUKernel R) (d : Nat) (hd : 1 ≤ d)
    (htc : 1 ≤ k.thread_count_) :
    ∃ k1, k.ReSize d = some (RET_OK, k1) ∧
      k1.thread_sz_stride_ = ⌈(d : ℚ) / (k.thread_count_ : ℚ)⌉₊ ∧
      (∀ t, k1.sliceSize t ≤ (k1.thread_sz_stride_ : Int)) ∧
      (∀ t t1, t < t1 → t1 < k1.thread_sz_count_ → 0 < k1.sliceSize t1 →
        k1.sliceSize t = (k1.thread_sz_stride_ : Int)) := by
  refine ⟨_, ArithmeticSelfCPUKernel.ReSize_eq k d hd htc,
    ArithmeticSelfCPUKernel.stride_eq_ceil d _ hd htc, ?_, ?_⟩
  · intro t
    rw [ArithmeticSelfCPUKernel.sliceSize_eq]
    exact min_le_left _ _
  · intro t t1 htt _ hpos
    rw [ArithmeticSelfCPUKernel.sliceSize_eq] at hpos ⊢
    simp only at hpos ⊢
    generalize UP_DIV d (min k.thread_count_ d) = s at *
    rw [lt_min_iff] at hpos
    apply min_eq_left
    have h1 : (t + 1) * s ≤ t1 * s := Nat.mul_le_mul_right s htt
    have h2 : (((t + 1) * s : Nat) : Int) ≤ ((t1 * s : Nat) : Int) := by exact_mod_cast h1
    push_cast at h2
    linarith [hpos.2]

/-- The amended slice sizes for five elements and four threads. -/
theorem slice_sizes_witness :
    ∃ k1, exampleSelfKernel.ReSize 5 = some (RET_OK, k1) ∧
      k1.thread_sz_stride_ = ⌈((5 : Nat) : ℚ) / (exampleSelfKernel.thread_count_ : ℚ)⌉₊ ∧
      (∀ t, k1.sliceSize t ≤ (k1.thread_sz_stride_ : Int)) ∧
      (∀ t t1, t < t1 → t1 < k1.thread_sz_count_ → 0 < k1.sliceSize t1 →
        k1.sliceSize t = (k1.thread_sz_stride_ : Int)) :=
  slice_sizes Int exampleSelfKernel 5 (by decide) (by decide)

/-- Claim C3: when the slice size computed for `task_id` is `≤ 0`, `DoArithmeticSelf`
returns `RET_OK` and leaves the kernel as it was: the element-wise function is not invoked
(the log of its calls is unchanged) and the output buffer is not written, whether or not
the function pointer is set. -/
theorem DoArithmeticSelf_empty_slice {R : Type} (k : ArithmeticSelfCPUKernel R) (task_id : Nat)
    (h : k.sliceSize task_id ≤ 0) : k.DoArithmeticSelf task_id = (RET_OK, k) := by
  unfold ArithmeticSelfCPUKernel.DoArithmeticSelf
  simp only [h, if_true]

/-- Task 3 of four tasks of stride two over five elements has an empty slice. -/
theorem DoArithmeticSelf_empty_slice_witness :
    exampleSelfKernelResized.sliceSize 3 ≤ 0 ∧
      exampleSelfKernelResized.DoArithmeticSelf 3 = (RET_OK, exampleSelfKernelResized) :=
  ⟨by decide, DoArithmeticSelf_empty_slice exampleSelfKernelResized 3 (by decide)⟩

/-! ## Winograd filter transform: the two multiply-then-transpose steps -/

section Winograd

variable {R : Type}

theorem MatrixMultiplyWinograd_apply [Semiring R] (matrix_a matrix_b matrix_c : Nat → R)
    (m k n in_channel c4 : Nat) (i j y : Nat) (hi : i < m) (hj : j < n) (hy : y < in_channel) :
    MatrixMultiplyWinograd matrix_a matrix_b matrix_c m k n in_channel c4
        ((i * n + j) * in_channel + y) =
      ∑ z ∈ Finset.range k, matrix_a ((i * k + z) * in_channel + y) * matrix_b (z * n + j) := by
  unfold MatrixMultiplyWinograd
  have hlt : (i * n + j) * in_channel + y < m * n * in_channel :=
    flat_lt _ _ _ _ (flat_lt _ _ _ _ hi hj) hy
  rw [if_pos hlt, flat_div _ _ _ hy, flat_mod _ _ _ hy, flat_div _ _ _ hj, flat_mod _ _ _ hj]

theorem PackHWCToWHC_apply (src dst : Nat → R) (height width channel : Nat) (i j c : Nat)
    (hi : i < height) (hj : j < width) (hc : c < channel) :
    PackHWCToWHC src dst height width channel ((j * height + i) * channel + c) =
      src ((i * width + j) * channel + c) := by
  unfold PackHWCToWHC
  have hlt : (j * height + i) * channel + c < width * height * channel :=
    flat_lt _ _ _ _ (flat_lt _ _ _ _ hj hi) hc
  rw [if_pos hlt, flat_div _ _ _ hc, flat_mod _ _ _ hc, flat_div _ _ _ hi, flat_mod _ _ _ hi]

/-- The element `[e][b][y]` of `trans_out_data` after the two steps, as a double sum; it
does not depend on what the scratch buffers held before. -/
theorem filterTransformStep_apply [Semiring R] (channel_in input_unit_ kernel_unit_ : Nat)
    (weight_data matrix_gt : Nat → R) (i : Nat) (s : WinogradScratch R) (e b y : Nat)
    (he : e < input_unit_) (hb : b < input_unit_) (hy : y < channel_in) :
    (filterTransformStep channel_in input_unit_ kernel_unit_ weight_data matrix_gt i s).trans_out_data
        ((e * input_unit_ + b) * channel_in + y) =
      ∑ z ∈ Finset.range kernel_unit_,
        (∑ a ∈ Finset.range kernel_unit_,
          weight_data (i * (kernel_unit_ * kernel_unit_ * channel_in) +
              ((z * kernel_unit_ + a) * channel_in + y)) * matrix_gt (a * input_unit_ + b)) *
          matrix_gt (z * input_unit_ + e) := by
  unfold filterTransformStep
  simp only
  rw [PackHWCToWHC_apply _ _ _ _ _ b e y hb he hy,
    MatrixMultiplyWinograd_apply _ _ _ _ _ _ _ _ b e y hb he hy]
  refine Finset.sum_congr rfl (fun z hz => ?_)
  have hz1 : z < kernel_unit_ := Finset.mem_range.mp hz
  rw [PackHWCToWHC_apply _ _ _ _ _ z b y hz1 hb hy,
    MatrixMultiplyWinograd_apply _ _ _ _ _ _ _ _ z b y hz1 hb hy]

/-- The element `[e][b]` of `G · w · Gᵀ` as the same double sum. -/
theorem specFilterTransform_apply [CommSemiring R] (channel_in input_unit_ kernel_unit_ : Nat)
    (weight_data matrix_gt : Nat → R) (i c : Nat) (e b : Fin input_unit_) :
    specFilterTransform (matrixGt matrix_gt kernel_unit_ input_unit_)
        (weightSlice weight_data channel_in kernel_unit_ i c) e b =
      ∑ z ∈ Finset.range kernel_unit_,
        (∑ a ∈ Finset.range kernel_unit_,
          weight_data (i * (kernel_unit_ * kernel_unit_ * channel_in) +
              ((z * kernel_unit_ + a) * channel_in + c)) * matrix_gt (a * input_unit_ + b.val)) *
          matrix_gt (z * input_unit_ + e.val) := by
  unfold specFilterTransform
  rw [Matrix.mul_assoc, Matrix.mul_apply, Finset.sum_range]
  refine Finset.sum_congr rfl (fun z _ => ?_)
  rw [Matrix.mul_apply, Finset.sum_range, mul_comm]
  rfl

theorem filterTransformStep_eq_spec [CommSemiring R] (channel_in input_unit_ kernel_unit_ : Nat)
    (weight_data matrix_gt : Nat → R) (i c : Nat) (s : WinogradScratch R) (hc : c < channel_in)
    (e b : Fin input_unit_) :
    (filterTransformStep channel_in input_unit_ kernel_unit_ weight_data matrix_gt i s).trans_out_data
        ((e.val * input_unit_ + b.val) * channel_in + c) =
      specFilterTransform (matrixGt matrix_gt kernel_unit_ input_unit_)
        (weightSlice weight_data channel_in kernel_unit_ i c) e b := by
  rw [specFilterTransform_apply]
  exact filterTransformStep_apply _ _ _ _ _ _ _ _ _ _ e.isLt b.isLt hc

/-! ## Winograd filter transform: the scatter into `trans_weight_` -/

theorem div_lt_UP_DIV (i channel_out oc_block : Nat) (hb : 0 < oc_block) (hi : i < channel_out) :
    i / oc_block < UP_DIV channel_out oc_block := by
  rw [Nat.div_lt_iff_lt_mul hb]
  have := UP_DIV_mul_ge channel_out oc_block hb
  omega

/-- Distinct `(tile position, input channel, output channel)` triples have distinct
offsets. -/
theorem transWeightOffset_inj (channel_in channel_out oc_block : Nat) (hb : 0 < oc_block)
    (p c i p1 c1 i1 : Nat) (hc : c < channel_in) (hi : i < channel_out)
    (hc1 : c1 < channel_in) (hi1 : i1 < channel_out)
    (h : transWeightOffset channel_in channel_out oc_block p c i =
      transWeightOffset channel_in channel_out oc_block p1 c1 i1) :
    p = p1 ∧ c = c1 ∧ i = i1 := by
  unfold transWeightOffset at h
  have hm : i % oc_block < oc_block := Nat.mod_lt _ hb
  have hm1 : i1 % oc_block < oc_block := Nat.mod_lt _ hb
  have hd := div_lt_UP_DIV i channel_out oc_block hb hi
  have hd1 := div_lt_UP_DIV i1 channel_out oc_block hb hi1
  have e1 := congrArg (fun a => a % oc_block) h
  have e2 := congrArg (fun a => a / oc_block) h
  simp only [flat_mod _ _ _ hm, flat_mod _ _ _ hm1, flat_div _ _ _ hm, flat_div _ _ _ hm1] at e1 e2
  have e3 := congrArg (fun a => a % channel_in) e2
  have e4 := congrArg (fun a => a / channel_in) e2
  simp only [flat_mod _ _ _ hc, flat_mod _ _ _ hc1, flat_div _ _ _ hc, flat_div _ _ _ hc1] at e3 e4
  have e5 := congrArg (fun a => a % UP_DIV channel_out oc_block) e4
  have e6 := congrArg (fun a => a / UP_DIV channel_out oc_block) e4
  simp only [flat_mod _ _ _ hd, flat_mod _ _ _ hd1, flat_div _ _ _ hd, flat_div _ _ _ hd1] at e5 e6
  refine ⟨e6, e3, ?_⟩
  rw [← Nat.div_add_mod i oc_block, ← Nat.div_add_mod i1 oc_block, e5, e1]

/-- The address the source computes (lines 80-82, 108 and 111) is `transWeightOffset`. -/
theorem code_offset_eq (channel_in channel_out oc_block p c i : Nat) :
    i / oc_block * (channel_in * oc_block) + i % oc_block
        + p * (channel_in * oc_block * UP_DIV channel_out oc_block) + c * oc_block =
      transWeightOffset channel_in channel_out oc_block p c i := by
  unfold transWeightOffset
  ring

theorem cellLoop_written (oc_block o io : Nat) (src : Nat → R) (hb : 0 < oc_block) (n : Nat)
    (tw : Nat → R) (c : Nat) (hc : c < n) :
    forLoop (fun c tw => Function.update tw (o + c * oc_block) (src (io + c))) n tw
      (o + c * oc_block) = src (io + c) := by
  induction n with
  | zero => omega
  | succ n ih =>
    rw [forLoop_succ]
    rcases Nat.lt_succ_iff_lt_or_eq.mp hc with h | h
    · have hne : o + c * oc_block ≠ o + n * oc_block := by
        intro e
        have : c * oc_block = n * oc_block := by omega
        have := Nat.eq_of_mul_eq_mul_right hb this
        omega
      simp only [Function.update_noteq hne]
      exact ih h
    · subst h
      simp only [Function.update_same]

theorem cellLoop_frame (oc_block o io : Nat) (src : Nat → R) (n : Nat)
    (tw : Nat → R) (a : Nat) (ha : ∀ c, c < n → a ≠ o + c * oc_block) :
    forLoop (fun c tw => Function.update tw (o + c * oc_block) (src (io + c))) n tw a = tw a := by
  induction n with
  | zero => rfl
  | succ n ih =>
    rw [forLoop_succ]
    simp only [Function.update_noteq (ha n (Nat.lt_succ_self n))]
    exact ih (fun c hc => ha c (Nat.lt_succ_of_lt hc))

theorem cells_succ (channel_in oc_block bns : Nat) (src : Nat → R) (n : Nat)
    (st : ScatterState R) :
    cells channel_in oc_block bns src (n + 1) st =
      scatterCell channel_in oc_block bns src (cells channel_in oc_block bns src n st) := rfl

/-- The `j` and `k` loops run the body of the `k` loop `input_unit²` times. -/
theorem nested_eq_cells (channel_in oc_block bns : Nat) (src : Nat → R) (m n : Nat)
    (st : ScatterState R) :
    forLoop (fun _ st0 => forLoop (fun _ st1 => scatterCell channel_in oc_block bns src st1) n st0) m st
      = cells channel_in oc_block bns src (m * n) st := by
  induction m with
  | zero => simp [cells, forLoop]
  | succ m ih =>
    rw [forLoop_succ, ih]
    have : ∀ n1, forLoop (fun _ st1 => scatterCell channel_in oc_block bns src st1) n1
        (cells channel_in oc_block bns src (m * n) st) =
          cells channel_in oc_block bns src (m * n + n1) st := by
      intro n1
      induction n1 with
      | zero => rfl
      | succ n1 ih1 =>
        rw [forLoop_succ, ih1]
        rfl
    rw [this, Nat.succ_mul]

theorem cells_offsets (channel_in oc_block bns : Nat) (src : Nat → R) (n : Nat)
    (st : ScatterState R) :
    (cells channel_in oc_block bns src n st).in_offset = st.in_offset + n * channel_in ∧
    (cells channel_in oc_block bns src n st).output_oz_offset = st.output_oz_offset + n * bns := by
  induction n with
  | zero => simp [cells, forLoop]
  | succ n ih =>
    rw [cells_succ]
    unfold scatterCell
    simp only [ih.1, ih.2]
    constructor <;> ring

theorem cells_frame (channel_in oc_block bns : Nat) (src : Nat → R) (n : Nat)
    (st : ScatterState R) (a : Nat)
    (ha : ∀ q c, q < n → c < channel_in → a ≠ st.output_oz_offset + q * bns + c * oc_block) :
    (cells channel_in oc_block bns src n st).trans_weight_ a = st.trans_weight_ a := by
  induction n with
  | zero => rfl
  | succ n ih =>
    rw [cells_succ]
    unfold scatterCell
    simp only
    rw [cellLoop_frame, ih (fun q c hq hc => ha q c (Nat.lt_succ_of_lt hq) hc)]
    intro c hc
    rw [(cells_offsets channel_in oc_block bns src n st).2]
    exact ha n c (Nat.lt_succ_self n) hc

theorem cells_written (channel_in oc_block bns : Nat) (src : Nat → R) (hb : 0 < oc_block)
    (n : Nat) (st : ScatterState R)
    (hdis : ∀ q c q1 c1, q < n → q1 < n → c < channel_in → c1 < channel_in →
      st.output_oz_offset + q * bns + c * oc_block = st.output_oz_offset + q1 * bns + c1 * oc_block →
      q = q1)
    (q c : Nat) (hq : q < n) (hc : c < channel_in) :
    (cells channel_in oc_block bns src n st).trans_weight_
        (st.output_oz_offset + q * bns + c * oc_block) =
      src (st.in_offset + q * channel_in + c) := by
  induction n with
  | zero => omega
  | succ n ih =>
    rw [cells_succ]
    unfold scatterCell
    simp only
    rw [(cells_offsets channel_in oc_block bns src n st).1,
      (cells_offsets channel_in oc_block bns src n st).2]
    rcases Nat.lt_succ_iff_lt_or_eq.mp hq with h | h
    · rw [cellLoop_frame]
      · exact ih (fun q c q1 c1 hq hq1 hc hc1 e =>
          hdis q c q1 c1 (Nat.lt_succ_of_lt hq) (Nat.lt_succ_of_lt hq1) hc hc1 e) h
      · intro c1 hc1 e
        have := hdis q c n c1 hq (Nat.lt_succ_self n) hc hc1 e
        omega
    · subst h
      exact cellLoop_written oc_block _ _ src hb channel_in _ c hc

theorem scatter_eq (channel_in input_unit_ oc_block bns : Nat) (src tw : Nat → R) (o : Nat) :
    scatter channel_in input_unit_ oc_block bns src tw o =
      (cells channel_in oc_block bns src (input_unit_ * input_unit_)
        { trans_weight_ := tw, in_offset := 0, output_oz_offset := o }).trans_weight_ := by
  unfold scatter
  rw [nested_eq_cells]

theorem scatter_written (channel_in channel_out input_unit_ oc_block : Nat) (src tw : Nat → R)
    (hb : 0 < oc_block) (i : Nat) (hi : i < channel_out) (q c : Nat)
    (hq : q < input_unit_ * input_unit_) (hc : c < channel_in) :
    scatter channel_in input_unit_ oc_block (channel_in * oc_block * UP_DIV channel_out oc_block)
        src tw (i / oc_block * (channel_in * oc_block) + i % oc_block)
        (transWeightOffset channel_in channel_out oc_block q c i) =
      src (q * channel_in + c) := by
  rw [scatter_eq, ← code_offset_eq]
  have h := cells_written channel_in oc_block (channel_in * oc_block * UP_DIV channel_out oc_block)
    src hb (input_unit_ * input_unit_)
    { trans_weight_ := tw, in_offset := 0
      output_oz_offset := i / oc_block * (channel_in * oc_block) + i % oc_block }
    (by
      intro q c q1 c1 _ _ hc hc1 e
      simp only at e
      rw [code_offset_eq, code_offset_eq] at e
      exact (transWeightOffset_inj channel_in channel_out oc_block hb q c i q1 c1 i hc hi hc1 hi e).1)
    q c hq hc
  simp only [Nat.zero_add] at h
  exact h

theorem scatter_frame (channel_in channel_out input_unit_ oc_block : Nat) (src tw : Nat → R)
    (i : Nat) (a : Nat)
    (ha : ∀ q c, q < input_unit_ * input_unit_ → c < channel_in →
      a ≠ transWeightOffset channel_in channel_out oc_block q c i) :
    scatter channel_in input_unit_ oc_block (channel_in * oc_block * UP_DIV channel_out oc_block)
        src tw (i / oc_block * (channel_in * oc_block) + i % oc_block) a = tw a := by
  rw [scatter_eq]
  refine cells_frame channel_in oc_block _ src _ _ a ?_
  intro q c hq hc
  simp only
  rw [code_offset_eq]
  exact ha q c hq hc

theorem filterTransformChannel_fst [Semiring R] (channel_in channel_out input_unit_ kernel_unit_ : Nat)
    (weight_data matrix_gt : Nat → R) (oc_block i : Nat) (st : (Nat → R) × WinogradScratch R) :
    (filterTransformChannel channel_in channel_out input_unit_ kernel_unit_ weight_data matrix_gt
        oc_block i st).1 =
      scatter channel_in input_unit_ oc_block (channel_in * oc_block * UP_DIV channel_out oc_block)
        (filterTransformStep channel_in input_unit_ kernel_unit_ weight_data matrix_gt i st.2).trans_out_data
        st.1 (i / oc_block * (channel_in * oc_block) + i % oc_block) := rfl

/-- The loop over the output channels leaves every position alone that is not the offset
of a `(tile position, input channel, output channel)` triple. -/
theorem channels_frame [Semiring R] (channel_in channel_out input_unit_ kernel_unit_ : Nat)
    (weight_data matrix_gt : Nat → R) (oc_block : Nat) (n : Nat)
    (st : (Nat → R) × WinogradScratch R) (a : Nat)
    (ha : ∀ i q c, i < n → q < input_unit_ * input_unit_ → c < channel_in →
      a ≠ transWeightOffset channel_in channel_out oc_block q c i) :
    (forLoop (filterTransformChannel channel_in channel_out input_unit_ kernel_unit_ weight_data
        matrix_gt oc_block) n st).1 a = st.1 a := by
  induction n with
  | zero => rfl
  | succ n ih =>
    rw [forLoop_succ, filterTransformChannel_fst,
      scatter_frame _ _ _ _ _ _ _ _ (fun q c hq hc => ha n q c (Nat.lt_succ_self n) hq hc)]
    exact ih (fun i q c hi hq hc => ha i q c (Nat.lt_succ_of_lt hi) hq hc)

/-- After the loop over the output channels, the offset of `(q, c, i)` holds element
`q * channel_in + c` of the `trans_out_data` computed for output channel `i`. -/
theorem channels_written [Semiring R] (channel_in channel_out input_unit_ kernel_unit_ : Nat)
    (weight_data matrix_gt : Nat → R) (oc_block : Nat) (hb : 0 < oc_block) (n : Nat)
    (hn : n ≤ channel_out) (st : (Nat → R) × WinogradScratch R)
    (i q c : Nat) (hi : i < n) (hq : q < input_unit_ * input_unit_) (hc : c < channel_in) :
    ∃ s : WinogradScratch R,
    (forLoop (filterTransformChannel channel_in channel_out input_unit_ kernel_unit_ weight_data
        matrix_gt oc_block) n st).1 (transWeightOffset channel_in channel_out oc_block q c i) =
      (filterTransformStep channel_in input_unit_ kernel_unit_ weight_data matrix_gt i s).trans_out_data
        (q * channel_in + c) := by
  induction n with
  | zero => omega
  | succ n ih =>
    rw [forLoop_succ, filterTransformChannel_fst]
    rcases Nat.lt_succ_iff_lt_or_eq.mp hi with h | h
    · obtain ⟨s, hs⟩ := ih (by omega) h
      refine ⟨s, ?_⟩
      rw [scatter_frame, hs]
      intro q1 c1 _ hc1 e
      have := (transWeightOffset_inj channel_in channel_out oc_block hb q c i q1 c1 n hc
        (by omega) hc1 (by omega) e).2.2
      omega
    · subst h
      exact ⟨_, scatter_written channel_in channel_out input_unit_ oc_block _ _ hb i (by omega) q c hq hc⟩

/-- With a non-zero block size and four successful allocations the transform returns
`RET_OK`, and the offset of `(j * input_unit + k, c, i)` holds element `[j][k]` of
`G · w · Gᵀ` for the weights `w` of output channel `i` and input channel `c`. -/
theorem WinogradFilterTransform_apply [CommSemiring R]
    (channel_in channel_out input_unit_ kernel_unit_ : Nat)
    (trans_weight_ weight_data matrix_g matrix_gt : Nat → R) (oc_block : Nat)
    (b1 b2 b3 b4 : Nat → R) (i c : Nat) (j k : Fin input_unit_)
    (hb : 0 < oc_block) (hi : i < channel_out) (hc : c < channel_in) :
    (WinogradFilterTransform channel_in channel_out input_unit_ kernel_unit_ trans_weight_
        weight_data matrix_g matrix_gt oc_block (some b1) (some b2) (some b3) (some b4)).1 = RET_OK ∧
    (WinogradFilterTransform channel_in channel_out input_unit_ kernel_unit_ trans_weight_
        weight_data matrix_g matrix_gt oc_block (some b1) (some b2) (some b3) (some b4)).2
        (transWeightOffset channel_in channel_out oc_block (j.val * input_unit_ + k.val) c i) =
      specFilterTransform (matrixGt matrix_gt kernel_unit_ input_unit_)
        (weightSlice weight_data channel_in kernel_unit_ i c) j k := by
  unfold WinogradFilterTransform
  rw [if_neg (by omega)]
  refine ⟨rfl, ?_⟩
  simp only
  obtain ⟨s, hs⟩ := channels_written channel_in channel_out input_unit_ kernel_unit_ weight_data
    matrix_gt oc_block hb channel_out (le_refl _)
    (trans_weight_, { tmp_data := b1, trans_out_data := b2, tmp_data1 := b3, trans_out_data1 := b4 })
    i (j.val * input_unit_ + k.val) c hi (flat_lt _ _ _ _ j.isLt k.isLt) hc
  rw [hs]
  exact filterTransformStep_eq_spec _ _ _ _ _ _ _ s hc j k

end Winograd

/-- Claim C4: for every output channel `i` and input channel `c`, the
`input_unit × input_unit` matrix that the two multiply-then-transpose steps of
`WinogradFilterTransform` leave in `trans_out_data` equals `G · w · Gᵀ`, where `Gᵀ` is
`matrix_gt` and `w` is the `kernel_unit × kernel_unit` weight slice of `(i, c)`;
`MatrixMultiplyWinograd` is the per-channel product and `PackHWCToWHC` the per-channel
transpose, in exact arithmetic. -/
theorem filter_transform_is_G_w_Gt (R : Type) [CommSemiring R]
    (channel_in input_unit_ kernel_unit_ : Nat) (weight_data matrix_gt : Nat → R) (i c : Nat)
    (s : WinogradScratch R) (hc : c < channel_in) :
    transOutSlice
        (filterTransformStep channel_in input_unit_ kernel_unit_ weight_data matrix_gt i s).trans_out_data
        channel_in input_unit_ c =
      specFilterTransform (matrixGt matrix_gt kernel_unit_ input_unit_)
        (weightSlice weight_data channel_in kernel_unit_ i c) := by
  ext e b
  exact filterTransformStep_eq_spec _ _ _ _ _ _ _ s hc e b

/-- The two steps for a `3 × 3` kernel, tile 4, two input channels, at input channel 1. -/
theorem filter_transform_is_G_w_Gt_witness :
    transOutSlice
        (filterTransformStep 2 4 3 exampleWeightData exampleMatrixGt 0 exampleScratch).trans_out_data
        2 4 1 =
      specFilterTransform (matrixGt exampleMatrixGt 3 4) (weightSlice exampleWeightData 2 3 0 1) :=
  filter_transform_is_G_w_Gt Int 2 4 3 exampleWeightData exampleMatrixGt 0 1 exampleScratch
    (by decide)

/-- Claim C5 as stated fails: for `channel_in = 2`, `channel_out = 9`, `oc_block = 8` the
specified offset of tile position 0, input channel 1, output channel 0 is 16; the source
stores there the value of input channel 0 and output channel 8, which is `0` for
`exampleWeightData`, while the transformed value of `(0, 1, 0)` is `9`. -/
theorem trans_weight_spec_offset_holds_other_value :
    specTransWeightOffset 2 9 8 (0 * 4 + 0) 1 0 = 16 ∧
    (WinogradFilterTransform 2 9 4 3 exampleBlock exampleWeightData exampleMatrixGt
        exampleMatrixGt 8 (some exampleBlock) (some exampleBlock) (some exampleBlock)
        (some exampleBlock)).2 (specTransWeightOffset 2 9 8 (0 * 4 + 0) 1 0) = 0 ∧
    specFilterTransform (matrixGt exampleMatrixGt 3 4) (weightSlice exampleWeightData 2 3 0 1)
        (0 : Fin 4) (0 : Fin 4) = 9 ∧
    (WinogradFilterTransform 2 9 4 3 exampleBlock exampleWeightData exampleMatrixGt
        exampleMatrixGt 8 (some exampleBlock) (some exampleBlock) (some exampleBlock)
        (some exampleBlock)).2 (specTransWeightOffset 2 9 8 (0 * 4 + 0) 1 0) ≠
      specFilterTransform (matrixGt exampleMatrixGt 3 4) (weightSlice exampleWeightData 2 3 0 1)
        (0 : Fin 4) (0 : Fin 4) := by
  have h16 : specTransWeightOffset 2 9 8 (0 * 4 + 0) 1 0 =
      transWeightOffset 2 9 8 ((0 : Fin 4).val * 4 + (0 : Fin 4).val) 0 8 := by decide
  have hcode : (WinogradFilterTransform 2 9 4 3 exampleBlock exampleWeightData exampleMatrixGt
      exampleMatrixGt 8 (some exampleBlock) (some exampleBlock) (some exampleBlock)
      (some exampleBlock)).2 (specTransWeightOffset 2 9 8 (0 * 4 + 0) 1 0) = 0 := by
    rw [h16, (WinogradFilterTransform_apply 2 9 4 3 exampleBlock exampleWeightData exampleMatrixGt
      exampleMatrixGt 8 exampleBlock exampleBlock exampleBlock exampleBlock 8 0 0 0
      (by decide) (by decide) (by decide)).2, specFilterTransform_apply]
    simp only [Finset.sum_range_succ, Finset.sum_range_zero, exampleWeightData, exampleMatrixGt]
    decide
  have hspec : specFilterTransform (matrixGt exampleMatrixGt 3 4)
      (weightSlice exampleWeightData 2 3 0 1) (0 : Fin 4) (0 : Fin 4) = 9 := by
    rw [specFilterTransform_apply]
    simp only [Finset.sum_range_succ, Finset.sum_range_zero, exampleWeightData, exampleMatrixGt]
    decide
  refine ⟨by decide, hcode, hspec, ?_⟩
  rw [hcode, hspec]
  decide

/-- Claim C5, amended: with `oc_block > 0` and successful allocations,
`WinogradFilterTransform` returns `RET_OK` and stores the transformed value for tile
position `p = j * input_unit + k`, input channel `c` and output channel `i` at the row-major
offset of element `[p][i / oc_block][c][i % oc_block]` of a buffer of shape
`[input_unit², oc_block_num, channel_in, oc_block]`, that is at
`((p * oc_block_num + i / oc_block) * channel_in + c) * oc_block + i % oc_block`, for every
`i < channel_out`, `c < channel_in` and `j, k < input_unit`. -/
theorem trans_weight_layout (R : Type) [CommSemiring R]
    (channel_in channel_out input_unit_ kernel_unit_ : Nat)
    (trans_weight_ weight_data matrix_g matrix_gt : Nat → R) (oc_block : Nat)
    (b1 b2 b3 b4 : Nat → R) (i c j k : Nat)
    (hb : 0 < oc_block) (hi : i < channel_out) (hc : c < channel_in)
    (hj : j < input_unit_) (hk : k < input_unit_) :
    (WinogradFilterTransform channel_in channel_out input_unit_ kernel_unit_ trans_weight_
        weight_data matrix_g matrix_gt oc_block (some b1) (some b2) (some b3) (some b4)).1 = RET_OK ∧
    (WinogradFilterTransform channel_in channel_out input_unit_ kernel_unit_ trans_weight_
        weight_data matrix_g matrix_gt oc_block (some b1) (some b2) (some b3) (some b4)).2
        ((((j * input_unit_ + k) * UP_DIV channel_out oc_block + i / oc_block) * channel_in + c)
          * oc_block + i % oc_block) =
      specFilterTransform (matrixGt matrix_gt kernel_unit_ input_unit_)
        (weightSlice weight_data channel_in kernel_unit_ i c) ⟨j, hj⟩ ⟨k, hk⟩ :=
  WinogradFilterTransform_apply channel_in channel_out input_unit_ kernel_unit_ trans_weight_
    weight_data matrix_g matrix_gt oc_block b1 b2 b3 b4 i c ⟨j, hj⟩ ⟨k, hk⟩ hb hi hc

/-- The layout at tile position `(1, 2)`, input channel 1 and output channel 8 of nine. -/
theorem trans_weight_layout_witness :
    (WinogradFilterTransform 2 9 4 3 exampleBlock exampleWeightData exampleMatrixGt
        exampleMatrixGt 8 (some exampleBlock) (some exampleBlock) (some exampleBlock)
        (some exampleBlock)).1 = RET_OK ∧
    (WinogradFilterTransform 2 9 4 3 exampleBlock exampleWeightData exampleMatrixGt
        exampleMatrixGt 8 (some exampleBlock) (some exampleBlock) (some exampleBlock)
        (some exampleBlock)).2
        ((((1 * 4 + 2) * UP_DIV 9 8 + 8 / 8) * 2 + 1) * 8 + 8 % 8) =
      specFilterTransform (matrixGt exampleMatrixGt 3 4) (weightSlice exampleWeightData 2 3 8 1)
        ⟨1, by decide⟩ ⟨2, by decide⟩ :=
  trans_weight_layout Int 2 9 4 3 exampleBlock exampleWeightData exampleMatrixGt exampleMatrixGt 8
    exampleBlock exampleBlock exampleBlock exampleBlock 8 1 1 2
    (by decide) (by decide) (by decide) (by decide) (by decide)

/-- Claim C6: whenever `WinogradFilterTransform` returns a status other than `RET_OK`,
`trans_weight_` holds exactly the contents it had on entry; the failure is `oc_block = 0`
with `RET_ERROR`, or a failed scratch allocation with `RET_MEMORY_FAILED`. -/
theorem WinogradFilterTransform_failure_keeps_trans_weight (R : Type) [Semiring R]
    (channel_in channel_out input_unit_ kernel_unit_ : Nat)
    (trans_weight_ weight_data matrix_g matrix_gt : Nat → R) (oc_block : Nat)
    (tmp_data trans_out_data tmp_data1 trans_out_data1 : Option (Nat → R))
    (h : (WinogradFilterTransform channel_in channel_out input_unit_ kernel_unit_ trans_weight_
        weight_data matrix_g matrix_gt oc_block tmp_data trans_out_data tmp_data1
        trans_out_data1).1 ≠ RET_OK) :
    (WinogradFilterTransform channel_in channel_out input_unit_ kernel_unit_ trans_weight_
        weight_data matrix_g matrix_gt oc_block tmp_data trans_out_data tmp_data1
        trans_out_data1).2 = trans_weight_ ∧
    ((oc_block = 0 ∧
        (WinogradFilterTransform channel_in channel_out input_unit_ kernel_unit_ trans_weight_
          weight_data matrix_g matrix_gt oc_block tmp_data trans_out_data tmp_data1
          trans_out_data1).1 = RET_ERROR) ∨
      (oc_block ≠ 0 ∧
        (tmp_data.isNone ∨ trans_out_data.isNone ∨ tmp_data1.isNone ∨ trans_out_data1.isNone) ∧
        (WinogradFilterTransform channel_in channel_out input_unit_ kernel_unit_ trans_weight_
          weight_data matrix_g matrix_gt oc_block tmp_data trans_out_data tmp_data1
          trans_out_data1).1 = RET_MEMORY_FAILED)) := by
  unfold WinogradFilterTransform at h ⊢
  by_cases hb : oc_block = 0
  · simp [hb]
  · rcases tmp_data with _ | t1
    · simp [hb]
    · rcases trans_out_data with _ | t2
      · simp [hb]
      · rcases tmp_data1 with _ | t3
        · simp [hb]
        · rcases trans_out_data1 with _ | t4
          · simp [hb]
          · simp [hb] at h

/-- A failed second scratch allocation leaves the destination buffer as it was. -/
theorem WinogradFilterTransform_failure_keeps_trans_weight_witness :
    (WinogradFilterTransform 2 9 4 3 exampleWeightData exampleWeightData exampleMatrixGt
        exampleMatrixGt 8 (some exampleBlock) none (some exampleBlock) (some exampleBlock)).2 =
      exampleWeightData ∧
    ((8 = 0 ∧
        (WinogradFilterTransform 2 9 4 3 exampleWeightData exampleWeightData exampleMatrixGt
          exampleMatrixGt 8 (some exampleBlock) none (some exampleBlock)
          (some exampleBlock)).1 = RET_ERROR) ∨
      (8 ≠ 0 ∧
        ((some exampleBlock).isNone ∨ (none : Option (Nat → Int)).isNone ∨
          (some exampleBlock).isNone ∨ (some exampleBlock).isNone) ∧
        (WinogradFilterTransform 2 9 4 3 exampleWeightData exampleWeightData exampleMatrixGt
          exampleMatrixGt 8 (some exampleBlock) none (some exampleBlock)
          (some exampleBlock)).1 = RET_MEMORY_FAILED)) :=
  WinogradFilterTransform_failure_keeps_trans_weight Int 2 9 4 3 exampleWeightData
    exampleWeightData exampleMatrixGt exampleMatrixGt 8 (some exampleBlock) none
    (some exampleBlock) (some exampleBlock) (by decide)

theorem RET_ERROR_ne_RET_OK : RET_ERROR ≠ RET_OK := by decide

theorem RET_MEMORY_FAILED_ne_RET_OK : RET_MEMORY_FAILED ≠ RET_OK := by decide

/-! ## `ConvolutionWinogradCPUKernel::Run`: scratch blocks -/

namespace ConvolutionWinogradCPUKernel

variable {F : Type}

/-- When `Prepare` fails, `Run` returns its status and touches nothing. -/
theorem Run_prepare_failure_untouched (k : ConvolutionWinogradCPUKernel F) (prepare_ret : Int)
    (ok1 ok2 ok3 ok4 : Bool) (error_code : Int) (h : prepare_ret ≠ RET_OK) :
    k.Run prepare_ret ok1 ok2 ok3 ok4 error_code = (prepare_ret, k) := by
  unfold Run
  rw [if_pos h]

/-- When the four scratch allocations succeed, `Run` gives every one of them back,
whatever `ParallelLaunch` reports: the live blocks are those before the call. Every live
block lies below the next address of the allocator. -/
theorem Run_releases_after_InitTmpBuffer (k : ConvolutionWinogradCPUKernel F)
    (error_code : Int) (hfresh : ∀ b ∈ k.allocator.live, b < k.allocator.next) :
    (k.Run RET_OK true true true true error_code).2.allocator.live = k.allocator.live := by
  have hlive : ((((insert (k.allocator.next + 3) (insert (k.allocator.next + 2)
      (insert (k.allocator.next + 1) (insert k.allocator.next k.allocator.live)))).erase
        k.allocator.next).erase (k.allocator.next + 2)).erase (k.allocator.next + 1)).erase
          (k.allocator.next + 3) = k.allocator.live := by
    ext b
    simp only [Finset.mem_erase, Finset.mem_insert]
    constructor
    · rintro ⟨h3, h1, h2, h0, h⟩
      rcases h with h | h | h | h | h
      · exact absurd h h3
      · exact absurd h h2
      · exact absurd h h1
      · exact absurd h h0
      · exact h
    · intro h
      have := hfresh b h
      refine ⟨by omega, by omega, by omega, by omega, Or.inr (Or.inr (Or.inr (Or.inr h)))⟩
  by_cases he : error_code = RET_OK
  · simp [Run, InitTmpBuffer, Allocator.Malloc, FreeTmpBuffer, Allocator.Free, he, hlive]
  · simp [Run, InitTmpBuffer, Allocator.Malloc, FreeTmpBuffer, Allocator.Free, he, hlive]

/-- When `Prepare` succeeds, the first scratch allocation succeeds and the second fails,
`Run` returns `RET_ERROR` and the block of the first allocation stays live. -/
theorem Run_second_allocation_failure (k : ConvolutionWinogradCPUKernel F) (ok3 ok4 : Bool)
    (error_code : Int) :
    (k.Run RET_OK true false ok3 ok4 error_code).1 = RET_ERROR ∧
    (k.Run RET_OK true false ok3 ok4 error_code).2.allocator.live =
      insert k.allocator.next k.allocator.live := by
  simp [Run, InitTmpBuffer, Allocator.Malloc, RET_ERROR_ne_RET_OK]

/-- Method `Run` leaves the set of live blocks as it found it exactly when `Prepare` fails, or
the first scratch allocation fails, or the last three all succeed (the first having
succeeded): a failure of the second, third or fourth allocation after a successful first
one leaves blocks of this run live. Every live block lies below the next address. -/
theorem Run_live_blocks_iff (k : ConvolutionWinogradCPUKernel F) (prepare_ret : Int)
    (ok1 ok2 ok3 ok4 : Bool) (error_code : Int)
    (hfresh : ∀ b ∈ k.allocator.live, b < k.allocator.next) :
    (k.Run prepare_ret ok1 ok2 ok3 ok4 error_code).2.allocator.live = k.allocator.live ↔
      (prepare_ret ≠ RET_OK ∨ ok1 = false ∨ (ok2 = true ∧ ok3 = true ∧ ok4 = true)) := by
  have hn : k.allocator.next ∉ k.allocator.live := fun h => Nat.lt_irrefl _ (hfresh _ h)
  have hne : ∀ t : Finset Nat, k.allocator.next ∈ t → t ≠ k.allocator.live :=
    fun t ht e => hn (e ▸ ht)
  by_cases hp : prepare_ret = RET_OK
  · subst hp
    cases ok1
    · simp [Run, InitTmpBuffer, Allocator.Malloc, RET_MEMORY_FAILED_ne_RET_OK]
    · cases ok2
      · have := hne (insert k.allocator.next k.allocator.live) (by simp)
        simp [Run, InitTmpBuffer, Allocator.Malloc, RET_ERROR_ne_RET_OK, this]
      · cases ok3
        · have := hne (insert (k.allocator.next + 1) (insert k.allocator.next k.allocator.live))
            (by simp)
          simp [Run, InitTmpBuffer, Allocator.Malloc, RET_MEMORY_FAILED_ne_RET_OK, this]
        · cases ok4
          · have := hne (insert (k.allocator.next + 1 + 1) (insert (k.allocator.next + 1)
              (insert k.allocator.next k.allocator.live))) (by simp)
            simp [Run, InitTmpBuffer, Allocator.Malloc, RET_ERROR_ne_RET_OK, this]
          · simp only [ne_eq, not_true_eq_false, Bool.true_eq_false, and_self, or_true, iff_true]
            exact Run_releases_after_InitTmpBuffer k error_code hfresh
  · simp [Run, hp]

end ConvolutionWinogradCPUKernel

/-- Claim C7, evaluated at the failing input: `Prepare` succeeds, the first scratch
allocation (`trans_input_`) succeeds and the second (`gemm_out_`) fails. `Run` returns
`RET_ERROR` without calling `FreeTmpBuffer`: block 0, allocated during this `Run`, is still
live, while no block was live before the call. -/
theorem Run_leaks_scratch_when_InitTmpBuffer_fails :
    (exampleWinogradKernel.Run RET_OK true false true true RET_OK).1 = RET_ERROR ∧
    (exampleWinogradKernel.Run RET_OK true false true true RET_OK).2.allocator.live = {0} ∧
    exampleWinogradKernel.allocator.live = ∅ ∧
    (exampleWinogradKernel.Run RET_OK true false true true RET_OK).2.allocator.live ≠
      exampleWinogradKernel.allocator.live := by
  decide

/-! ## `ConvolutionWinogradCPUKernel::ReSize` -/

/-- Claim C8 as stated fails: on the kernel as `Init` leaves it, with an input transform
for tile 4 but no output transform for the activation kind, `ReSize` returns `RET_ERROR`
and `in_func_` has changed from null to the input transform. -/
theorem ReSize_failure_changes_in_func :
    (exampleWinogradKernel.ReSize RET_OK RET_OK exampleGetInputTransFunc
        exampleGetOutputTransFunc).1 = RET_ERROR ∧
    RET_ERROR ≠ RET_OK ∧
    exampleWinogradKernel.in_func_ = none ∧
    (exampleWinogradKernel.ReSize RET_OK RET_OK exampleGetInputTransFunc
        exampleGetOutputTransFunc).2.in_func_ = some 4 ∧
    (exampleWinogradKernel.ReSize RET_OK RET_OK exampleGetInputTransFunc
        exampleGetOutputTransFunc).2.resizeState ≠ exampleWinogradKernel.resizeState := by
  decide

/-- Claim C8, amended: when `ReSize` returns a status other than `RET_OK`, either
`CheckResizeValid` or `ConvolutionBaseCPUKernel::Init` failed and the kernel is exactly as
before the call, or `ConfigInputOutput` failed: then `kernel_unit_`, `input_unit_`,
`conv_param_->input_unit_` and `conv_param_->output_unit_` hold the values recomputed from
`conv_param_->kernel_h_` and `output_unit_`, `in_func_` holds the result of
`GetInputTransFunc(input_unit_)`, and `out_func_` is unchanged if that result is null and
null otherwise. -/
theorem ReSize_failure_state (F : Type) (k : ConvolutionWinogradCPUKernel F)
    (check_ret base_ret : Int) (GetInputTransFunc : Int → Option F)
    (GetOutputTransFunc : Int → Int → Nat → Option F)
    (h : (k.ReSize check_ret base_ret GetInputTransFunc GetOutputTransFunc).1 ≠ RET_OK) :
    ((check_ret ≠ RET_OK ∨ base_ret ≠ RET_OK) ∧
      (k.ReSize check_ret base_ret GetInputTransFunc GetOutputTransFunc).2 = k) ∨
    (check_ret = RET_OK ∧ base_ret = RET_OK ∧
      (k.ReSize check_ret base_ret GetInputTransFunc GetOutputTransFunc).2.kernel_unit_ =
        k.conv_param_.kernel_h_ ∧
      (k.ReSize check_ret base_ret GetInputTransFunc GetOutputTransFunc).2.input_unit_ =
        k.output_unit_ + k.conv_param_.kernel_h_ - 1 ∧
      (k.ReSize check_ret base_ret GetInputTransFunc GetOutputTransFunc).2.conv_param_.input_unit_ =
        k.output_unit_ + k.conv_param_.kernel_h_ - 1 ∧
      (k.ReSize check_ret base_ret GetInputTransFunc GetOutputTransFunc).2.conv_param_.output_unit_ =
        k.output_unit_ ∧
      (k.ReSize check_ret base_ret GetInputTransFunc GetOutputTransFunc).2.in_func_ =
        GetInputTransFunc (k.output_unit_ + k.conv_param_.kernel_h_ - 1) ∧
      ((GetInputTransFunc (k.output_unit_ + k.conv_param_.kernel_h_ - 1) = none ∧
          (k.ReSize check_ret base_ret GetInputTransFunc GetOutputTransFunc).2.out_func_ =
            k.out_func_) ∨
        (GetInputTransFunc (k.output_unit_ + k.conv_param_.kernel_h_ - 1) ≠ none ∧
          (k.ReSize check_ret base_ret GetInputTransFunc GetOutputTransFunc).2.out_func_ =
            none))) := by
  by_cases h1 : check_ret = RET_OK
  · by_cases h2 : base_ret = RET_OK
    · right
      subst h1 h2
      refine ⟨rfl, rfl, ?_⟩
      rcases hin : GetInputTransFunc (k.output_unit_ + k.conv_param_.kernel_h_ - 1) with _ | f
      · simp [ConvolutionWinogradCPUKernel.ReSize, ConvolutionWinogradCPUKernel.ConfigInputOutput, hin,
          RET_ERROR_ne_RET_OK]
      · rcases hout : GetOutputTransFunc (k.output_unit_ + k.conv_param_.kernel_h_ - 1)
          k.output_unit_ k.conv_param_.act_type_ with _ | g
        · simp [ConvolutionWinogradCPUKernel.ReSize, ConvolutionWinogradCPUKernel.ConfigInputOutput,
            hin, hout, RET_ERROR_ne_RET_OK]
        · simp [ConvolutionWinogradCPUKernel.ReSize, ConvolutionWinogradCPUKernel.ConfigInputOutput,
            hin, hout, RET_ERROR_ne_RET_OK] at h
    · left
      simp [ConvolutionWinogradCPUKernel.ReSize, h1, h2]
  · left
    simp [ConvolutionWinogradCPUKernel.ReSize, h1]

/-- The failure of `ConfigInputOutput` on the kernel as `Init` leaves it. -/
theorem ReSize_failure_state_witness :
    ((RET_OK ≠ RET_OK ∨ RET_OK ≠ RET_OK) ∧
      (exampleWinogradKernel.ReSize RET_OK RET_OK exampleGetInputTransFunc
        exampleGetOutputTransFunc).2 = exampleWinogradKernel) ∨
    (RET_OK = RET_OK ∧ RET_OK = RET_OK ∧
      (exampleWinogradKernel.ReSize RET_OK RET_OK exampleGetInputTransFunc
        exampleGetOutputTransFunc).2.kernel_unit_ = exampleWinogradKernel.conv_param_.kernel_h_ ∧
      (exampleWinogradKernel.ReSize RET_OK RET_OK exampleGetInputTransFunc
        exampleGetOutputTransFunc).2.input_unit_ =
        exampleWinogradKernel.output_unit_ + exampleWinogradKernel.conv_param_.kernel_h_ - 1 ∧
      (exampleWinogradKernel.ReSize RET_OK RET_OK exampleGetInputTransFunc
        exampleGetOutputTransFunc).2.conv_param_.input_unit_ =
        exampleWinogradKernel.output_unit_ + exampleWinogradKernel.conv_param_.kernel_h_ - 1 ∧
      (exampleWinogradKernel.ReSize RET_OK RET_OK exampleGetInputTransFunc
        exampleGetOutputTransFunc).2.conv_param_.output_unit_ = exampleWinogradKernel.output_unit_ ∧
      (exampleWinogradKernel.ReSize RET_OK RET_OK exampleGetInputTransFunc
        exampleGetOutputTransFunc).2.in_func_ =
        exampleGetInputTransFunc
          (exampleWinogradKernel.output_unit_ + exampleWinogradKernel.conv_param_.kernel_h_ - 1) ∧
      ((exampleGetInputTransFunc
            (exampleWinogradKernel.output_unit_ + exampleWinogradKernel.conv_param_.kernel_h_ - 1) =
            none ∧
          (exampleWinogradKernel.ReSize RET_OK RET_OK exampleGetInputTransFunc
            exampleGetOutputTransFunc).2.out_func_ = exampleWinogradKernel.out_func_) ∨
        (exampleGetInputTransFunc
            (exampleWinogradKernel.output_unit_ + exampleWinogradKernel.conv_param_.kernel_h_ - 1) ≠
            none ∧
          (exampleWinogradKernel.ReSize RET_OK RET_OK exampleGetInputTransFunc
            exampleGetOutputTransFunc).2.out_func_ = none))) :=
  ReSize_failure_state Nat exampleWinogradKernel RET_OK RET_OK exampleGetInputTransFunc
    exampleGetOutputTransFunc (by decide)

/-! ## `ArithmeticSelfCPUKernel::Run` with quantized weights -/

namespace ArithmeticSelfCPUKernel

variable {R : Type}

/-- With weight quantization, when `Prepare` fails `Run` returns its status and leaves in
`in_tensors_[1]` whatever `RestoreMulWeight` left there. -/
theorem Run_prepare_failure_keeps_restored [Ring R] (k : ArithmeticSelfCPUKernel R) (prepare_ret : Int)
    (malloc_ok : Bool) (fresh : Nat → R) (w : Tensor R)
    (hq : k.quant_type = QuantType.QuantType_WeightQuant) (hw : k.in_tensors_.get? 1 = some w)
    (h : prepare_ret ≠ RET_OK) :
    k.Run prepare_ret malloc_ok fresh =
      some (prepare_ret,
        { k with in_tensors_ := k.in_tensors_.set 1 (RestoreMulWeight w malloc_ok fresh).2 }) := by
  unfold Run restoreWeight
  simp only [hq, hw, if_true]
  rw [if_pos h]

theorem DoArithmeticSelf_in_tensors (k : ArithmeticSelfCPUKernel R) (task_id : Nat) :
    (k.DoArithmeticSelf task_id).2.in_tensors_ = k.in_tensors_ := by
  unfold DoArithmeticSelf
  simp only
  split_ifs
  · rfl
  · rcases k.arithmeticSelf_run_ with _ | run
    · rfl
    · simp only
      split_ifs <;> rfl

theorem ArithmeticSelfRuns_in_tensors (k : ArithmeticSelfCPUKernel R) (task_id : Nat) :
    (k.ArithmeticSelfRuns task_id).2.in_tensors_ = k.in_tensors_ := by
  unfold ArithmeticSelfRuns
  simp only
  split_ifs <;> exact DoArithmeticSelf_in_tensors k task_id

theorem ParallelLaunch_in_tensors (k : ArithmeticSelfCPUKernel R) (n : Nat) :
    (ParallelLaunch ArithmeticSelfRuns k n).2.in_tensors_ = k.in_tensors_ := by
  unfold ParallelLaunch
  induction n with
  | zero => rfl
  | succ n ih =>
    rw [forLoop_succ]
    simp only
    rw [ArithmeticSelfRuns_in_tensors, ih]

/-- With weight quantization, whenever `Run` returns a status other than `RET_OK`, the
weight tensor `in_tensors_[1]` is as `RestoreMulWeight` left it: no failing path puts the
saved data back. -/
theorem Run_failure_keeps_restored [Ring R] (k k1 : ArithmeticSelfCPUKernel R)
    (prepare_ret ret : Int) (malloc_ok : Bool) (fresh : Nat → R) (w : Tensor R)
    (hq : k.quant_type = QuantType.QuantType_WeightQuant) (hw : k.in_tensors_.get? 1 = some w)
    (hrun : k.Run prepare_ret malloc_ok fresh = some (ret, k1)) (hret : ret ≠ RET_OK) :
    k1.in_tensors_.get? 1 = some (RestoreMulWeight w malloc_ok fresh).2 := by
  have hlen : 1 < k.in_tensors_.length := by
    rcases hl : k.in_tensors_ with _ | ⟨a, _ | ⟨b, l⟩⟩
    · rw [hl] at hw; simp at hw
    · rw [hl] at hw; simp at hw
    · simp
  have hset : (k.in_tensors_.set 1 (RestoreMulWeight w malloc_ok fresh).2).get? 1 =
      some (RestoreMulWeight w malloc_ok fresh).2 := by
    rw [List.get?_eq_getElem?, List.getElem?_set_self hlen]
  unfold Run restoreWeight at hrun
  simp only [hq, hw, if_true] at hrun
  by_cases hp : prepare_ret = RET_OK
  · simp only [hp, ne_eq, not_true_eq_false, if_false] at hrun
    split at hrun
    · rename_i input_tensor out_tensor _ _
      generalize hr : ParallelLaunch ArithmeticSelfRuns _ _ = r at hrun
      have hin : r.2.in_tensors_ = k.in_tensors_.set 1 (RestoreMulWeight w malloc_ok fresh).2 := by
        rw [← hr, ParallelLaunch_in_tensors]
      by_cases hl : r.1 = RET_OK
      · simp only [hl, not_true_eq_false, if_false] at hrun
        split_ifs at hrun
        · split at hrun
          · exact absurd hrun (by simp)
          · simp only [Option.some.injEq, Prod.mk.injEq] at hrun
            exact absurd hrun.1.symm hret
        · simp only [Option.some.injEq, Prod.mk.injEq] at hrun
          exact absurd hrun.1.symm hret
      · simp only [hl, not_false_eq_true, if_true, Option.some.injEq, Prod.mk.injEq] at hrun
        rw [← hrun.2]
        simp only
        rw [hin]
        exact hset
    · exact absurd hrun (by simp)
  · simp only [ne_eq, hp, not_false_eq_true, if_true, Option.some.injEq, Prod.mk.injEq] at hrun
    rw [← hrun.2]
    exact hset

end ArithmeticSelfCPUKernel

/-- Claim C9, evaluated at the failing input: weight quantization, a well-formed uint8
weight `[3, 5]` with one quantization parameter, and `Prepare` failing. `Run` returns
`RET_ERROR` and `in_tensors_[1]` holds the dequantized reals `[4, 8]`, not the bytes
`[3, 5]` it held before the call. -/
theorem Run_failure_leaves_dequantized_weight :
    (exampleQuantKernel.Run RET_ERROR true exampleBlock).map (fun r => r.1) = some RET_ERROR ∧
    exampleQuantKernel.in_tensors_.get? 1 = some exampleWeight ∧
    exampleWeight.data_ = TensorData.uint8 [3, 5] ∧
    (exampleQuantKernel.Run RET_ERROR true exampleBlock).map
        (fun r => (r.2.in_tensors_.get? 1).map (fun t => t.data_)) =
      some (some (TensorData.float32 [4, 8])) := by
  decide

/-- Claim C10, evaluated at the failing input: weight quantization, the allocation inside
`RestoreMulWeight` fails, so `RestoreMulWeight` returns `RET_ERROR`; `Prepare` and the
parallel launch succeed. `Run` does not look at the status of `RestoreMulWeight` and
returns `RET_OK`, having computed the output. -/
theorem Run_ignores_RestoreMulWeight_failure :
    (RestoreMulWeight exampleWeight false exampleBlock).1 = RET_ERROR ∧
    RET_ERROR ≠ RET_OK ∧
    (exampleQuantKernel.Run RET_OK false exampleBlock).map (fun r => r.1) = some RET_OK ∧
    (exampleQuantKernel.Run RET_OK false exampleBlock).map (fun r => r.2.out_tensors_) =
      some [exampleOutput.SetData (TensorData.float32 [7, 9])] := by
  decide

/-! ## Loops of stores -/

theorem Writes_update {α : Type} (addr : Nat) (val : α) :
    Writes (fun b => Function.update b addr val) (fun a x => a = addr ∧ x = val) := by
  intro b a
  constructor
  · rintro x ⟨rfl, rfl⟩
    exact Function.update_same _ _ _
  · intro h
    have hne : a ≠ addr := fun e => h val ⟨e, rfl⟩
    exact Function.update_noteq hne _ _

/-- A loop whose iterations store at pairwise disjoint addresses stores what its
iterations store. -/
theorem Writes_forLoop {α : Type} (body : Nat → (Nat → α) → (Nat → α))
    (V : Nat → Nat → α → Prop) (n : Nat)
    (hbody : ∀ i, i < n → Writes (body i) (V i))
    (hdis : ∀ i j a x y, i < n → j < n → V i a x → V j a y → i = j) :
    Writes (forLoop body n) (fun a x => ∃ i, i < n ∧ V i a x) := by
  induction n with
  | zero =>
    intro b a
    constructor
    · rintro x ⟨i, hi, _⟩
      omega
    · intro _
      rfl
  | succ n ih =>
    have ih1 := ih (fun i hi => hbody i (Nat.lt_succ_of_lt hi))
      (fun i j a x y hi hj => hdis i j a x y (Nat.lt_succ_of_lt hi) (Nat.lt_succ_of_lt hj))
    intro b a
    rw [forLoop_succ]
    have hn := hbody n (Nat.lt_succ_self n) (forLoop body n b) a
    constructor
    · rintro x ⟨i, hi, hv⟩
      rcases Nat.lt_succ_iff_lt_or_eq.mp hi with h | h
      · rw [hn.2]
        · exact (ih1 b a).1 x ⟨i, h, hv⟩
        · intro y hy
          have := hdis i n a x y hi (Nat.lt_succ_self n) hv hy
          omega
      · subst h
        exact hn.1 x hv
    · intro h
      rw [hn.2 (fun x hx => h x ⟨n, Nat.lt_succ_self n, hx⟩)]
      exact (ih1 b a).2 (fun x ⟨i, hi, hv⟩ => h x ⟨i, Nat.lt_succ_of_lt hi, hv⟩)

theorem Writes_congr {α : Type} (T : (Nat → α) → (Nat → α)) (V V1 : Nat → α → Prop)
    (h : Writes T V) (hv : ∀ a x, V1 a x ↔ V a x) : Writes T V1 := by
  intro b a
  constructor
  · intro x hx
    exact (h b a).1 x ((hv a x).mp hx)
  · intro hx
    exact (h b a).2 (fun x hx1 => hx x ((hv a x).mpr hx1))

/-! ## `RestoreMulWeight` -/

section Restore

variable {R : Type} [Ring R]

/-- The status of `RestoreMulWeight` and what a failure leaves behind. -/
theorem RestoreMulWeight_status_cases (t : Tensor R) (malloc_ok : Bool) (fresh : Nat → R) :
    ((RestoreMulWeight t malloc_ok fresh).1 = RET_OK ↔
      (t.data_type_ = TypeId.kNumberTypeUInt8 ∧ t.quant_params_ ≠ [] ∧ malloc_ok = true ∧
        (t.quant_params_.length = 1 ∨ t.quant_params_.length = t.Batch))) ∧
    ((RestoreMulWeight t malloc_ok fresh).1 ≠ RET_OK →
      (RestoreMulWeight t malloc_ok fresh).1 = RET_ERROR ∧
        (RestoreMulWeight t malloc_ok fresh).2 = t) := by
  unfold RestoreMulWeight kPerTensor
  by_cases h1 : t.data_type_ = TypeId.kNumberTypeUInt8
  · rcases hq : t.quant_params_ with _ | ⟨p, ps⟩
    · simp [h1, RET_ERROR_ne_RET_OK]
    · cases malloc_ok
      · simp [h1, RET_ERROR_ne_RET_OK]
      · by_cases h3 : ps.length + 1 = 1
        · simp [h1, h3]
        · by_cases h4 : ps.length + 1 = t.Batch
          · have h5 : ¬ t.Batch = 1 := h4 ▸ h3
            simp [h1, h3, h4, h5]
          · have h6 : ps ≠ [] := fun e => h3 (by simp [e])
            simp [h1, h3, h4, h6, RET_ERROR_ne_RET_OK]
  · simp [h1, RET_ERROR_ne_RET_OK]

/-- A loop that stores `f j` at `j` for `j < n`. -/
theorem forLoop_store_each {α : Type} (f : Nat → α) (n : Nat) (b : Nat → α) (a : Nat) :
    forLoop (fun j b1 => Function.update b1 j (f j)) n b a = if a < n then f a else b a := by
  have h := Writes_forLoop (fun j b1 => Function.update b1 j (f j))
    (fun j a x => a = j ∧ x = f j) n (fun j _ => Writes_update j (f j))
    (fun i j a x y _ _ h1 h2 => h1.1.symm.trans h2.1)
  split_ifs with ha
  · exact (h b a).1 (f a) ⟨a, ha, rfl, rfl⟩
  · exact (h b a).2 (fun x ⟨i, hi, h1, _⟩ => ha (h1 ▸ hi))

theorem map_range_get? {α : Type} (f : Nat → α) (n j : Nat) (hj : j < n) :
    ((List.range n).map f).get? j = some (f j) := by
  rw [List.get?_eq_getElem?, List.getElem?_map, List.getElem?_range hj]
  rfl

/-- The result of `RestoreMulWeight` on a uint8 tensor with one quantization parameter. -/
theorem RestoreMulWeight_perTensor_eq (t : Tensor R) (fresh : Nat → R) (p : QuantArg R)
    (h1 : t.data_type_ = TypeId.kNumberTypeUInt8) (hp : t.quant_params_ = [p]) :
    RestoreMulWeight t true fresh =
      (RET_OK, t.SetData (TensorData.float32 ((List.range t.DataSize).map
        (forLoop (fun j b => Function.update b j
          (((toInt32 ((t.quantAt j : Int) - p.zeroPoint) : Int) : R) * p.scale)) t.DataSize fresh)))) := by
  unfold RestoreMulWeight kPerTensor
  simp [h1, hp]

/-- The buffer the per-channel loops of lines 97-105 fill. -/
theorem perChannel_loop (t : Tensor R) (fresh : Nat → R) (e : Nat)
    (hlen : t.quant_params_.length = t.Batch) (hdiv : t.Batch ∣ t.DataSize)
    (he : e < t.DataSize) :
    ∃ param, t.quant_params_.get? (e / (t.DataSize / t.Batch)) = some param ∧
      forLoop (fun i buf =>
          match t.quant_params_.get? i with
          | none => buf
          | some param =>
            forLoop (fun j b =>
                Function.update b (t.DataSize / t.Batch * i + j)
                  (((toInt32 ((t.quantAt (t.DataSize / t.Batch * i + j) : Int) - param.zeroPoint) : Int) : R)
                    * param.scale))
              (t.DataSize / t.Batch) buf)
        t.Batch fresh e =
      ((toInt32 ((t.quantAt e : Int) - param.zeroPoint) : Int) : R) * param.scale := by
  obtain ⟨m, hm⟩ := hdiv
  have hB : 0 < t.Batch := by
    rcases Nat.eq_zero_or_pos t.Batch with h | h
    · rw [h, Nat.zero_mul] at hm; omega
    · exact h
  have hpcs : t.DataSize / t.Batch = m := by rw [hm, Nat.mul_div_cancel_left _ hB]
  rw [hpcs]
  have hm0 : 0 < m := by
    rcases Nat.eq_zero_or_pos m with h | h
    · rw [h, Nat.mul_zero] at hm; omega
    · exact h
  have hi : e / m < t.Batch := by
    rw [Nat.div_lt_iff_lt_mul hm0]; omega
  have hget : ∀ i, i < t.Batch → ∃ param, t.quant_params_.get? i = some param := by
    intro i hi
    have : i < t.quant_params_.length := by omega
    exact ⟨t.quant_params_.get ⟨i, this⟩, List.get?_eq_get this⟩
  obtain ⟨param, hparam⟩ := hget _ hi
  refine ⟨param, hparam, ?_⟩
  have h := Writes_forLoop
    (fun i buf =>
      match t.quant_params_.get? i with
      | none => buf
      | some param =>
        forLoop (fun j b =>
            Function.update b (m * i + j)
              (((toInt32 ((t.quantAt (m * i + j) : Int) - param.zeroPoint) : Int) : R) * param.scale))
          m buf)
    (fun i a x => ∃ p, t.quant_params_.get? i = some p ∧ ∃ j, j < m ∧
      (a = m * i + j ∧ x = ((toInt32 ((t.quantAt (m * i + j) : Int) - p.zeroPoint) : Int) : R) * p.scale))
    t.Batch
    (by
      intro i hi
      obtain ⟨p, hp⟩ := hget i hi
      simp only [hp]
      have hw := Writes_forLoop
        (fun j b => Function.update b (m * i + j)
          (((toInt32 ((t.quantAt (m * i + j) : Int) - p.zeroPoint) : Int) : R) * p.scale))
        (fun j a x => a = m * i + j ∧
          x = ((toInt32 ((t.quantAt (m * i + j) : Int) - p.zeroPoint) : Int) : R) * p.scale) m
        (fun j _ => Writes_update _ _)
        (fun j j1 a x y _ _ h1 h2 => by have := h1.1.symm.trans h2.1; omega)
      refine Writes_congr _ _ _ hw ?_
      intro a x
      constructor
      · rintro ⟨p1, hp1, j, hj, h1⟩
        rw [Option.some.injEq] at hp1
        subst hp1
        exact ⟨j, hj, h1⟩
      · rintro ⟨j, hj, h1⟩
        exact ⟨p, rfl, j, hj, h1⟩)
    (by
      rintro i i1 a x y _ _ ⟨_, _, j, hj, h1, _⟩ ⟨_, _, j1, hj1, h2, _⟩
      have e1 : (m * i + j) / m = i := by
        rw [Nat.mul_comm]; exact flat_div i j m hj
      have e2 : (m * i1 + j1) / m = i1 := by
        rw [Nat.mul_comm]; exact flat_div i1 j1 m hj1
      rw [← e1, ← e2, ← h1, ← h2])
  have hdm : m * (e / m) + e % m = e := Nat.div_add_mod e m
  have := (h fresh e).1 (((toInt32 ((t.quantAt e : Int) - param.zeroPoint) : Int) : R) * param.scale)
    ⟨e / m, hi, param, hparam, e % m, Nat.mod_lt _ hm0, hdm.symm, by rw [hdm]⟩
  exact this

/-- The result of `RestoreMulWeight` on a uint8 tensor with one quantization parameter
per channel. -/
theorem RestoreMulWeight_perChannel_eq (t : Tensor R) (fresh : Nat → R)
    (h1 : t.data_type_ = TypeId.kNumberTypeUInt8) (hne : t.quant_params_.length ≠ 1)
    (hlen : t.quant_params_.length = t.Batch) (hq : t.quant_params_ ≠ []) :
    RestoreMulWeight t true fresh =
      (RET_OK, t.SetData (TensorData.float32 ((List.range t.DataSize).map
        (forLoop (fun i buf =>
            match t.quant_params_.get? i with
            | none => buf
            | some param =>
              forLoop (fun j b =>
                  Function.update b (t.DataSize / t.Batch * i + j)
                    (((toInt32 ((t.quantAt (t.DataSize / t.Batch * i + j) : Int) - param.zeroPoint) : Int) : R)
                      * param.scale))
                (t.DataSize / t.Batch) buf)
          t.Batch fresh)))) := by
  have h5 : ¬ t.Batch = 1 := hlen ▸ hne
  unfold RestoreMulWeight kPerTensor
  simp [h1, hlen, hq, h5]

end Restore

/-- Claim C11: `RestoreMulWeight` returns `RET_OK` if and only if the data type is uint8,
the list of quantization parameters is not empty, the allocation succeeds, and the number
of quantization parameters is 1 or equals `Batch()`; in every other case it returns
`RET_ERROR` and the tensor is exactly as on entry (`SetData` has not been called). -/
theorem RestoreMulWeight_status (R : Type) [Ring R] (t : Tensor R) (malloc_ok : Bool)
    (fresh : Nat → R) :
    ((RestoreMulWeight t malloc_ok fresh).1 = RET_OK ↔
      (t.data_type_ = TypeId.kNumberTypeUInt8 ∧ t.quant_params_ ≠ [] ∧ malloc_ok = true ∧
        (t.quant_params_.length = 1 ∨ t.quant_params_.length = t.Batch))) ∧
    ((RestoreMulWeight t malloc_ok fresh).1 ≠ RET_OK →
      (RestoreMulWeight t malloc_ok fresh).1 = RET_ERROR ∧
        (RestoreMulWeight t malloc_ok fresh).2 = t) :=
  RestoreMulWeight_status_cases t malloc_ok fresh

/-- The example weight (uint8, one quantization parameter) is dequantized when the
allocation succeeds; when it fails the status is `RET_ERROR` and the tensor is as on
entry. -/
theorem RestoreMulWeight_status_witness :
    (RestoreMulWeight exampleWeight true exampleBlock).1 = RET_OK ∧
    (RestoreMulWeight exampleWeight false exampleBlock).1 = RET_ERROR ∧
    (RestoreMulWeight exampleWeight false exampleBlock).2 = exampleWeight :=
  ⟨(RestoreMulWeight_status Int exampleWeight true exampleBlock).1.mpr
      ⟨rfl, by decide, rfl, Or.inl rfl⟩,
    (RestoreMulWeight_status Int exampleWeight false exampleBlock).2 (by decide)⟩

/-- An `int` value in the `int` range is itself. -/
theorem toInt32_of_range (v : Int) (hlo : -2147483648 ≤ v) (hhi : v ≤ 2147483647) :
    toInt32 v = v := by
  unfold toInt32
  omega

/-- The byte that `RestoreMulWeight` reads at position `j` of a uint8 buffer. -/
theorem Tensor.quantAt_uint8 {R : Type} (t : Tensor R) (q : List Nat) (j x : Nat)
    (hd : t.data_ = TensorData.uint8 q) (hx : q.get? j = some x) : t.quantAt j = x := by
  unfold Tensor.quantAt
  rw [hd]
  simp only
  rw [List.getD_eq_getElem?_getD, ← List.get?_eq_getElem?, hx]
  rfl

/-- Claim C12 as stated fails when `q[j] - zero_point` leaves the `int` range: for the one
byte `q[0] = 1`, scale `1` and zero point `INT32_MIN`, `RestoreMulWeight` succeeds and stores
`-2147483647`, while `scale * (q[0] - zero_point)` is `2147483649`. -/
theorem RestoreMulWeight_perTensor_wraps :
    (RestoreMulWeight exampleExtremeWeight true exampleBlock).1 = RET_OK ∧
    exampleExtremeWeight.data_ = TensorData.uint8 [1] ∧
    exampleExtremeWeight.quant_params_ = [{ scale := 1, zeroPoint := -2147483648 }] ∧
    (RestoreMulWeight exampleExtremeWeight true exampleBlock).2.data_ =
      TensorData.float32 [-2147483647] ∧
    (1 : Int) * ((1 : Int) - (-2147483648)) = 2147483649 ∧
    (RestoreMulWeight exampleExtremeWeight true exampleBlock).2.data_ ≠
      TensorData.float32 [(1 : Int) * ((1 : Int) - (-2147483648))] := by
  decide

/-- Claim C12, amended: when `RestoreMulWeight` succeeds on a tensor with exactly one
quantization parameter `(scale, zero_point)` and the bytes `q`, the new data has `DataSize`
elements, and every element `j < DataSize` whose difference `q[j] - zero_point` is in the
`int` range is `scale * (q[j] - zero_point)` in exact arithmetic; an element with
`q[j] = zero_point` becomes `0`. -/
theorem RestoreMulWeight_perTensor_values (R : Type) [Ring R] (t : Tensor R) (malloc_ok : Bool)
    (fresh : Nat → R) (p : QuantArg R) (q : List Nat) (j x : Nat)
    (hok : (RestoreMulWeight t malloc_ok fresh).1 = RET_OK) (hp : t.quant_params_ = [p])
    (hd : t.data_ = TensorData.uint8 q) (hj : j < t.DataSize) (hx : q.get? j = some x)
    (hlo : -2147483648 ≤ (x : Int) - p.zeroPoint) (hhi : (x : Int) - p.zeroPoint ≤ 2147483647) :
    ∃ d, (RestoreMulWeight t malloc_ok fresh).2.data_ = TensorData.float32 d ∧
      d.length = t.DataSize ∧
      d.get? j = some (p.scale * (((x : Int) - p.zeroPoint : Int) : R)) ∧
      ((x : Int) = p.zeroPoint → d.get? j = some 0) := by
  obtain ⟨h1, _, hm, _⟩ := (RestoreMulWeight_status_cases t malloc_ok fresh).1.mp hok
  subst hm
  have hq := Tensor.quantAt_uint8 t q j x hd hx
  rw [RestoreMulWeight_perTensor_eq t fresh p h1 hp]
  have hval : ((List.range t.DataSize).map (forLoop (fun j b => Function.update b j
      (((toInt32 ((t.quantAt j : Int) - p.zeroPoint) : Int) : R) * p.scale))
      t.DataSize fresh)).get? j = some (p.scale * (((x : Int) - p.zeroPoint : Int) : R)) := by
    rw [map_range_get? _ _ _ hj, forLoop_store_each, if_pos hj, hq,
      toInt32_of_range _ hlo hhi, Int.cast_comm]
  refine ⟨_, rfl, by simp, hval, ?_⟩
  intro hz
  rw [hval, hz]
  simp

/-- Claim C13 as stated fails when `q[e] - zero_point` leaves the `int` range: for two
channels of one byte `1` each, the parameter `(1, INT32_MIN)` of channel 0 and `(1, 0)` of
channel 1, `RestoreMulWeight` succeeds and stores `-2147483647` in element 0, while
`scale * (q[0] - zero_point)` is `2147483649`. -/
theorem RestoreMulWeight_perChannel_wraps :
    (RestoreMulWeight exampleExtremePerChannelWeight true exampleBlock).1 = RET_OK ∧
    exampleExtremePerChannelWeight.quant_params_.length = exampleExtremePerChannelWeight.Batch ∧
    exampleExtremePerChannelWeight.Batch ∣ exampleExtremePerChannelWeight.DataSize ∧
    exampleExtremePerChannelWeight.data_ = TensorData.uint8 [1, 1] ∧
    exampleExtremePerChannelWeight.quant_params_.get?
      (0 / (exampleExtremePerChannelWeight.DataSize / exampleExtremePerChannelWeight.Batch)) =
      some { scale := 1, zeroPoint := -2147483648 } ∧
    (RestoreMulWeight exampleExtremePerChannelWeight true exampleBlock).2.data_ =
      TensorData.float32 [-2147483647, 1] ∧
    (1 : Int) * ((1 : Int) - (-2147483648)) = 2147483649 := by
  decide

/-- Claim C13, amended: when `RestoreMulWeight` succeeds in per-channel mode (the number of
quantization parameters is not 1, hence equals `channels = Batch()`) on the bytes `q` and
`channels` divides `DataSize`, every element `e < DataSize` is written exactly once, by the
one pair `(i, j)` with `per_channel_size * i + j = e`; its channel
`e / (DataSize / channels)` is below `channels`, and if `q[e] - zero_point` is in the `int`
range for the pair `(scale, zero_point)` of that channel, the element holds
`scale * (q[e] - zero_point)`. -/
theorem RestoreMulWeight_perChannel_values (R : Type) [Ring R] (t : Tensor R) (malloc_ok : Bool)
    (fresh : Nat → R) (q : List Nat) (e x : Nat) (param : QuantArg R)
    (hok : (RestoreMulWeight t malloc_ok fresh).1 = RET_OK) (hne : t.quant_params_.length ≠ 1)
    (hdiv : t.Batch ∣ t.DataSize) (hd : t.data_ = TensorData.uint8 q) (he : e < t.DataSize)
    (hx : q.get? e = some x)
    (hparam : t.quant_params_.get? (e / (t.DataSize / t.Batch)) = some param)
    (hlo : -2147483648 ≤ (x : Int) - param.zeroPoint)
    (hhi : (x : Int) - param.zeroPoint ≤ 2147483647) :
    ∃ d, (RestoreMulWeight t malloc_ok fresh).2.data_ = TensorData.float32 d ∧
      d.length = t.DataSize ∧
      t.quant_params_.length = t.Batch ∧ e / (t.DataSize / t.Batch) < t.Batch ∧
      d.get? e = some (param.scale * (((x : Int) - param.zeroPoint : Int) : R)) ∧
      ∃! ij : Nat × Nat, ij.1 < t.Batch ∧ ij.2 < t.DataSize / t.Batch ∧
        t.DataSize / t.Batch * ij.1 + ij.2 = e := by
  obtain ⟨h1, hq, hm, hl⟩ := (RestoreMulWeight_status_cases t malloc_ok fresh).1.mp hok
  subst hm
  have hlen : t.quant_params_.length = t.Batch := hl.resolve_left hne
  obtain ⟨param1, hparam1, hval⟩ := perChannel_loop t fresh e hlen hdiv he
  have epar : param1 = param := Option.some.inj (hparam1.symm.trans hparam)
  subst epar
  have hqa := Tensor.quantAt_uint8 t q e x hd hx
  rw [RestoreMulWeight_perChannel_eq t fresh h1 hne hlen hq]
  obtain ⟨m, hm⟩ := hdiv
  have hB : 0 < t.Batch := by
    rcases Nat.eq_zero_or_pos t.Batch with h | h
    · rw [h, Nat.zero_mul] at hm; omega
    · exact h
  have hpcs : t.DataSize / t.Batch = m := by rw [hm, Nat.mul_div_cancel_left _ hB]
  have hm0 : 0 < m := by
    rcases Nat.eq_zero_or_pos m with h | h
    · rw [h, Nat.mul_zero] at hm; omega
    · exact h
  have hidx : e / m < t.Batch := by
    rw [Nat.div_lt_iff_lt_mul hm0]; omega
  refine ⟨_, rfl, by simp, hlen, by rw [hpcs]; exact hidx, ?_, ?_⟩
  · rw [map_range_get? _ _ _ he, hval, hqa, toInt32_of_range _ hlo hhi, Int.cast_comm]
  · rw [hpcs]
    refine ⟨(e / m, e % m), ⟨hidx, Nat.mod_lt _ hm0, Nat.div_add_mod e m⟩, ?_⟩
    rintro ⟨i, j⟩ ⟨_, hj, hij⟩
    simp only at hj hij
    have e1 : (m * i + j) / m = i := by rw [Nat.mul_comm]; exact flat_div i j m hj
    have e2 : (m * i + j) % m = j := by rw [Nat.mul_comm]; exact flat_mod i j m hj
    rw [← hij, e1, e2]

/-! ## Zero weights -/

section ZeroWeights

variable {R : Type}

/-- With zero weights every element of `trans_out_data` that the scatter reads is zero. -/
theorem filterTransformStep_zero [Semiring R] (channel_in input_unit_ kernel_unit_ : Nat)
    (weight_data matrix_gt : Nat → R) (i : Nat) (s : WinogradScratch R) (q c : Nat)
    (hw : ∀ n, weight_data n = 0) (hq : q < input_unit_ * input_unit_) (hc : c < channel_in) :
    (filterTransformStep channel_in input_unit_ kernel_unit_ weight_data matrix_gt i s).trans_out_data
        (q * channel_in + c) = 0 := by
  have hiu : 0 < input_unit_ := by
    rcases Nat.eq_zero_or_pos input_unit_ with h | h
    · rw [h] at hq; simp at hq
    · exact h
  have he : q / input_unit_ < input_unit_ := (Nat.div_lt_iff_lt_mul hiu).mpr hq
  have hb : q % input_unit_ < input_unit_ := Nat.mod_lt _ hiu
  have hdm : q / input_unit_ * input_unit_ + q % input_unit_ = q := by
    rw [Nat.mul_comm]; exact Nat.div_add_mod q input_unit_
  have h := filterTransformStep_apply channel_in input_unit_ kernel_unit_ weight_data matrix_gt
    i s (q / input_unit_) (q % input_unit_) c he hb hc
  rw [hdm] at h
  rw [h]
  simp [hw]

/-- With zero weights `WinogradFilterTransform` leaves zero every position that was zero
on entry, whatever its status. -/
theorem WinogradFilterTransform_zero [Semiring R]
    (channel_in channel_out input_unit_ kernel_unit_ : Nat)
    (trans_weight_ weight_data matrix_g matrix_gt : Nat → R) (oc_block : Nat)
    (tmp_data trans_out_data tmp_data1 trans_out_data1 : Option (Nat → R))
    (hw : ∀ n, weight_data n = 0) (a : Nat) (ha : trans_weight_ a = 0) :
    (WinogradFilterTransform channel_in channel_out input_unit_ kernel_unit_ trans_weight_
        weight_data matrix_g matrix_gt oc_block tmp_data trans_out_data tmp_data1
        trans_out_data1).2 a = 0 := by
  unfold WinogradFilterTransform
  by_cases hb : oc_block = 0
  · simp [hb, ha]
  · rcases tmp_data with _ | t1
    · simp [hb, ha]
    · rcases trans_out_data with _ | t2
      · simp [hb, ha]
      · rcases tmp_data1 with _ | t3
        · simp [hb, ha]
        · rcases trans_out_data1 with _ | t4
          · simp [hb, ha]
          · simp only [hb, if_false]
            by_cases hex : ∃ i q c, i < channel_out ∧ q < input_unit_ * input_unit_ ∧
                c < channel_in ∧ a = transWeightOffset channel_in channel_out oc_block q c i
            · obtain ⟨i, q, c, hi, hq, hc, rfl⟩ := hex
              obtain ⟨s, hs⟩ := channels_written channel_in channel_out input_unit_ kernel_unit_
                weight_data matrix_gt oc_block (Nat.pos_of_ne_zero hb) channel_out (le_refl _)
                (trans_weight_,
                  { tmp_data := t1, trans_out_data := t2, tmp_data1 := t3, trans_out_data1 := t4 })
                i q c hi hq hc
              rw [hs]
              exact filterTransformStep_zero _ _ _ _ _ _ s q c hw hq hc
            · rw [channels_frame]
              · exact ha
              · intro i q c hi hq hc e
                exact hex ⟨i, q, c, hi, hq, hc, e⟩

end ZeroWeights

namespace ConvolutionWinogradCPUKernel

variable {F R : Type}

/-- Method `InitWeightBias` chooses no transform function and touches no scratch pointer. -/
theorem InitWeightBias_funcs [Semiring R] (k : ConvolutionWinogradCPUKernel F)
    (w : WinogradWeights R) (env : WinogradInitEnv R) :
    (InitWeightBias k w env).2.1.in_func_ = k.in_func_ ∧
    (InitWeightBias k w env).2.1.out_func_ = k.out_func_ := by
  unfold InitWeightBias
  simp only
  repeat' split
  all_goals exact ⟨rfl, rfl⟩

end ConvolutionWinogradCPUKernel

/-- Claim C14: if all weights are zero, then after the zero fill of `InitWeightBias` and
`WinogradFilterTransform` every element of the transformed weight buffer `trans_weight_`
is zero, for every geometry and every `matrix_gt` (whatever `CookToomFilter` returns). -/
theorem InitWeightBias_zero_weights (F R : Type) [Semiring R]
    (k : ConvolutionWinogradCPUKernel F) (w : WinogradWeights R) (env : WinogradInitEnv R)
    (tw : Nat → R) (idx : Nat) (hzero : ∀ n, env.weight_data n = 0)
    (htw : (ConvolutionWinogradCPUKernel.InitWeightBias k w env).2.2.trans_weight_ = some tw)
    (hidx : idx < ConvolutionWinogradCPUKernel.transMatrixDataSize k.input_unit_
      env.filter_Channel env.filter_Batch) :
    tw idx = 0 := by
  have hmem : ∀ block : Nat → R, memsetZero block
      (ConvolutionWinogradCPUKernel.transMatrixDataSize k.input_unit_ env.filter_Channel
        env.filter_Batch) idx = 0 := by
    intro block
    unfold memsetZero
    rw [if_pos hidx]
  have hwft := fun g gt block => WinogradFilterTransform_zero env.filter_Channel env.filter_Batch
    k.input_unit_.toNat k.kernel_unit_.toNat
    (memsetZero block (ConvolutionWinogradCPUKernel.transMatrixDataSize k.input_unit_
      env.filter_Channel env.filter_Batch))
    env.weight_data g gt C8NUM env.tmp_data env.trans_out_data env.tmp_data1
    env.trans_out_data1 hzero idx (hmem block)
  revert htw tw
  unfold ConvolutionWinogradCPUKernel.InitWeightBias
  simp only
  repeat' split
  all_goals
    intro tw htw
    first
    | (have h2 := Option.some.inj htw
       rw [← h2]
       first
       | exact hmem _
       | exact hwft _ _ _)
    | cases htw

/-- The per-tensor dequantization of the bytes `[3, 5]` with scale 2 and zero point 1:
element 1 is `2 * (5 - 1)`. -/
theorem RestoreMulWeight_perTensor_values_witness :
    ∃ d, (RestoreMulWeight exampleWeight true exampleBlock).2.data_ = TensorData.float32 d ∧
      d.length = exampleWeight.DataSize ∧
      d.get? 1 = some ((2 : Int) * ((((5 : Nat) : Int) - 1 : Int) : Int)) ∧
      ((((5 : Nat) : Int)) = 1 → d.get? 1 = some 0) :=
  RestoreMulWeight_perTensor_values Int exampleWeight true exampleBlock
    { scale := 2, zeroPoint := 1 } [3, 5] 1 5 (by decide) rfl rfl (by decide) rfl
    (by decide) (by decide)

/-- The per-channel dequantization of element 3 of `[3, 5, 7, 9]` in two channels: channel
1 with scale 3 and zero point 5 gives `3 * (9 - 5)`. -/
theorem RestoreMulWeight_perChannel_values_witness :
    ∃ d, (RestoreMulWeight examplePerChannelWeight true exampleBlock).2.data_ =
        TensorData.float32 d ∧
      d.length = examplePerChannelWeight.DataSize ∧
      examplePerChannelWeight.quant_params_.length = examplePerChannelWeight.Batch ∧
      3 / (examplePerChannelWeight.DataSize / examplePerChannelWeight.Batch) <
        examplePerChannelWeight.Batch ∧
      d.get? 3 = some ((3 : Int) * ((((9 : Nat) : Int) - 5 : Int) : Int)) ∧
      ∃! ij : Nat × Nat, ij.1 < examplePerChannelWeight.Batch ∧
        ij.2 < examplePerChannelWeight.DataSize / examplePerChannelWeight.Batch ∧
        examplePerChannelWeight.DataSize / examplePerChannelWeight.Batch * ij.1 + ij.2 = 3 :=
  RestoreMulWeight_perChannel_values Int examplePerChannelWeight true exampleBlock [3, 5, 7, 9]
    3 9 { scale := 3, zeroPoint := 5 } (by decide) (by decide) (by decide) rfl (by decide) rfl
    rfl (by decide) (by decide)

/-- Element 100 of the transformed zero weights over a block that held `7` everywhere. -/
theorem InitWeightBias_zero_weights_witness : exampleZeroTransWeight 100 = 0 :=
  InitWeightBias_zero_weights Nat Int exampleWinogradKernel exampleNoWeights exampleZeroEnv
    exampleZeroTransWeight 100 (fun _ => rfl) rfl (by decide)

/-- Claim C20: `ConvolutionWinogradCPUKernel::Init` returns `RET_OK` without performing
`ReSize` (the kernel is as `InitWeightBias` left it, `in_func_` and `out_func_` are
unchanged) when `InitWeightBias` succeeds and `InferShapeDone()` is false; it returns
exactly the status of `ReSize` when `InitWeightBias` succeeds and shape inference is done;
it returns `RET_ERROR` without performing `ReSize` when `InitWeightBias` fails.
`ArithmeticSelfCPUKernel::Init` returns `RET_OK` and changes no field when shape inference
is not done. -/
theorem Init_defers_ReSize (F R : Type) [Semiring R] (k : ConvolutionWinogradCPUKernel F)
    (w : WinogradWeights R) (env : WinogradInitEnv R) (check_ret base_ret : Int)
    (GetInputTransFunc : Int → Option F) (GetOutputTransFunc : Int → Int → Nat → Option F)
    (ka : ArithmeticSelfCPUKernel R) (ElementsNum : Nat) :
    ((k.initUnits.InitWeightBias w env).1 = RET_OK →
      k.Init w env false check_ret base_ret GetInputTransFunc GetOutputTransFunc =
        (RET_OK, (k.initUnits.InitWeightBias w env).2) ∧
      (k.Init w env false check_ret base_ret GetInputTransFunc GetOutputTransFunc).2.1.in_func_ =
        k.in_func_ ∧
      (k.Init w env false check_ret base_ret GetInputTransFunc GetOutputTransFunc).2.1.out_func_ =
        k.out_func_) ∧
    ((k.initUnits.InitWeightBias w env).1 = RET_OK →
      (k.Init w env true check_ret base_ret GetInputTransFunc GetOutputTransFunc).1 =
        ((k.initUnits.InitWeightBias w env).2.1.ReSize check_ret base_ret GetInputTransFunc
          GetOutputTransFunc).1) ∧
    (∀ infer_shape_done, (k.initUnits.InitWeightBias w env).1 ≠ RET_OK →
      k.Init w env infer_shape_done check_ret base_ret GetInputTransFunc GetOutputTransFunc =
        (RET_ERROR, (k.initUnits.InitWeightBias w env).2) ∧
      (k.Init w env infer_shape_done check_ret base_ret GetInputTransFunc
        GetOutputTransFunc).2.1.in_func_ = k.in_func_ ∧
      (k.Init w env infer_shape_done check_ret base_ret GetInputTransFunc
        GetOutputTransFunc).2.1.out_func_ = k.out_func_) ∧
    ka.Init false ElementsNum = some (RET_OK, ka) := by
  have hf := ConvolutionWinogradCPUKernel.InitWeightBias_funcs k.initUnits w env
  have hu : k.initUnits.in_func_ = k.in_func_ ∧ k.initUnits.out_func_ = k.out_func_ :=
    ⟨rfl, rfl⟩
  refine ⟨?_, ?_, ?_, rfl⟩
  · intro h
    have e : k.Init w env false check_ret base_ret GetInputTransFunc GetOutputTransFunc =
        (RET_OK, (k.initUnits.InitWeightBias w env).2) := by
      unfold ConvolutionWinogradCPUKernel.Init
      simp [h]
    rw [e]
    exact ⟨rfl, hf.1.trans hu.1, hf.2.trans hu.2⟩
  · intro h
    unfold ConvolutionWinogradCPUKernel.Init
    simp [h]
  · intro infer_shape_done h
    have e : k.Init w env infer_shape_done check_ret base_ret GetInputTransFunc
        GetOutputTransFunc = (RET_ERROR, (k.initUnits.InitWeightBias w env).2) := by
      unfold ConvolutionWinogradCPUKernel.Init
      simp [h]
    rw [e]
    exact ⟨rfl, hf.1.trans hu.1, hf.2.trans hu.2⟩

/-- The three branches of `Init` on the example kernel: shape inference pending, shape
inference done, and a failed allocation of `trans_weight_`. -/
theorem Init_defers_ReSize_witness :
    (exampleWinogradKernel.Init exampleNoWeights exampleZeroEnv false RET_OK RET_OK
        exampleGetInputTransFunc exampleGetOutputTransFunc).2.1.in_func_ =
      exampleWinogradKernel.in_func_ ∧
    (exampleWinogradKernel.Init exampleNoWeights exampleZeroEnv true RET_OK RET_OK
        exampleGetInputTransFunc exampleGetOutputTransFunc).1 =
      ((exampleWinogradKernel.initUnits.InitWeightBias exampleNoWeights exampleZeroEnv).2.1.ReSize
        RET_OK RET_OK exampleGetInputTransFunc exampleGetOutputTransFunc).1 ∧
    exampleWinogradKernel.Init exampleNoWeights exampleFailingEnv true RET_OK RET_OK
        exampleGetInputTransFunc exampleGetOutputTransFunc =
      (RET_ERROR,
        (exampleWinogradKernel.initUnits.InitWeightBias exampleNoWeights exampleFailingEnv).2) ∧
    exampleSelfKernel.Init false 5 = some (RET_OK, exampleSelfKernel) :=
  ⟨((Init_defers_ReSize Nat Int exampleWinogradKernel exampleNoWeights exampleZeroEnv RET_OK
      RET_OK exampleGetInputTransFunc exampleGetOutputTransFunc exampleSelfKernel 5).1
      (by decide)).2.1,
    (Init_defers_ReSize Nat Int exampleWinogradKernel exampleNoWeights exampleZeroEnv RET_OK
      RET_OK exampleGetInputTransFunc exampleGetOutputTransFunc exampleSelfKernel 5).2.1
      (by decide),
    ((Init_defers_ReSize Nat Int exampleWinogradKernel exampleNoWeights exampleFailingEnv RET_OK
      RET_OK exampleGetInputTransFunc exampleGetOutputTransFunc exampleSelfKernel 5).2.2.1 true
      (by decide)).1,
    (Init_defers_ReSize Nat Int exampleWinogradKernel exampleNoWeights exampleZeroEnv RET_OK
      RET_OK exampleGetInputTransFunc exampleGetOutputTransFunc exampleSelfKernel 5).2.2.2⟩

/-! ## Nested loops of stores -/

/-- Two loops that store `val i j` at `idx i j`, the map `idx` injective on the
iteration space. -/
theorem Writes_forLoop2 {α : Type} (idx : Nat → Nat → Nat) (val : Nat → Nat → α) (n m : Nat)
    (hinj : ∀ i j i1 j1, i < n → j < m → i1 < n → j1 < m → idx i j = idx i1 j1 →
      i = i1 ∧ j = j1) :
    Writes (forLoop (fun i d => forLoop (fun j d1 => Function.update d1 (idx i j) (val i j)) m d) n)
      (fun a x => ∃ i j, i < n ∧ j < m ∧ a = idx i j ∧ x = val i j) := by
  have hin : ∀ i, i < n → Writes (forLoop (fun j d1 => Function.update d1 (idx i j) (val i j)) m)
      (fun a x => ∃ j, j < m ∧ a = idx i j ∧ x = val i j) := by
    intro i hi
    refine Writes_forLoop _ (fun j a x => a = idx i j ∧ x = val i j) m
      (fun j _ => Writes_update _ _) ?_
    rintro j j1 a x y hj hj1 ⟨h1, _⟩ ⟨h2, _⟩
    exact (hinj i j i j1 hi hj hi hj1 (h1.symm.trans h2)).2
  have hout := Writes_forLoop _ (fun i a x => ∃ j, j < m ∧ a = idx i j ∧ x = val i j) n hin (by
    rintro i i1 a x y hi hi1 ⟨j, hj, h1, _⟩ ⟨j1, hj1, h2, _⟩
    exact (hinj i j i1 j1 hi hj hi1 hj1 (h1.symm.trans h2)).1)
  refine Writes_congr _ _ _ hout ?_
  intro a x
  constructor
  · rintro ⟨i, j, hi, hj, h⟩
    exact ⟨i, hi, j, hj, h⟩
  · rintro ⟨i, hi, j, hj, h⟩
    exact ⟨i, j, hi, hj, h⟩

/-- Three loops that store `val i j k` at `idx i j k`, the map `idx` injective on the
iteration space. -/
theorem Writes_forLoop3 {α : Type} (idx : Nat → Nat → Nat → Nat) (val : Nat → Nat → Nat → α)
    (n m l : Nat)
    (hinj : ∀ i j k i1 j1 k1, i < n → j < m → k < l → i1 < n → j1 < m → k1 < l →
      idx i j k = idx i1 j1 k1 → i = i1 ∧ j = j1 ∧ k = k1) :
    Writes (forLoop (fun i d => forLoop (fun j d1 => forLoop (fun k d2 =>
        Function.update d2 (idx i j k) (val i j k)) l d1) m d) n)
      (fun a x => ∃ i j k, i < n ∧ j < m ∧ k < l ∧ a = idx i j k ∧ x = val i j k) := by
  have hin : ∀ i, i < n → Writes (forLoop (fun j d1 => forLoop (fun k d2 =>
        Function.update d2 (idx i j k) (val i j k)) l d1) m)
      (fun a x => ∃ j k, j < m ∧ k < l ∧ a = idx i j k ∧ x = val i j k) := by
    intro i hi
    refine Writes_forLoop2 (idx i) (val i) m l ?_
    intro j k j1 k1 hj hk hj1 hk1 h
    exact (hinj i j k i j1 k1 hi hj hk hi hj1 hk1 h).2
  have hout := Writes_forLoop _
    (fun i a x => ∃ j k, j < m ∧ k < l ∧ a = idx i j k ∧ x = val i j k) n hin (by
    rintro i i1 a x y hi hi1 ⟨j, k, hj, hk, h1, _⟩ ⟨j1, k1, hj1, hk1, h2, _⟩
    exact (hinj i j k i1 j1 k1 hi hj hk hi1 hj1 hk1 (h1.symm.trans h2)).1)
  refine Writes_congr _ _ _ hout ?_
  intro a x
  constructor
  · rintro ⟨i, j, k, hi, hj, hk, h⟩
    exact ⟨i, hi, j, k, hj, hk, h⟩
  · rintro ⟨i, hi, j, k, hj, hk, h⟩
    exact ⟨i, j, k, hi, hj, hk, h⟩

/-- A loop that adds `g c` to an accumulator computes the sum of `g`. -/
theorem forLoop_sum (g : Nat → Int) (n : Nat) (init : Int) :
    forLoop (fun c t => t + g c) n init = init + ∑ c in Finset.range n, g c := by
  induction n with
  | zero => simp [forLoop]
  | succ n ih => rw [forLoop_succ, ih, Finset.sum_range_succ, add_assoc]

/-- Two numbers with the same digits in a mixed radix are equal. -/
theorem mixed_radix_inj (a y a1 y1 c : Nat) (hy : y < c) (hy1 : y1 < c)
    (h : a * c + y = a1 * c + y1) : a = a1 ∧ y = y1 := by
  have h1 := flat_div a y c hy
  have h2 := flat_div a1 y1 c hy1
  have e : a = a1 := by rw [← h1, ← h2, h]
  subst e
  exact ⟨rfl, by omega⟩

theorem UP_ROUND_eq (x y : Nat) : UP_ROUND x y = UP_DIV x y * y := rfl

theorem le_UP_ROUND (x y : Nat) (hy : 0 < y) : x ≤ UP_ROUND x y := by
  rw [UP_ROUND_eq]
  exact UP_DIV_mul_ge x y hy

/-! ## `PackNHWCToC8HWN8Int8` -/

/-- The destination offsets of `PackNHWCToC8HWN8Int8` are pairwise distinct. -/
theorem c8hwn8_inj (N P n p c n1 p1 c1 : Nat) (hn : n < N) (hp : p < P) (hn1 : n1 < N)
    (hp1 : p1 < P)
    (h : (c / 8 * P + p) * N * 8 + n * 8 + c % 8 = (c1 / 8 * P + p1) * N * 8 + n1 * 8 + c1 % 8) :
    n = n1 ∧ p = p1 ∧ c = c1 := by
  have e : ∀ q x y z : Nat, (q * P + x) * N * 8 + y * 8 + z = ((q * P + x) * N + y) * 8 + z := by
    intro q x y z
    ring
  rw [e, e] at h
  obtain ⟨h1, h2⟩ := mixed_radix_inj _ _ _ _ 8 (Nat.mod_lt c (by decide))
    (Nat.mod_lt c1 (by decide)) h
  obtain ⟨h3, h4⟩ := mixed_radix_inj _ _ _ _ N hn hn1 h1
  obtain ⟨h5, h6⟩ := mixed_radix_inj _ _ _ _ P hp hp1 h3
  exact ⟨h4, h6, by omega⟩

/-- What `PackNHWCToC8HWN8Int8` stores. -/
theorem PackNHWCToC8HWN8Int8_writes (src : Nat → Int) (N P C : Nat) :
    Writes (fun dst => PackNHWCToC8HWN8Int8 src dst N P C)
      (fun a x => ∃ n p c, n < N ∧ p < P ∧ c < C ∧
        a = (c / 8 * P + p) * N * 8 + n * 8 + c % 8 ∧ x = src ((n * P + p) * C + c)) := by
  have h := Writes_forLoop3 (fun n p c => c / C8NUM * N * P * C8NUM + p * N * C8NUM + n * C8NUM +
      c % C8NUM) (fun n p c => src (n * P * C + p * C + c)) N P C (by
    intro n p c n1 p1 c1 hn hp _ hn1 hp1 _ h
    refine c8hwn8_inj N P n p c n1 p1 c1 hn hp hn1 hp1 ?_
    simp only [C8NUM] at h
    have e : ∀ q x y z : Nat, (q * P + x) * N * 8 + y * 8 + z =
        q * N * P * 8 + x * N * 8 + y * 8 + z := by
      intro q x y z
      ring
    rw [e, e]
    exact h)
  refine Writes_congr _ _ _ h ?_
  intro a x
  have e1 : ∀ n p c : Nat, (c / 8 * P + p) * N * 8 + n * 8 + c % 8 =
      c / C8NUM * N * P * C8NUM + p * N * C8NUM + n * C8NUM + c % C8NUM := by
    intro n p c
    simp only [C8NUM]
    ring
  have e2 : ∀ n p c : Nat, (n * P + p) * C + c = n * P * C + p * C + c := by
    intro n p c
    ring
  simp only [e1, e2]

/-- Claim C18: after `PackNHWCToC8HWN8Int8(src, dst, N, P, C)` the destination holds
`src[(n*P + p)*C + c]` at offset `((c/8)*P + p)*N*8 + n*8 + c%8` for every `n < N`, `p < P`,
`c < C`; this map of `(n, p, c)` to offsets is injective; and every position that is not
such an offset (the padded lanes of the last block of eight channels, and everything
outside the block) is left as it was. -/
theorem PackNHWCToC8HWN8Int8_layout (src dst : Nat → Int) (N P C : Nat) :
    (∀ n p c, n < N → p < P → c < C →
      PackNHWCToC8HWN8Int8 src dst N P C ((c / 8 * P + p) * N * 8 + n * 8 + c % 8) =
        src ((n * P + p) * C + c)) ∧
    (∀ n p c n1 p1 c1, n < N → p < P → c < C → n1 < N → p1 < P → c1 < C →
      (c / 8 * P + p) * N * 8 + n * 8 + c % 8 = (c1 / 8 * P + p1) * N * 8 + n1 * 8 + c1 % 8 →
      n = n1 ∧ p = p1 ∧ c = c1) ∧
    (∀ a, (∀ n p c, n < N → p < P → c < C → a ≠ (c / 8 * P + p) * N * 8 + n * 8 + c % 8) →
      PackNHWCToC8HWN8Int8 src dst N P C a = dst a) := by
  have h := PackNHWCToC8HWN8Int8_writes src N P C
  refine ⟨?_, ?_, ?_⟩
  · intro n p c hn hp hc
    exact (h dst _).1 _ ⟨n, p, c, hn, hp, hc, rfl, rfl⟩
  · intro n p c n1 p1 c1 hn hp _ hn1 hp1 _ e
    exact c8hwn8_inj N P n p c n1 p1 c1 hn hp hn1 hp1 e
  · intro a ha
    refine (h dst a).2 ?_
    rintro x ⟨n, p, c, hn, hp, hc, e, _⟩
    exact ha n p c hn hp hc e

set_option maxRecDepth 100000 in
/-- Test `PackWeight1`: element `(n, p, c) = (3, 1, 4)` of the source, the padded lane 6 of
the first 8-channel block, and the injectivity at two offsets. -/
theorem PackNHWCToC8HWN8Int8_layout_witness :
    PackNHWCToC8HWN8Int8 (ofArray PackWeight1_in) (fun _ => 0) 5 2 6
        ((4 / 8 * 2 + 1) * 5 * 8 + 3 * 8 + 4 % 8) = ofArray PackWeight1_in ((3 * 2 + 1) * 6 + 4) ∧
    PackNHWCToC8HWN8Int8 (ofArray PackWeight1_in) (fun _ => 0) 5 2 6 6 = 0 :=
  ⟨(PackNHWCToC8HWN8Int8_layout (ofArray PackWeight1_in) (fun _ => 0) 5 2 6).1 3 1 4
      (by decide) (by decide) (by decide),
    (PackNHWCToC8HWN8Int8_layout (ofArray PackWeight1_in) (fun _ => 0) 5 2 6).2.2 6 (by
      intro n p c hn hp hc
      omega)⟩

/-! ## `RowMajor2Row16x4MajorInt8` -/

/-- The offset in the 4 by 16 tiles as a number in mixed radix. -/
theorem row16x4Index_eq (q r c : Nat) :
    row16x4Index (q * 16) r c = (r / 4 * q + c / 16) * 64 + (r % 4 * 16 + c % 16) := by
  unfold row16x4Index C4NUM C16NUM
  ring

/-- The offsets in the 4 by 16 tiles are pairwise distinct. -/
theorem row16x4Index_inj (q r c r1 c1 : Nat) (hc : c < q * 16) (hc1 : c1 < q * 16)
    (h : row16x4Index (q * 16) r c = row16x4Index (q * 16) r1 c1) : r = r1 ∧ c = c1 := by
  rw [row16x4Index_eq, row16x4Index_eq] at h
  have hm := Nat.mod_lt r (show 0 < 4 by decide)
  have hm1 := Nat.mod_lt r1 (show 0 < 4 by decide)
  have hn := Nat.mod_lt c (show 0 < 16 by decide)
  have hn1 := Nat.mod_lt c1 (show 0 < 16 by decide)
  obtain ⟨h1, h2⟩ := mixed_radix_inj _ _ _ _ 64 (by omega) (by omega) h
  have hq : c / 16 < q := Nat.div_lt_of_lt_mul (by omega)
  have hq1 : c1 / 16 < q := Nat.div_lt_of_lt_mul (by omega)
  obtain ⟨h3, h4⟩ := mixed_radix_inj _ _ _ _ q hq hq1 h1
  constructor <;> omega

/-- The offsets of the rows below `p * 4` lie inside the `p * 4` by `q * 16` buffer. -/
theorem row16x4Index_lt (p q r c : Nat) (hr : r < p * 4) (hc : c < q * 16) :
    row16x4Index (q * 16) r c < p * 4 * (q * 16) := by
  rw [row16x4Index_eq]
  have hm := Nat.mod_lt r (show 0 < 4 by decide)
  have hn := Nat.mod_lt c (show 0 < 16 by decide)
  have hq : c / 16 < q := Nat.div_lt_of_lt_mul (by omega)
  have hp : r / 4 < p := Nat.div_lt_of_lt_mul (by omega)
  have h1 := flat_lt (r / 4) (c / 16) p q hp hq
  have h2 := flat_lt (r / 4 * q + c / 16) (r % 4 * 16 + c % 16) (p * q) 64 h1 (by omega)
  have e : p * 4 * (q * 16) = p * q * 64 := by ring
  rw [e]
  exact h2

theorem UP_ROUND_16 (col : Nat) : UP_ROUND col 16 = UP_DIV col 16 * 16 := rfl

theorem UP_ROUND_4 (row : Nat) : UP_ROUND row 4 = UP_DIV row 4 * 4 := rfl

/-- What `RowMajor2Row16x4MajorInt8` stores. -/
theorem RowMajor2Row16x4MajorInt8_writes (src : Nat → Int) (row col : Nat) :
    Writes (fun dst => RowMajor2Row16x4MajorInt8 src dst row col)
      (fun a x => ∃ r c, r < row ∧ c < col ∧
        a = row16x4Index (UP_ROUND col 16) r c ∧ x = src (r * col + c)) := by
  have hle := le_UP_ROUND col 16 (by decide)
  have h := Writes_forLoop2 (fun r c => r / C4NUM * UP_ROUND col C16NUM * C4NUM +
      c / C16NUM * C4NUM * C16NUM + r % C4NUM * C16NUM + c % C16NUM)
    (fun r c => src (r * col + c)) row col (by
    intro r c r1 c1 _ hc _ hc1 h
    have e : ∀ r c : Nat, r / C4NUM * UP_ROUND col C16NUM * C4NUM +
        c / C16NUM * C4NUM * C16NUM + r % C4NUM * C16NUM + c % C16NUM =
        row16x4Index (UP_DIV col 16 * 16) r c := by
      intro r c
      unfold row16x4Index
      simp only [C4NUM, C16NUM, UP_ROUND_16]
      ring
    simp only [e] at h
    rw [UP_ROUND_16] at hle
    exact row16x4Index_inj _ r c r1 c1 (by omega) (by omega) h)
  refine Writes_congr _ _ _ h ?_
  intro a x
  have e : ∀ r c : Nat, row16x4Index (UP_ROUND col 16) r c =
      r / C4NUM * UP_ROUND col C16NUM * C4NUM +
        c / C16NUM * C4NUM * C16NUM + r % C4NUM * C16NUM + c % C16NUM := by
    intro r c
    unfold row16x4Index
    simp only [C4NUM, C16NUM]
    ring
  simp only [e]

/-- The cell of row `r` and column `c` of the packed activations: the source element, or
what the destination held where the tile is padding. -/
theorem RowMajor2Row16x4MajorInt8_at (src dst : Nat → Int) (row col r c : Nat)
    (hc : c < UP_ROUND col 16) :
    RowMajor2Row16x4MajorInt8 src dst row col (row16x4Index (UP_ROUND col 16) r c) =
      if r < row ∧ c < col then src (r * col + c)
      else dst (row16x4Index (UP_ROUND col 16) r c) := by
  have h := RowMajor2Row16x4MajorInt8_writes src row col dst
    (row16x4Index (UP_ROUND col 16) r c)
  have hle := le_UP_ROUND col 16 (by decide)
  split_ifs with hrc
  · exact h.1 _ ⟨r, c, hrc.1, hrc.2, rfl, rfl⟩
  · refine h.2 ?_
    rintro x ⟨r1, c1, hr1, hc1, e, _⟩
    rw [UP_ROUND_16] at e hc hle
    obtain ⟨e1, e2⟩ := row16x4Index_inj _ r c r1 c1 hc (by omega) e
    subst e1 e2
    exact hrc ⟨hr1, hc1⟩

/-- Claim C19: with the destination filled with the pad value `v`, after
`RowMajor2Row16x4MajorInt8(src, dst, row, col)` the cell at offset
`(r/4)*4*col16 + (c/16)*64 + (r%4)*16 + c%16`, `col16 = UP_ROUND(col, 16)`, holds
`src[r*col + c]` for every `r < row` and `c < col`; these offsets lie inside the
`UP_ROUND(row, 4) * col16` cells of the destination; every other position holds `v`. -/
theorem RowMajor2Row16x4MajorInt8_pad (src : Nat → Int) (v : Int) (row col : Nat) :
    (∀ r c, r < row → c < col →
      RowMajor2Row16x4MajorInt8 src (fun _ => v) row col
        (r / 4 * 4 * UP_ROUND col 16 + c / 16 * 64 + r % 4 * 16 + c % 16) = src (r * col + c) ∧
      r / 4 * 4 * UP_ROUND col 16 + c / 16 * 64 + r % 4 * 16 + c % 16 <
        UP_ROUND row 4 * UP_ROUND col 16) ∧
    (∀ a, (∀ r c, r < row → c < col →
        a ≠ r / 4 * 4 * UP_ROUND col 16 + c / 16 * 64 + r % 4 * 16 + c % 16) →
      RowMajor2Row16x4MajorInt8 src (fun _ => v) row col a = v) := by
  have h := RowMajor2Row16x4MajorInt8_writes src row col (fun _ => v)
  have e : ∀ r c : Nat, r / 4 * 4 * UP_ROUND col 16 + c / 16 * 64 + r % 4 * 16 + c % 16 =
      row16x4Index (UP_ROUND col 16) r c := by
    intro r c
    unfold row16x4Index
    simp only [C4NUM, C16NUM]
    omega
  simp only [e]
  refine ⟨?_, ?_⟩
  · intro r c hr hc
    refine ⟨(h _).1 _ ⟨r, c, hr, hc, rfl, rfl⟩, ?_⟩
    have h1 := le_UP_ROUND col 16 (by decide)
    have h2 := le_UP_ROUND row 4 (by decide)
    rw [UP_ROUND_16] at h1 ⊢
    rw [UP_ROUND_4] at h2 ⊢
    exact row16x4Index_lt _ _ r c (by omega) (by omega)
  · intro a ha
    refine (h a).2 ?_
    rintro x ⟨r, c, hr, hc, e1, _⟩
    exact ha r c hr hc e1

set_option maxRecDepth 100000 in
/-- Test `MatMulOptTest1`: element `(9, 11)` of the `10 x 12` matrix `a_src_ptr`, and the
pad value `15` in column 12 of row 0 (offset 12). -/
theorem RowMajor2Row16x4MajorInt8_pad_witness :
    (RowMajor2Row16x4MajorInt8 (ofArray MatMulOptTest1_a_src_ptr) (fun _ => 15) 10 12
        (9 / 4 * 4 * UP_ROUND 12 16 + 11 / 16 * 64 + 9 % 4 * 16 + 11 % 16) =
        ofArray MatMulOptTest1_a_src_ptr (9 * 12 + 11) ∧
      9 / 4 * 4 * UP_ROUND 12 16 + 11 / 16 * 64 + 9 % 4 * 16 + 11 % 16 <
        UP_ROUND 10 4 * UP_ROUND 12 16) ∧
    RowMajor2Row16x4MajorInt8 (ofArray MatMulOptTest1_a_src_ptr) (fun _ => 15) 10 12 12 = 15 :=
  ⟨(RowMajor2Row16x4MajorInt8_pad (ofArray MatMulOptTest1_a_src_ptr) 15 10 12).1 9 11
      (by decide) (by decide),
    (RowMajor2Row16x4MajorInt8_pad (ofArray MatMulOptTest1_a_src_ptr) 15 10 12).2 12 (by
      intro r c hr hc
      have e : UP_ROUND 12 16 = 16 := by decide
      rw [e]
      omega)⟩

/-! ## `DeConvPackInputSum` and `DeConvPackWeightSum` -/

/-- Every cell of the result of `DeConvPackInputSum`. -/
theorem DeConvPackInputSum_apply (src dst : Nat → Int) (filter_zp : Int) (row4 col16 r : Nat) :
    DeConvPackInputSum src dst filter_zp row4 col16 r =
      if r < row4 then
        (∑ k in Finset.range col16, src (row16x4Index col16 r k)) * filter_zp
      else dst r := by
  unfold DeConvPackInputSum
  simp only [forLoop_sum, zero_add]
  exact forLoop_store_each _ row4 dst r

/-- Every cell of the result of `DeConvPackWeightSum`. -/
theorem DeConvPackWeightSum_apply (weight weight_sum : Nat → Int) (input_zp filter_zp : Int)
    (deep16 col4 c : Nat) :
    DeConvPackWeightSum weight weight_sum input_zp filter_zp deep16 col4 c =
      if c < col4 then
        filter_zp * input_zp * (deep16 : Int) -
          (∑ k in Finset.range deep16, weight (row16x4Index deep16 c k)) * input_zp
      else weight_sum c := by
  unfold DeConvPackWeightSum
  simp only [forLoop_sum, zero_add]
  exact forLoop_store_each _ col4 weight_sum c

/-- Claim C16: for every packed activation buffer of `row4` rows and `col16` columns in the
16x4 packing and every filter zero point, `DeConvPackInputSum` stores in `input_sum[r]`, for
every `r < row4`, the filter zero point times the sum of the cells of row `r` over all
`col16` packed columns, padded columns included; the cells from `row4` on are unchanged. -/
theorem DeConvPackInputSum_rows (packed_a input_sum : Nat → Int) (filter_zp : Int)
    (row4 col16 : Nat) :
    (∀ r, r < row4 →
      DeConvPackInputSum packed_a input_sum filter_zp row4 col16 r =
        filter_zp * ∑ k in Finset.range col16,
          packed_a (r / 4 * 4 * col16 + k / 16 * 64 + r % 4 * 16 + k % 16)) ∧
    (∀ r, row4 ≤ r →
      DeConvPackInputSum packed_a input_sum filter_zp row4 col16 r = input_sum r) := by
  have e : ∀ r k : Nat, r / 4 * 4 * col16 + k / 16 * 64 + r % 4 * 16 + k % 16 =
      row16x4Index col16 r k := by
    intro r k
    unfold row16x4Index
    simp only [C4NUM, C16NUM]
    omega
  simp only [e]
  constructor
  · intro r hr
    rw [DeConvPackInputSum_apply, if_pos hr, mul_comm]
  · intro r hr
    rw [DeConvPackInputSum_apply, if_neg (by omega)]

set_option maxRecDepth 100000 in
/-- Test `MatMulOptTest1`: row 2 of `correct_packed_a` with the filter zero point `-20`,
and cell 12 past the 12 rows. -/
theorem DeConvPackInputSum_rows_witness :
    DeConvPackInputSum (ofArray MatMulOptTest1_correct_packed_a) (fun _ => 0) (-20) 12 16 2 =
      -20 * ∑ k in Finset.range 16, ofArray MatMulOptTest1_correct_packed_a
        (2 / 4 * 4 * 16 + k / 16 * 64 + 2 % 4 * 16 + k % 16) ∧
    DeConvPackInputSum (ofArray MatMulOptTest1_correct_packed_a) (fun _ => 0) (-20) 12 16 12 = 0 :=
  ⟨(DeConvPackInputSum_rows (ofArray MatMulOptTest1_correct_packed_a) (fun _ => 0) (-20)
      12 16).1 2 (by decide),
    (DeConvPackInputSum_rows (ofArray MatMulOptTest1_correct_packed_a) (fun _ => 0) (-20)
      12 16).2 12 (by decide)⟩

/-! ## The rounding of the fixed-point scaling -/

/-- A quotient by a positive number from its remainder. -/
theorem ediv_eq_of_rem (x m q rem : Int) (hm : 0 < m) (h : rem + m * q = x) (h0 : 0 ≤ rem)
    (h1 : rem < m) : x / m = q :=
  ((Int.ediv_emod_unique hm).mpr ⟨h, h0, h1⟩).1

/-- The function `RoundingDivideByPOT` rounds `x / 2^exponent` to the nearest integer, a tie
away from zero: for `x ≥ 0` it is the floor of `(x + 2^exponent / 2) / 2^exponent`, for
`x < 0` the negation of that of `-x`. -/
theorem RoundingDivideByPOT_half_away (x : Int) (exponent : Nat) :
    RoundingDivideByPOT x exponent =
      if 0 ≤ x then (x + 2 ^ exponent / 2) / 2 ^ exponent
      else -((-x + 2 ^ exponent / 2) / 2 ^ exponent) := by
  unfold RoundingDivideByPOT
  have hm : (0 : Int) < 2 ^ exponent := by positivity
  have hpar : (2 : Int) ^ exponent = 1 ∨ (2 : Int) ^ exponent % 2 = 0 := by
    cases exponent with
    | zero => left; rfl
    | succ n =>
      right
      rw [pow_succ]
      omega
  generalize (2 : Int) ^ exponent = m at hm hpar ⊢
  have hdm := Int.emod_add_ediv x m
  have hr0 := Int.emod_nonneg x (ne_of_gt hm)
  have hr1 := Int.emod_lt_of_pos x hm
  generalize x % m = rem at hdm hr0 hr1 ⊢
  generalize hq : x / m = q at hdm ⊢
  generalize ht : m * q = t at hdm
  by_cases hx : 0 ≤ x
  · have hx1 : ¬ x < 0 := by omega
    simp only [if_pos hx, if_neg hx1, add_zero]
    by_cases hrem : rem > (m - 1) / 2
    · rw [if_pos hrem]
      symm
      refine ediv_eq_of_rem _ m (q + 1) (rem + m / 2 - m) hm ?_ (by omega) (by omega)
      rw [mul_add, ht]
      omega
    · rw [if_neg hrem]
      symm
      refine ediv_eq_of_rem _ m (q + 0) (rem + m / 2) hm ?_ (by omega) (by omega)
      rw [mul_add, ht]
      omega
  · have hx1 : x < 0 := by omega
    simp only [if_neg hx, if_pos hx1]
    by_cases hrem : rem > (m - 1) / 2 + 1
    · rw [if_pos hrem]
      have e : (-x + m / 2) / m = -(q + 1) := by
        refine ediv_eq_of_rem _ m (-(q + 1)) (m - rem + m / 2) hm ?_ (by omega) (by omega)
        rw [mul_neg, mul_add, ht]
        omega
      rw [e]
      omega
    · rw [if_neg hrem]
      have e : (-x + m / 2) / m = -(q + 0) := by
        refine ediv_eq_of_rem _ m (-(q + 0)) (m / 2 - rem) hm ?_ (by omega) (by omega)
        rw [mul_neg, mul_add, ht]
        omega
      rw [e]
      omega

/-! ## `PostFuncInt8C8` -/

theorem MSMAX_eq_max (x y : Int) : MSMAX x y = max x y := by
  unfold MSMAX
  split_ifs with h
  · exact (max_eq_left (le_of_lt h)).symm
  · exact (max_eq_right (not_lt.mp h)).symm

/-- A value in `-128 .. 127` survives the conversion to `int8_t`. -/
theorem toInt8_of_range (v : Int) (hlo : -128 ≤ v) (hhi : v ≤ 127) : toInt8 v = v := by
  unfold toInt8
  omega

/-- The result of the conversion to `int8_t` lies in `-128 .. 127`. -/
theorem toInt8_range (v : Int) : -128 ≤ toInt8 v ∧ toInt8 v ≤ 127 := by
  unfold toInt8
  omega

/-- The cell that `PostFuncInt8C8` stores for plane index `p` and channel `c`. -/
theorem PostFuncInt8C8_at (input bias out : Nat → Int) (oc plane : Nat) (multiplier : Int)
    (left_shift right_shift : Nat) (zp mini maxi : Int) (p c : Nat) (hp : p < plane)
    (hc : c < oc) :
    PostFuncInt8C8 input bias out oc plane multiplier left_shift right_shift zp mini maxi
        (p * oc + c) =
      toInt8 (max mini (min maxi (MultiplyByQuantizedMultiplier
        (input (c / 8 * (UP_ROUND plane 8 * 8) + p * 8 + c % 8) + bias c) multiplier left_shift
        right_shift + zp))) := by
  have h := Writes_forLoop2 (fun r c => r * oc + c)
    (fun r c => toInt8 (MSMAX mini (MSMIN maxi (MultiplyByQuantizedMultiplier
      (input (c / C8NUM * (UP_ROUND plane C8NUM * C8NUM) + r * C8NUM + c % C8NUM) + bias c)
      multiplier left_shift right_shift + zp)))) plane oc (by
    intro r c r1 c1 _ hc _ hc1 h
    exact mixed_radix_inj r c r1 c1 oc hc hc1 h)
  have h1 : PostFuncInt8C8 input bias out oc plane multiplier left_shift right_shift zp mini maxi
      (p * oc + c) = toInt8 (MSMAX mini (MSMIN maxi (MultiplyByQuantizedMultiplier
        (input (c / 8 * (UP_ROUND plane 8 * 8) + p * 8 + c % 8) + bias c) multiplier left_shift
        right_shift + zp))) := (h out (p * oc + c)).1 _ ⟨p, c, hp, hc, rfl, rfl⟩
  rw [h1, MSMAX_eq_max, MSMIN_eq_min]

/-- Claim C17 as stated fails for bounds outside `-128 .. 127`: with the bounds `[0, 255]`
(`0 ≤ 255`), one accumulator `200`, bias `0`, zero point `0` and a scaling that maps `200`
to `200` (multiplier `2^30`, left shift 1, right shift 0), the clamped value is `200`, but
the cell of the `int8_t` output holds `-56`, which is outside `[0, 255]`. -/
theorem PostFuncInt8C8_wraps_outside_int8 :
    (0 : Int) ≤ 255 ∧
    max (0 : Int) (min 255 (MultiplyByQuantizedMultiplier ((fun _ => 200) (0 / 8 *
      (UP_ROUND 1 8 * 8) + 0 * 8 + 0 % 8) + (fun _ => 0) 0) 1073741824 1 0 + 0)) = 200 ∧
    PostFuncInt8C8 (fun _ => 200) (fun _ => 0) (fun _ => 0) 1 1 1073741824 1 0 0 0 255
      (0 * 1 + 0) = -56 ∧
    PostFuncInt8C8 (fun _ => 200) (fun _ => 0) (fun _ => 0) 1 1 1073741824 1 0 0 0 255
      (0 * 1 + 0) ≠
      max (0 : Int) (min 255 (MultiplyByQuantizedMultiplier ((fun _ => 200) (0 / 8 *
        (UP_ROUND 1 8 * 8) + 0 * 8 + 0 % 8) + (fun _ => 0) 0) 1073741824 1 0 + 0)) ∧
    ¬ (0 ≤ PostFuncInt8C8 (fun _ => 200) (fun _ => 0) (fun _ => 0) 1 1 1073741824 1 0 0 0 255
      (0 * 1 + 0)) := by
  decide

/-- Claim C17, amended: for bounds with `-128 ≤ clamp_min ≤ clamp_max ≤ 127`,
`PostFuncInt8C8` stores for every plane index `p < plane` and channel `c < oc` the value
`out[p*oc + c] = clamp(R(acc[p][c] + bias[c]) + zp, clamp_min, clamp_max)`, where
`acc[p][c]` is the cell of the accumulators in blocks of eight channels and `R` is the
fixed-point scaling `MultiplyByQuantizedMultiplier`; the output lies in
`[clamp_min, clamp_max]` and equals the output for the bounds `[-128, 127]` clamped to
`[clamp_min, clamp_max]`. -/
theorem PostFuncInt8C8_clamped (input bias out : Nat → Int) (oc plane : Nat) (multiplier : Int)
    (left_shift right_shift : Nat) (zp clamp_min clamp_max : Int) (p c : Nat)
    (hlo : -128 ≤ clamp_min) (hle : clamp_min ≤ clamp_max) (hhi : clamp_max ≤ 127)
    (hp : p < plane) (hc : c < oc) :
    PostFuncInt8C8 input bias out oc plane multiplier left_shift right_shift zp clamp_min
        clamp_max (p * oc + c) =
      max clamp_min (min clamp_max (MultiplyByQuantizedMultiplier
        (input (c / 8 * (UP_ROUND plane 8 * 8) + p * 8 + c % 8) + bias c) multiplier left_shift
        right_shift + zp)) ∧
    clamp_min ≤ PostFuncInt8C8 input bias out oc plane multiplier left_shift right_shift zp
      clamp_min clamp_max (p * oc + c) ∧
    PostFuncInt8C8 input bias out oc plane multiplier left_shift right_shift zp
      clamp_min clamp_max (p * oc + c) ≤ clamp_max ∧
    PostFuncInt8C8 input bias out oc plane multiplier left_shift right_shift zp clamp_min
        clamp_max (p * oc + c) =
      max clamp_min (min clamp_max (PostFuncInt8C8 input bias out oc plane multiplier left_shift
        right_shift zp (-128) 127 (p * oc + c))) := by
  rw [PostFuncInt8C8_at input bias out oc plane multiplier left_shift right_shift zp clamp_min
    clamp_max p c hp hc,
    PostFuncInt8C8_at input bias out oc plane multiplier left_shift right_shift zp (-128)
    127 p c hp hc]
  generalize MultiplyByQuantizedMultiplier
    (input (c / 8 * (UP_ROUND plane 8 * 8) + p * 8 + c % 8) + bias c) multiplier left_shift
    right_shift + zp = v
  rw [toInt8_of_range _ (by omega) (by omega), toInt8_of_range _ (by omega) (by omega)]
  refine ⟨rfl, by omega, by omega, by omega⟩

set_option maxRecDepth 100000 in
/-- Test `PostAddTest1` with the bounds `[0, 6]`: plane index 1 and channel 9. -/
theorem PostFuncInt8C8_clamped_witness :
    PostFuncInt8C8 (ofArray PostAddTest1_in) (ofArray PostAddTest1_bias) (fun _ => 0) 10 5
        PostAddTest1_quant_multiplier 0 5 83 0 6 (1 * 10 + 9) =
      max 0 (min 6 (MultiplyByQuantizedMultiplier
        (ofArray PostAddTest1_in (9 / 8 * (UP_ROUND 5 8 * 8) + 1 * 8 + 9 % 8) +
          ofArray PostAddTest1_bias 9) PostAddTest1_quant_multiplier 0 5 + 83)) ∧
    0 ≤ PostFuncInt8C8 (ofArray PostAddTest1_in) (ofArray PostAddTest1_bias) (fun _ => 0) 10 5
      PostAddTest1_quant_multiplier 0 5 83 0 6 (1 * 10 + 9) ∧
    PostFuncInt8C8 (ofArray PostAddTest1_in) (ofArray PostAddTest1_bias) (fun _ => 0) 10 5
      PostAddTest1_quant_multiplier 0 5 83 0 6 (1 * 10 + 9) ≤ 6 ∧
    PostFuncInt8C8 (ofArray PostAddTest1_in) (ofArray PostAddTest1_bias) (fun _ => 0) 10 5
        PostAddTest1_quant_multiplier 0 5 83 0 6 (1 * 10 + 9) =
      max 0 (min 6 (PostFuncInt8C8 (ofArray PostAddTest1_in) (ofArray PostAddTest1_bias)
        (fun _ => 0) 10 5 PostAddTest1_quant_multiplier 0 5 83 (-128) 127 (1 * 10 + 9))) :=
  PostFuncInt8C8_clamped (ofArray PostAddTest1_in) (ofArray PostAddTest1_bias) (fun _ => 0) 10 5
    PostAddTest1_quant_multiplier 0 5 83 0 6 1 9 (by decide) (by decide) (by decide) (by decide)
    (by decide)

/-! ## `DeConvWeightTransInt8` and `MatMulOptR4Int8` -/

/-- The destination offset of `DeConvWeightTransInt8` is the offset of row
`hw * oc4 + oc` and column `ic` in the tiles of 4 by 16. -/
theorem weightTrans_index (ic16 m hw oc ic : Nat) :
    hw * ic16 * (m * 4) + oc / 4 * ic16 * 4 + ic / 16 * 16 * 4 + oc % 4 * 16 + ic % 16 =
      row16x4Index ic16 (hw * (m * 4) + oc) ic := by
  unfold row16x4Index
  simp only [C4NUM, C16NUM]
  have e : hw * (m * 4) = hw * m * 4 := by ring
  have h1 : (hw * (m * 4) + oc) / 4 = hw * m + oc / 4 := by
    rw [e]
    omega
  have h2 : (hw * (m * 4) + oc) % 4 = oc % 4 := by
    rw [e]
    omega
  rw [h1, h2]
  ring

/-- What `DeConvWeightTransInt8` stores. -/
theorem DeConvWeightTransInt8_writes (src : Nat → Int) (input_channel output_channel plane : Nat) :
    Writes (fun dst => DeConvWeightTransInt8 src dst input_channel output_channel plane)
      (fun a x => ∃ ic oc hw, ic < input_channel ∧ oc < output_channel ∧ hw < plane ∧
        a = row16x4Index (UP_ROUND input_channel 16) (hw * UP_ROUND output_channel 4 + oc) ic ∧
        x = src (ic * output_channel * plane + hw * output_channel + oc)) := by
  have hle := le_UP_ROUND input_channel 16 (by decide)
  have hle4 := le_UP_ROUND output_channel 4 (by decide)
  have e : ∀ ic oc hw : Nat,
      hw * UP_ROUND input_channel C16NUM * UP_ROUND output_channel C4NUM +
        oc / C4NUM * UP_ROUND input_channel C16NUM * C4NUM + ic / C16NUM * C16NUM * C4NUM +
        oc % C4NUM * C16NUM + ic % C16NUM =
      row16x4Index (UP_ROUND input_channel 16) (hw * UP_ROUND output_channel 4 + oc) ic := by
    intro ic oc hw
    simp only [C4NUM, C16NUM, UP_ROUND_4]
    exact weightTrans_index _ _ hw oc ic
  have h := Writes_forLoop3 (fun ic oc hw =>
      hw * UP_ROUND input_channel C16NUM * UP_ROUND output_channel C4NUM +
        oc / C4NUM * UP_ROUND input_channel C16NUM * C4NUM + ic / C16NUM * C16NUM * C4NUM +
        oc % C4NUM * C16NUM + ic % C16NUM)
    (fun ic oc hw => src (ic * output_channel * plane + hw * output_channel + oc))
    input_channel output_channel plane (by
    intro ic oc hw ic1 oc1 hw1 hic hoc _ hic1 hoc1 _ h
    simp only [e] at h
    rw [UP_ROUND_16] at h hle
    obtain ⟨h1, h2⟩ := row16x4Index_inj _ _ ic _ ic1 (by omega) (by omega) h
    obtain ⟨h3, h4⟩ := mixed_radix_inj hw oc hw1 oc1 _ (by omega) (by omega) h1
    exact ⟨h2, h4, h3⟩)
  refine Writes_congr _ _ _ h ?_
  intro a x
  simp only [e]

/-- The cell of kernel position `hw`, output channel `oc` and input channel `ic` of the
packed weights: the source element, or what the destination held where the tile is
padding. -/
theorem DeConvWeightTransInt8_at (src dst : Nat → Int) (input_channel output_channel plane : Nat)
    (hw oc ic : Nat) (hoc : oc < UP_ROUND output_channel 4) (hic : ic < UP_ROUND input_channel 16) :
    DeConvWeightTransInt8 src dst input_channel output_channel plane
        (row16x4Index (UP_ROUND input_channel 16) (hw * UP_ROUND output_channel 4 + oc) ic) =
      if hw < plane ∧ oc < output_channel ∧ ic < input_channel then
        src (ic * output_channel * plane + hw * output_channel + oc)
      else dst (row16x4Index (UP_ROUND input_channel 16) (hw * UP_ROUND output_channel 4 + oc) ic) := by
  have h := DeConvWeightTransInt8_writes src input_channel output_channel plane dst
    (row16x4Index (UP_ROUND input_channel 16) (hw * UP_ROUND output_channel 4 + oc) ic)
  have hle := le_UP_ROUND input_channel 16 (by decide)
  have hle4 := le_UP_ROUND output_channel 4 (by decide)
  split_ifs with hc
  · exact h.1 _ ⟨ic, oc, hw, hc.2.2, hc.2.1, hc.1, rfl, rfl⟩
  · refine h.2 ?_
    rintro x ⟨ic1, oc1, hw1, hic1, hoc1, hhw1, e, _⟩
    rw [UP_ROUND_16] at e hic hle
    obtain ⟨e1, e2⟩ := row16x4Index_inj _ _ ic _ ic1 hic (by omega) e
    obtain ⟨e3, e4⟩ := mixed_radix_inj hw oc hw1 oc1 _ hoc (by omega) e1
    subst e2 e3 e4
    exact hc ⟨hhw1, hoc1, hic1⟩

/-- The cell that `MatMulOptR4Int8` stores for row `r` and column `c`. -/
theorem MatMulOptR4Int8_at (dst a b bias input_sum : Nat → Int) (row_4 col_4 deep_16 r c : Nat)
    (hr : r < row_4) (hc : c < col_4) :
    MatMulOptR4Int8 dst a b bias input_sum row_4 col_4 deep_16 (c / 4 * row_4 * 4 + r * 4 + c % 4) =
      (∑ d in Finset.range deep_16, a (row16x4Index deep_16 r d) * b (row16x4Index deep_16 c d)) -
        input_sum r + bias c := by
  have h := Writes_forLoop2 (fun r c => c / C4NUM * row_4 * C4NUM + r * C4NUM + c % C4NUM)
    (fun r c => (forLoop (fun dd v =>
        v + a (row16x4Index deep_16 r dd) * b (row16x4Index deep_16 c dd)) deep_16 0) -
      input_sum r + bias c) row_4 col_4 (by
    intro r c r1 c1 hr _ hr1 _ h
    simp only [C4NUM] at h
    have e : ∀ r c : Nat, c / 4 * row_4 * 4 + r * 4 + c % 4 = (c / 4 * row_4 + r) * 4 + c % 4 := by
      intro r c
      ring
    rw [e, e] at h
    obtain ⟨h1, h2⟩ := mixed_radix_inj _ _ _ _ 4 (Nat.mod_lt c (by decide))
      (Nat.mod_lt c1 (by decide)) h
    obtain ⟨h3, h4⟩ := mixed_radix_inj _ _ _ _ row_4 hr hr1 h1
    exact ⟨h4, by omega⟩)
  have h1 : MatMulOptR4Int8 dst a b bias input_sum row_4 col_4 deep_16
      (c / 4 * row_4 * 4 + r * 4 + c % 4) = (forLoop (fun dd v =>
        v + a (row16x4Index deep_16 r dd) * b (row16x4Index deep_16 c dd)) deep_16 0) -
      input_sum r + bias c := (h dst _).1 _ ⟨r, c, hr, hc, rfl, rfl⟩
  rw [h1, forLoop_sum, zero_add]

/-- The expansion of the product of the differences from the zero points. -/
theorem zero_point_expansion (A B : Nat → Int) (za zb : Int) (n : Nat) :
    (∑ d in Finset.range n, A d * B d) - (∑ d in Finset.range n, A d) * zb +
        (zb * za * (n : Int) - (∑ d in Finset.range n, B d) * za) =
      ∑ d in Finset.range n, (A d - za) * (B d - zb) := by
  induction n with
  | zero => simp
  | succ n ih =>
    simp only [Finset.sum_range_succ, ← ih]
    push_cast
    ring

/-! ## The pipeline of test `MatMulOptTest1` -/

/-- Every cell of the product, in terms of the padded matrices. -/
theorem MatMulOptPipeline_cell (a b : Nat → Int) (za zb : Int) (row K oc plane : Nat)
    (s0 w0 t0 : Nat → Int) (r hw o : Nat) (hr : r < UP_ROUND row 4) (hhw : hw < plane)
    (ho : o < UP_ROUND oc 4) :
    MatMulOptPipeline a b za zb row K oc plane s0 w0 t0
        ((hw * UP_ROUND oc 4 + o) / 4 * UP_ROUND row 4 * 4 + r * 4 +
          (hw * UP_ROUND oc 4 + o) % 4) =
      ∑ d in Finset.range (UP_ROUND K 16),
        ((if r < row ∧ d < K then a (r * K + d) else za) - za) *
          ((if hw < plane ∧ o < oc ∧ d < K then b (d * oc * plane + hw * oc + o) else zb) - zb) := by
  have hc : hw * UP_ROUND oc 4 + o < plane * UP_ROUND oc 4 := flat_lt hw o plane _ hhw ho
  unfold MatMulOptPipeline
  simp only [C4NUM, C16NUM]
  rw [MatMulOptR4Int8_at _ _ _ _ _ _ _ _ r _ hr hc, DeConvPackInputSum_apply, if_pos hr,
    DeConvPackWeightSum_apply, if_pos hc, zero_point_expansion]
  refine Finset.sum_congr rfl ?_
  intro d hd
  have hd1 : d < UP_ROUND K 16 := Finset.mem_range.mp hd
  rw [RowMajor2Row16x4MajorInt8_at _ _ _ _ r d hd1,
    DeConvWeightTransInt8_at _ _ _ _ _ hw o d ho hd1]

/-- Claim C15: with `a` (`row x K`, zero point `za`) packed by `RowMajor2Row16x4MajorInt8`
into a buffer filled with `za`, `b` (`K` rows, a column for every kernel position `hw` and
output channel `o`, zero point `zb`) packed by `DeConvWeightTransInt8` into a buffer filled
with `zb`, `input_sum` from `DeConvPackInputSum` and `weight_sum` from
`DeConvPackWeightSum`, the cell of `MatMulOptR4Int8` for a valid row `r` and a valid column
is the sum over `k < K` of `(a[r][k] - za) * (b[k][c] - zb)`, and every cell of a padded
row or of a padded column is `0`. -/
theorem MatMulOptPipeline_exact (a b : Nat → Int) (za zb : Int) (row K oc plane : Nat)
    (s0 w0 t0 : Nat → Int) :
    (∀ r hw o, r < row → hw < plane → o < oc →
      MatMulOptPipeline a b za zb row K oc plane s0 w0 t0
          ((hw * UP_ROUND oc 4 + o) / 4 * UP_ROUND row 4 * 4 + r * 4 +
            (hw * UP_ROUND oc 4 + o) % 4) =
        ∑ k in Finset.range K, (a (r * K + k) - za) * (b (k * (oc * plane) + (hw * oc + o)) - zb)) ∧
    (∀ r c, r < UP_ROUND row 4 → c < plane * UP_ROUND oc 4 →
      (row ≤ r ∨ oc ≤ c % UP_ROUND oc 4) →
      MatMulOptPipeline a b za zb row K oc plane s0 w0 t0
        (c / 4 * UP_ROUND row 4 * 4 + r * 4 + c % 4) = 0) := by
  have hrow := le_UP_ROUND row 4 (by decide)
  have hoc := le_UP_ROUND oc 4 (by decide)
  have hK := le_UP_ROUND K 16 (by decide)
  constructor
  · intro r hw o hr hhw ho
    rw [MatMulOptPipeline_cell a b za zb row K oc plane s0 w0 t0 r hw o (by omega) hhw (by omega)]
    symm
    refine (Finset.sum_congr rfl ?_).trans (Finset.sum_subset (Finset.range_subset.mpr hK) ?_)
    · intro d hd
      have hd1 : d < K := Finset.mem_range.mp hd
      have e : d * (oc * plane) + (hw * oc + o) = d * oc * plane + hw * oc + o := by ring
      simp [hr, hd1, hhw, ho, e]
    · intro d _ hd
      have hd1 : ¬ d < K := fun h => hd (Finset.mem_range.mpr h)
      simp [hd1]
  · intro r c hr hc hpad
    have hpos : 0 < UP_ROUND oc 4 := by
      rcases Nat.eq_zero_or_pos (UP_ROUND oc 4) with h | h
      · rw [h] at hc
        omega
      · exact h
    have hdm : c / UP_ROUND oc 4 * UP_ROUND oc 4 + c % UP_ROUND oc 4 = c := by
      rw [Nat.mul_comm]
      exact Nat.div_add_mod c _
    have hhw : c / UP_ROUND oc 4 < plane := Nat.div_lt_of_lt_mul (by rw [Nat.mul_comm]; exact hc)
    have ho : c % UP_ROUND oc 4 < UP_ROUND oc 4 := Nat.mod_lt _ hpos
    have h := MatMulOptPipeline_cell a b za zb row K oc plane s0 w0 t0 r (c / UP_ROUND oc 4)
      (c % UP_ROUND oc 4) hr hhw ho
    rw [hdm] at h
    rw [h]
    refine Finset.sum_eq_zero ?_
    intro d _
    rcases hpad with h1 | h1
    · have h2 : ¬ r < row := by omega
      simp [h2]
    · have h2 : ¬ c % UP_ROUND oc 4 < oc := by omega
      simp [h2]

set_option maxRecDepth 100000 in
/-- Test `MatMulOptTest1` (`10 x 12` activations, 12 input channels, 6 output channels,
3 kernel positions, zero points 15 and -20): row 9 with kernel position 2 and output
channel 5, and the padded row 10 in column 0. -/
theorem MatMulOptPipeline_exact_witness :
    MatMulOptPipeline (ofArray MatMulOptTest1_a_src_ptr) (ofArray MatMulOptTest1_b_src_ptr)
        15 (-20) 10 12 6 3 (fun _ => 0) (fun _ => 0) (fun _ => 0)
        ((2 * UP_ROUND 6 4 + 5) / 4 * UP_ROUND 10 4 * 4 + 9 * 4 + (2 * UP_ROUND 6 4 + 5) % 4) =
      ∑ k in Finset.range 12, (ofArray MatMulOptTest1_a_src_ptr (9 * 12 + k) - 15) *
        (ofArray MatMulOptTest1_b_src_ptr (k * (6 * 3) + (2 * 6 + 5)) - -20) ∧
    MatMulOptPipeline (ofArray MatMulOptTest1_a_src_ptr) (ofArray MatMulOptTest1_b_src_ptr)
        15 (-20) 10 12 6 3 (fun _ => 0) (fun _ => 0) (fun _ => 0)
        (0 / 4 * UP_ROUND 10 4 * 4 + 10 * 4 + 0 % 4) = 0 :=
  ⟨(MatMulOptPipeline_exact (ofArray MatMulOptTest1_a_src_ptr)
      (ofArray MatMulOptTest1_b_src_ptr) 15 (-20) 10 12 6 3 (fun _ => 0) (fun _ => 0)
      (fun _ => 0)).1 9 2 5 (by decide) (by decide) (by decide),
    (MatMulOptPipeline_exact (ofArray MatMulOptTest1_a_src_ptr)
      (ofArray MatMulOptTest1_b_src_ptr) 15 (-20) 10 12 6 3 (fun _ => 0) (fun _ => 0)
      (fun _ => 0)).2 10 0 (by decide) (by decide) (Or.inl (by decide))⟩

/-! ## `Greater::InferShape` -/

namespace lite

/-- With an input and an output object behind the two front pointers, `InferShape`
returns `RET_OK` after one net store, through the front output pointer. -/
theorem Greater.InferShape_eq (heap : TensorHeap) (inputs_ outputs_ : List Nat)
    (input output : Nat) (tin tout : Tensor)
    (hin : inputs_.head? = some input) (hout : outputs_.head? = some output)
    (hi : heap input = some tin) (ho : heap output = some tout) :
    Greater.InferShape heap inputs_ outputs_ =
      some (RET_OK, heap.store output
        { shape_ := tin.shape_, data_type_ := TypeId.kNumberTypeBool, format_ := tin.format_
          data_ := tout.data_ }) := by
  unfold Greater.InferShape
  rw [hin, hout]
  simp only [hi, ho, Option.bind_eq_bind, Option.some_bind, TensorHeap.store,
    Function.update_same, Function.update_idem]
  by_cases e : input = output
  · subst e
    have e1 : tin = tout := Option.some.inj (hi.symm.trans ho)
    subst e1
    simp [Function.update_same, Tensor.set_shape, Tensor.set_data_type, Tensor.SetFormat]
  · rw [Function.update_noteq e, hi]
    simp [Tensor.set_shape, Tensor.set_data_type, Tensor.SetFormat]

end lite

/-- Claim C21: for non-empty vectors `inputs_` and `outputs_` whose front pointers refer to
tensor objects, `Greater::InferShape` returns `RET_OK`; afterwards the first output has the
shape of the first input, the element type Bool and the format of the first input (the
rest of the object is as before), and every other tensor object, so every input and every
other output, is as it was on entry. -/
theorem Greater_InferShape_sets_first_output (heap : lite.TensorHeap)
    (inputs_ outputs_ : List Nat) (input output : Nat) (tin tout : lite.Tensor)
    (hin : inputs_.head? = some input) (hout : outputs_.head? = some output)
    (hi : heap input = some tin) (ho : heap output = some tout) :
    ∃ heap1 t, lite.Greater.InferShape heap inputs_ outputs_ = some (RET_OK, heap1) ∧
      heap1 output = some t ∧ t.shape_ = tin.shape_ ∧
      t.data_type_ = TypeId.kNumberTypeBool ∧ t.format_ = tin.format_ ∧ t.data_ = tout.data_ ∧
      (∀ ptr, ptr ≠ output → heap1 ptr = heap ptr) ∧
      (∀ ptr, ptr ∈ inputs_ → ptr ≠ output → heap1 ptr = heap ptr) ∧
      (∀ ptr, ptr ∈ outputs_ → ptr ≠ output → heap1 ptr = heap ptr) := by
  refine ⟨_, _, lite.Greater.InferShape_eq heap inputs_ outputs_ input output tin tout hin hout
    hi ho, Function.update_same _ _ _, rfl, rfl, rfl, rfl, ?_, ?_, ?_⟩
  · intro ptr hp
    exact Function.update_noteq hp _ _
  · intro ptr _ hp
    exact Function.update_noteq hp _ _
  · intro ptr _ hp
    exact Function.update_noteq hp _ _

/-- Inputs at the addresses 1 and 2, outputs at 3 and 4 in `exampleHeap`: the first output
gets the shape `[1, 2, 3]`, Bool and the format of the first input. -/
theorem Greater_InferShape_sets_first_output_witness :
    ∃ heap1 t, lite.Greater.InferShape exampleHeap [1, 2] [3, 4] = some (RET_OK, heap1) ∧
      heap1 3 = some t ∧ t.shape_ = [1, 2, 3] ∧
      t.data_type_ = TypeId.kNumberTypeBool ∧ t.format_ = lite.Format.Format_NHWC ∧
      t.data_ = [] ∧
      (∀ ptr, ptr ≠ 3 → heap1 ptr = exampleHeap ptr) ∧
      (∀ ptr, ptr ∈ [1, 2] → ptr ≠ 3 → heap1 ptr = exampleHeap ptr) ∧
      (∀ ptr, ptr ∈ [3, 4] → ptr ≠ 3 → heap1 ptr = exampleHeap ptr) :=
  Greater_InferShape_sets_first_output exampleHeap [1, 2] [3, 4] 1 3
    { shape_ := [1, 2, 3], data_type_ := TypeId.kNumberTypeFloat32
      format_ := lite.Format.Format_NHWC, data_ := [1, 2, 3, 4, 5, 6] }
    { shape_ := [], data_type_ := TypeId.kNumberTypeFloat32
      format_ := lite.Format.Format_NCHW, data_ := [] } rfl rfl rfl rfl

/-! ## The statuses of the tasks and of `Run` -/

/-- A launch whose tasks all return `RET_OK` reports `RET_OK`. -/
theorem ParallelLaunch_all_ok {σ : Type} (fn : σ → Nat → Int × σ) (cdata : σ) (task_num : Nat)
    (h : ∀ s t, (fn s t).1 = RET_OK) : (ParallelLaunch fn cdata task_num).1 = RET_OK := by
  unfold ParallelLaunch
  induction task_num with
  | zero => rfl
  | succ n ih =>
    rw [forLoop_succ]
    simp only [ih, ne_eq, not_true_eq_false, if_false]
    exact h _ _

namespace ConvolutionWinogradCPUKernel

variable {F R : Type}

/-- The wrapper `ConvolutionWinogradImpl` returns `RET_OK` and leaves what `RunImpl`
leaves. -/
theorem ConvolutionWinogradImpl_eq (k : ConvolutionWinogradCPUKernel F) (w : WinogradWeights R)
    (env : WinogradRunEnv F R) (output_data : Nat → R) (task_id : Nat) :
    k.ConvolutionWinogradImpl w env output_data task_id =
      (RET_OK, (k.RunImpl w env output_data task_id).2) := by
  unfold ConvolutionWinogradImpl ConvolutionWinogradImplStatus RunImpl
  simp

end ConvolutionWinogradCPUKernel

namespace ArithmeticSelfCPUKernel

variable {R : Type}

end ArithmeticSelfCPUKernel

/-- Claim C27: for every task, `RunImpl` returns `RET_OK`, hence so does the wrapper
`ConvolutionWinogradImpl` (its error branch is not reachable), and a launch of any number
of Winograd tasks reports `RET_OK`. -/
theorem RunImpl_always_OK (F R : Type) (k : ConvolutionWinogradCPUKernel F)
    (w : WinogradWeights R) (env : WinogradRunEnv F R) (output_data : Nat → R)
    (task_id task_num : Nat) :
    (k.RunImpl w env output_data task_id).1 = RET_OK ∧
    (k.ConvolutionWinogradImpl w env output_data task_id).1 = RET_OK ∧
    (ParallelLaunch (k.ConvolutionWinogradImpl w env) output_data task_num).1 = RET_OK := by
  refine ⟨rfl, ?_, ParallelLaunch_all_ok _ _ _ ?_⟩
  · rw [ConvolutionWinogradCPUKernel.ConvolutionWinogradImpl_eq]
  · intro s t
    rw [ConvolutionWinogradCPUKernel.ConvolutionWinogradImpl_eq]

/-! ## The extent of the stores into `trans_weight_` -/

section Extent

variable {R : Type}

/-- Whatever its status, `WinogradFilterTransform` leaves every position alone that is not
the offset of a `(tile position, input channel, output channel)` triple. -/
theorem WinogradFilterTransform_frame [Semiring R]
    (channel_in channel_out input_unit_ kernel_unit_ : Nat)
    (trans_weight_ weight_data matrix_g matrix_gt : Nat → R) (oc_block : Nat)
    (tmp_data trans_out_data tmp_data1 trans_out_data1 : Option (Nat → R)) (a : Nat)
    (ha : ∀ i q c, i < channel_out → q < input_unit_ * input_unit_ → c < channel_in →
      a ≠ transWeightOffset channel_in channel_out oc_block q c i) :
    (WinogradFilterTransform channel_in channel_out input_unit_ kernel_unit_ trans_weight_
        weight_data matrix_g matrix_gt oc_block tmp_data trans_out_data tmp_data1
        trans_out_data1).2 a = trans_weight_ a := by
  unfold WinogradFilterTransform
  by_cases hb : oc_block = 0
  · simp [hb]
  · rcases tmp_data with _ | t1
    · simp [hb]
    · rcases trans_out_data with _ | t2
      · simp [hb]
      · rcases tmp_data1 with _ | t3
        · simp [hb]
        · rcases trans_out_data1 with _ | t4
          · simp [hb]
          · simp only [hb, if_false]
            rw [channels_frame _ _ _ _ _ _ _ _ _ _ ha]

/-- The offset of a lane of an output-channel block, in the layout of
`transWeightOffset`, belongs to the output channel `blk * oc_block + lane`. -/
theorem transWeightOffset_block_lane (channel_in channel_out oc_block p c blk lane : Nat)
    (hlane : lane < oc_block) :
    ((p * UP_DIV channel_out oc_block + blk) * channel_in + c) * oc_block + lane =
      transWeightOffset channel_in channel_out oc_block p c (blk * oc_block + lane) := by
  unfold transWeightOffset
  rw [flat_div _ _ _ hlane, flat_mod _ _ _ hlane]

/-- A padded lane of the last output-channel block is not the offset of any triple with an
output channel below `channel_out`. -/
theorem padded_lane_not_written (channel_in channel_out oc_block p c blk lane : Nat)
    (hb : 0 < oc_block) (hblk : blk < UP_DIV channel_out oc_block) (hc : c < channel_in)
    (hlane : lane < oc_block) (hpad : channel_out ≤ blk * oc_block + lane)
    (i q c1 : Nat) (hi : i < channel_out) (hc1 : c1 < channel_in) :
    ((p * UP_DIV channel_out oc_block + blk) * channel_in + c) * oc_block + lane ≠
      transWeightOffset channel_in channel_out oc_block q c1 i := by
  intro e
  unfold transWeightOffset at e
  obtain ⟨e1, e2⟩ := mixed_radix_inj _ _ _ _ oc_block hlane (Nat.mod_lt _ hb) e
  obtain ⟨e3, _⟩ := mixed_radix_inj _ _ _ _ channel_in hc hc1 e1
  obtain ⟨_, e5⟩ := mixed_radix_inj _ _ _ _ (UP_DIV channel_out oc_block) hblk
    (div_lt_UP_DIV i channel_out oc_block hb hi) e3
  have h := Nat.div_add_mod i oc_block
  rw [← e5, ← e2, Nat.mul_comm] at h
  omega

end Extent

/-- Claim C24: after `InitWeightBias` (in particular after a successful one), every element
of `trans_weight_` in a padded lane of the last block of eight output channels, that is
with `blk * 8 + lane ≥ out_channel`, is `0`: the zero fill covers the position and
`WinogradFilterTransform` does not store there. The position of tile position `p`, block
`blk`, input channel `c` and lane `lane` is
`((p * UP_DIV(out_channel, 8) + blk) * in_channel + c) * 8 + lane`. -/
theorem InitWeightBias_padded_lanes_zero (F R : Type) [Semiring R]
    (k : ConvolutionWinogradCPUKernel F) (w : WinogradWeights R) (env : WinogradInitEnv R)
    (tw : Nat → R) (p blk c lane : Nat)
    (htw : (ConvolutionWinogradCPUKernel.InitWeightBias k w env).2.2.trans_weight_ = some tw)
    (hp : p < k.input_unit_.toNat * k.input_unit_.toNat)
    (hblk : blk < UP_DIV env.filter_Batch 8) (hc : c < env.filter_Channel) (hlane : lane < 8)
    (hpad : env.filter_Batch ≤ blk * 8 + lane) :
    tw (((p * UP_DIV env.filter_Batch 8 + blk) * env.filter_Channel + c) * 8 + lane) = 0 := by
  have hidx : ((p * UP_DIV env.filter_Batch 8 + blk) * env.filter_Channel + c) * 8 + lane <
      ConvolutionWinogradCPUKernel.transMatrixDataSize k.input_unit_ env.filter_Channel
        env.filter_Batch := by
    have h1 := flat_lt p blk _ _ hp hblk
    have h2 := flat_lt _ c _ _ h1 hc
    have h3 := flat_lt _ lane _ 8 h2 hlane
    unfold ConvolutionWinogradCPUKernel.transMatrixDataSize C8NUM
    have e : k.input_unit_.toNat * k.input_unit_.toNat * env.filter_Channel *
        UP_DIV env.filter_Batch 8 * 8 =
        k.input_unit_.toNat * k.input_unit_.toNat * UP_DIV env.filter_Batch 8 *
          env.filter_Channel * 8 := by ring
    rw [e]
    exact h3
  have hmem : ∀ block : Nat → R, memsetZero block
      (ConvolutionWinogradCPUKernel.transMatrixDataSize k.input_unit_ env.filter_Channel
        env.filter_Batch)
      (((p * UP_DIV env.filter_Batch 8 + blk) * env.filter_Channel + c) * 8 + lane) = 0 := by
    intro block
    unfold memsetZero
    rw [if_pos hidx]
  have hwft := fun g gt block => (WinogradFilterTransform_frame env.filter_Channel
    env.filter_Batch k.input_unit_.toNat k.kernel_unit_.toNat
    (memsetZero block (ConvolutionWinogradCPUKernel.transMatrixDataSize k.input_unit_
      env.filter_Channel env.filter_Batch))
    env.weight_data g gt 8 env.tmp_data env.trans_out_data env.tmp_data1
    env.trans_out_data1
    (((p * UP_DIV env.filter_Batch 8 + blk) * env.filter_Channel + c) * 8 + lane)
    (fun i q c1 hi _ hc1 => padded_lane_not_written env.filter_Channel env.filter_Batch 8 p c
      blk lane (by decide) hblk hc hlane hpad i q c1 hi hc1)).trans (hmem block)
  revert htw tw
  unfold ConvolutionWinogradCPUKernel.InitWeightBias
  simp only
  repeat' split
  all_goals
    intro tw htw
    first
    | (have h2 := Option.some.inj htw
       rw [← h2]
       first
       | exact hmem _
       | exact hwft _ _ _)
    | cases htw

/-- Lane 1 of block 1 (output channel 9 of nine, a padded lane) at tile position 5 and
input channel 1 of the transformed weights `exampleWeightData` over a block that held `7`. -/
theorem InitWeightBias_padded_lanes_zero_witness :
    exampleOnesTransWeight (((5 * UP_DIV 9 8 + 1) * 2 + 1) * 8 + 1) = 0 :=
  InitWeightBias_padded_lanes_zero Nat Int exampleWinogradKernel exampleNoWeights exampleOnesEnv
    exampleOnesTransWeight 5 1 1 1 rfl (by decide) (by decide) (by decide) (by decide)
    (by decide)

/-- Claim C25: after a successful `InitWeightBias` the bias block of
`UP_DIV(out_channel, 4) * 4` elements, which holds at least the `out_channel` elements of
the copy, is: with three input tensors, `bias[i]` for `i < out_channel` and `0` for
`out_channel ≤ i < UP_DIV(out_channel, 4) * 4`; otherwise `0` in every element. -/
theorem InitWeightBias_bias (F R : Type) [Semiring R]
    (k : ConvolutionWinogradCPUKernel F) (w : WinogradWeights R) (env : WinogradInitEnv R)
    (hok : (ConvolutionWinogradCPUKernel.InitWeightBias k w env).1 = RET_OK) :
    env.filter_Batch ≤ ConvolutionWinogradCPUKernel.biasDataSize env.filter_Batch ∧
    ConvolutionWinogradCPUKernel.biasDataSize env.filter_Batch =
      UP_DIV env.filter_Batch 4 * 4 ∧
    ∃ bias, (ConvolutionWinogradCPUKernel.InitWeightBias k w env).2.2.bias_data_ = some bias ∧
      (env.in_tensors_size = kInputSize2 →
        (∀ i, i < env.filter_Batch → bias i = env.ori_bias_addr i) ∧
        (∀ i, env.filter_Batch ≤ i → i < UP_DIV env.filter_Batch 4 * 4 → bias i = 0)) ∧
      (env.in_tensors_size ≠ kInputSize2 →
        ∀ i, i < UP_DIV env.filter_Batch 4 * 4 → bias i = 0) := by
  refine ⟨UP_DIV_mul_ge _ 4 (by decide), rfl, ?_⟩
  revert hok
  unfold ConvolutionWinogradCPUKernel.InitWeightBias
  simp only
  repeat' split
  all_goals
    intro hok
    first
    | exact absurd hok RET_MEMORY_FAILED_ne_RET_OK
    | (rename_i hne
       exact absurd hok hne)
    | (rename_i hsz
       refine ⟨_, rfl, ?_, ?_⟩
       · intro _
         constructor
         · intro i hi
           simp [memcpy, hi]
         · intro i hi1 hi2
           have hi3 : ¬ i < env.filter_Batch := by omega
           simp [memcpy, memsetZero, hi3, C4NUM, hi2]
       · intro h
         exact absurd hsz h)
    | (rename_i hsz
       refine ⟨_, rfl, ?_, ?_⟩
       · intro h
         exact absurd h hsz
       · intro _ i hi
         simp [memsetZero, C4NUM, hi])

/-- The environment `exampleZeroEnv` with nine output channels and the bias
`1, 2, 3, ...`: element 8 is the bias, elements 9 to 11 are zero. -/
theorem InitWeightBias_bias_witness :
    (9 : Nat) ≤ ConvolutionWinogradCPUKernel.biasDataSize 9 ∧
    ConvolutionWinogradCPUKernel.biasDataSize 9 = UP_DIV 9 4 * 4 ∧
    ∃ bias, (ConvolutionWinogradCPUKernel.InitWeightBias exampleWinogradKernel exampleNoWeights
        exampleZeroEnv).2.2.bias_data_ = some bias ∧
      (exampleZeroEnv.in_tensors_size = kInputSize2 →
        (∀ i, i < 9 → bias i = exampleZeroEnv.ori_bias_addr i) ∧
        (∀ i, 9 ≤ i → i < UP_DIV 9 4 * 4 → bias i = 0)) ∧
      (exampleZeroEnv.in_tensors_size ≠ kInputSize2 →
        ∀ i, i < UP_DIV 9 4 * 4 → bias i = 0) :=
  InitWeightBias_bias Nat Int exampleWinogradKernel exampleNoWeights exampleZeroEnv (by decide)

/-- Claim C26: when `RestoreMulWeight` executes the division `DataSize() / channels` of
line 95, `channels` is not `0`: the list of quantization parameters is not empty and has
`channels` elements, and since the per-tensor case is excluded, `channels ≥ 2`; the call
then returns `RET_OK`. -/
theorem RestoreMulWeight_divisor_ge_two (R : Type) [Ring R] (t : Tensor R) (malloc_ok : Bool)
    (fresh : Nat → R) (channels : Nat)
    (h : RestoreMulWeight_divisor t malloc_ok = some channels) :
    channels ≠ 0 ∧ 2 ≤ channels ∧ t.quant_params_ ≠ [] ∧ t.quant_params_.length = channels ∧
      channels = t.Batch ∧ (RestoreMulWeight t malloc_ok fresh).1 = RET_OK := by
  unfold RestoreMulWeight_divisor kPerTensor at h
  simp only at h
  split_ifs at h with h1 h2 h3 h4 h5
  have e : t.Batch = channels := Option.some.inj h
  have hne : t.quant_params_ ≠ [] := by
    intro e1
    rw [e1] at h2
    exact h2 rfl
  have hlen : 0 < t.quant_params_.length := List.length_pos.mpr hne
  have h6 : t.quant_params_.length = t.Batch := not_not.mp h5
  have hm : malloc_ok = true := by
    cases malloc_ok
    · exact absurd rfl h3
    · rfl
  refine ⟨by omega, by omega, hne, by omega, e.symm, ?_⟩
  exact (RestoreMulWeight_status_cases t malloc_ok fresh).1.mpr
    ⟨not_not.mp h1, hne, hm, Or.inr h6⟩

/-- The tensor `examplePerChannelWeight` with two channels reaches the division with
`channels = 2`. -/
theorem RestoreMulWeight_divisor_ge_two_witness :
    (2 : Nat) ≠ 0 ∧ 2 ≤ 2 ∧ examplePerChannelWeight.quant_params_ ≠ [] ∧
      examplePerChannelWeight.quant_params_.length = 2 ∧ 2 = examplePerChannelWeight.Batch ∧
      (RestoreMulWeight examplePerChannelWeight true exampleBlock).1 = RET_OK :=
  RestoreMulWeight_divisor_ge_two Int examplePerChannelWeight true exampleBlock 2 rfl

/-! ## The literal vectors of `deconv_int8_tests.cc` are reproduced -/

set_option maxRecDepth 100000 in
/-- Test `PackWeight1`: the packed weights are the array `co`. -/
theorem PackWeight1_conforms :
    firstCells 80 (PackNHWCToC8HWN8Int8 (ofArray PackWeight1_in) (fun _ => 0) 5 2 6) =
      PackWeight1_co := by
  decide!

set_option maxRecDepth 100000 in
/-- Test `MatMulOptTest1`: the packed activations are `correct_packed_a`. -/
theorem MatMulOptTest1_packed_a_conforms :
    firstCells 192 (RowMajor2Row16x4MajorInt8 (ofArray MatMulOptTest1_a_src_ptr)
      (fun _ => 15) 10 12) = MatMulOptTest1_correct_packed_a := by
  decide!

set_option maxRecDepth 100000 in
/-- Test `MatMulOptTest1`: the packed weights are `correct_packed_b`. -/
theorem MatMulOptTest1_packed_b_conforms :
    firstCells 384 (DeConvWeightTransInt8 (ofArray MatMulOptTest1_b_src_ptr)
      (fun _ => -20) 12 6 3) = MatMulOptTest1_correct_packed_b := by
  decide!

set_option maxRecDepth 100000 in
/-- Test `MatMulOptTest1`: the input sums are `correct_input_sum`. -/
theorem MatMulOptTest1_input_sum_conforms :
    firstCells 12 (DeConvPackInputSum (ofArray MatMulOptTest1_correct_packed_a) (fun _ => 0)
      (-20) 12 16) = MatMulOptTest1_correct_input_sum := by
  decide!

set_option maxRecDepth 100000 in
/-- Test `MatMulOptTest1`: the weight sums are `correct_weight_sum`. -/
theorem MatMulOptTest1_weight_sum_conforms :
    firstCells 24 (DeConvPackWeightSum (ofArray MatMulOptTest1_correct_packed_b) (fun _ => 0)
      15 (-20) 16 24) = MatMulOptTest1_correct_weight_sum := by
  decide!

set_option maxRecDepth 100000 in
/-- Test `PostAddTest1`: the three outputs are `co`, `co_relu` and `co_relu6`. -/
theorem PostAddTest1_conforms :
    firstCells 50 (PostFuncInt8C8 (ofArray PostAddTest1_in) (ofArray PostAddTest1_bias)
      (fun _ => 0) 10 5 PostAddTest1_quant_multiplier 0 5 83 (-128) 127) = PostAddTest1_co ∧
    firstCells 50 (PostFuncInt8C8 (ofArray PostAddTest1_in) (ofArray PostAddTest1_bias)
      (fun _ => 0) 10 5 PostAddTest1_quant_multiplier 0 5 83 0 127) = PostAddTest1_co_relu ∧
    firstCells 50 (PostFuncInt8C8 (ofArray PostAddTest1_in) (ofArray PostAddTest1_bias)
      (fun _ => 0) 10 5 PostAddTest1_quant_multiplier 0 5 83 0 6) = PostAddTest1_co_relu6 := by
  decide!

set_option maxRecDepth 100000 in
/-- Test `PackWeight2`: the packed weights are the array `co`. -/
theorem PackWeight2_conforms :
    firstCells 528 (PackNHWCToC8HWN8Int8 (ofArray PackWeight2_in) (fun _ => 0) 22 1 20) =
      PackWeight2_co := by
  decide!

set_option maxRecDepth 100000 in
/-- Test `MatMulOptTest1`: the whole pipeline yields `correct_tmp_output`. -/
theorem MatMulOptTest1_pipeline_conforms :
    firstCells 288 (MatMulOptPipeline (ofArray MatMulOptTest1_a_src_ptr)
      (ofArray MatMulOptTest1_b_src_ptr) 15 (-20) 10 12 6 3 (fun _ => 0) (fun _ => 0)
      (fun _ => 0)) = MatMulOptTest1_correct_tmp_output := by
  decide!

end MindSpore
